import Mathlib

/-! # yurt-device-controller: reconciliation loop, admission filter and DTO mapper

A shallow embedding of

* `pkg/controllers/device_controller.go`
* `pkg/controllers/deviceprofile_controller.go`
* `pkg/controllers/predicate.go`
* `pkg/clients/edgex-foundry/util.go`

The local object store and the remote edge client are external collaborators.
They are modelled as a deterministic environment over an arbitrary state type
`σ`: every call takes the current state and returns its outcome together with
the next state, so an outcome may depend on everything that happened before.
Every call a reconciler makes is appended, with its outcome, to a trace.

Conventions of the embedding:

* a Go map is a list of key/value pairs (keys distinct, order irrelevant);
  ranging over `Spec.DeviceProperties` is ranging over a list of values;
* a call returning `(*T, error)` whose pointer the source dereferences without
  a nil test whenever the error is nil is an `Except`; `GetPropertyState`,
  whose pointer the source does test against nil, returns the pair;
* a nil pointer dereference is the outcome `panicked`;
* a successful `Patch` of the finalizers leaves the object as it was, with the
  finalizers replaced; a successful `Status().Update` leaves the object as
  written; a failed store call leaves the object untouched;
* conditions carry no timestamps; the summary `conditions.SetSummary` computes
  is a parameter of the environment; the message of a condition is
  `fmt.Sprintf` of the message format without operands, and what `fmt.Sprintf`
  makes of a flag, a width, a precision or an argument index is a parameter of
  the environment;
* the API types of `apis/device.openyurt.io/v1alpha1` and the DTOs of
  go-mod-core-contracts are not among the sources: the structures below carry
  the fields the four source files read or write.
-/

namespace YurtDeviceController

/-! ## Go maps -/

/-- A Go map with string keys: its key/value pairs. -/
abbrev GoMap (V : Type) := List (String × V)

/-- Go `v, ok := m[k]`. -/
def GoMap.get? {V : Type} (m : GoMap V) (k : String) : Option V :=
  (m.find? (fun kv => kv.1 == k)).map Prod.snd

/-- Go `m[k] = v`: overwrite the entry of `k`, or add one. -/
def GoMap.set {V : Type} : GoMap V → String → V → GoMap V
  | [], k, v => [(k, v)]
  | (k', v') :: rest, k, v =>
    if k' == k then (k, v) :: rest else (k', v') :: GoMap.set rest k v

/-! ## Errors -/

/-- The errors the reconcilers see.  `edgeNotFound` is the error recognised by
`clients.IsNotFoundErr`; `apiNotFound` and `apiConflict` are the store errors
recognised by `apierrors.IsNotFound` and `apierrors.IsConflict`; `wrapped` is
an error built by `fmt.Errorf` with `%v`. -/
inductive Err where
  | edgeNotFound
  | edgeOther (msg : String)
  | apiNotFound
  | apiConflict
  | apiOther (msg : String)
  | wrapped (msg : String)
  deriving DecidableEq, Repr

/-- Go `err.Error()`. -/
def Err.Error : Err → String
  | .edgeNotFound => "not found"
  | .edgeOther msg => msg
  | .apiNotFound => "not found"
  | .apiConflict => "conflict"
  | .apiOther msg => msg
  | .wrapped msg => msg

/-- The check `clients.IsNotFoundErr`. -/
def IsNotFoundErr : Err → Bool
  | .edgeNotFound => true
  | _ => false

/-- The check `apierrors.IsNotFound`. -/
def apiIsNotFound : Err → Bool
  | .apiNotFound => true
  | _ => false

/-- The check `apierrors.IsConflict`. -/
def IsConflict : Err → Bool
  | .apiConflict => true
  | _ => false

/-- The helper `client.IgnoreNotFound`. -/
def IgnoreNotFound (err : Err) : Option Err :=
  if apiIsNotFound err then none else some err

/-! ## Object model -/

/-- The part of `metav1.ObjectMeta` the reconcilers use. -/
structure ObjectMeta where
  name : String := ""
  namespace_ : String := ""
  labels : GoMap String := []
  finalizers : List String := []
  deletionTimestamp : Option Nat := none
  deriving DecidableEq, Repr

/-- Go `DeletionTimestamp.IsZero()`: a nil pointer or the zero instant. -/
def ObjectMeta.deletionIsZero (m : ObjectMeta) : Bool :=
  match m.deletionTimestamp with
  | none => true
  | some t => t == 0

/-- One condition of `clusterv1.Conditions`, without its timestamp. -/
structure Condition where
  type : String
  status : Bool
  severity : String := ""
  reason : String := ""
  message : String := ""
  deriving DecidableEq, Repr

structure DesiredPropertyState where
  name : String
  putURL : String := ""
  desiredValue : String
  deriving DecidableEq, Repr

structure ActualPropertyState where
  name : String := ""
  getURL : String := ""
  actualValue : String := ""
  deriving DecidableEq, Repr

structure DeviceSpec where
  description : String := ""
  adminState : String := ""
  operatingState : String := ""
  protocols : GoMap (GoMap String) := []
  labels : List String := []
  location : String := ""
  service : String := ""
  profile : String := ""
  managed : Bool := false
  nodePool : String := ""
  deviceProperties : List DesiredPropertyState := []
  deriving DecidableEq, Repr

structure DeviceStatus where
  lastConnected : Int := 0
  lastReported : Int := 0
  synced : Bool := false
  edgeId : String := ""
  adminState : String := ""
  operatingState : String := ""
  deviceProperties : Option (GoMap ActualPropertyState) := none
  conditions : List Condition := []
  deriving DecidableEq, Repr

structure Device where
  meta : ObjectMeta := {}
  spec : DeviceSpec := {}
  status : DeviceStatus := {}
  deriving DecidableEq, Repr

def DeviceFinalizer : String := "device.openyurt.io/device"
def DeviceProfileFinalizer : String := "device.openyurt.io/deviceprofile"
def EdgeXObjectName : String := "device-controller/edgex-object.name"
def DeviceSyncedCondition : String := "DeviceSynced"
def DeviceManagingCondition : String := "DeviceManaging"
def ConditionSeverityWarning : String := "Warning"
def ConditionSeverityInfo : String := "Info"
def Up : String := "UP"
def Down : String := "DOWN"
def Locked : String := "LOCKED"
def UnLocked : String := "UNLOCKED"

/-- Go `time.Second`, in nanoseconds. -/
def timeSecond : Nat := 1000000000

/-- The type `ctrl.Result`. -/
structure Result where
  Requeue : Bool := false
  RequeueAfter : Nat := 0
  deriving DecidableEq, Repr

/-- Modelled from the spec: `util.GetEdgeDeviceName` of `pkg/controllers/util`
is not among the sources; the edge-visible name is the value of the well-known
label when present, else the local name (as `getEdgeDeviceName` of
`edgex-foundry/util.go` computes it). -/
def GetEdgeDeviceName (m : ObjectMeta) (label : String) : String :=
  match GoMap.get? m.labels label with
  | some v => v
  | none => m.name

/-! ## Conditions -/

/-- The helper `conditions.Set`: replace the condition of the same type, or add
it (the library also keeps the conditions sorted, which no statement here
depends on). -/
def conditionsSet : List Condition → Condition → List Condition
  | [], c => [c]
  | c' :: rest, c => if c'.type == c.type then c :: rest else c' :: conditionsSet rest c

/-- Whether a character that follows a `%` opens a flag, a width, a precision or
an argument index of a formatting directive, instead of being its verb. -/
def isDirectiveChar (c : Char) : Bool := "#0+- [*.123456789".data.contains c

/-- Whether a format holds a `%` that is followed by a flag, a width, a precision
or an argument index. -/
def hasDirective : List Char → Bool
  | [] => false
  | c :: rest =>
    if c == '%' then
      match rest with
      | [] => false
      | v :: rest' => isDirectiveChar v || hasDirective rest'
    else hasDirective rest

/-- The text `fmt.Sprintf` makes, without operands, of a format in which every `%`
is directly followed by its verb or ends the format: other characters are
copied, `%%` gives `%`, any other verb `v` has no operand and gives
`%!v(MISSING)`, and a `%` that ends the format gives `%!(NOVERB)`. -/
def sprintfVerbs : List Char → List Char
  | [] => []
  | c :: rest =>
    if c == '%' then
      match rest with
      | [] => "%!(NOVERB)".data
      | v :: rest' =>
        if v == '%' then '%' :: sprintfVerbs rest'
        else "%!".data ++ v :: "(MISSING)".data ++ sprintfVerbs rest'
    else c :: sprintfVerbs rest

/-- The call `fmt.Sprintf(format)` without operands. What it makes of a format
that holds a flag, a width, a precision or an argument index is the parameter
`directives`; a format without `%` comes back unchanged. -/
def Sprintf (directives : String → String) (format : String) : String :=
  if hasDirective format.data then directives format
  else String.mk (sprintfVerbs format.data)

/-- The helper `conditions.MarkFalse`: the message of the condition is
`fmt.Sprintf(messageFormat)`, the helper being called without message arguments. -/
def MarkFalse (directives : String → String) (d : Device)
    (t reason severity messageFormat : String) : Device :=
  { d with status := { d.status with
      conditions := conditionsSet d.status.conditions
        { type := t, status := false, severity := severity, reason := reason,
          message := Sprintf directives messageFormat } } }

/-- The helper `conditions.MarkTrue`. -/
def MarkTrue (d : Device) (t : String) : Device :=
  { d with status := { d.status with
      conditions := conditionsSet d.status.conditions { type := t, status := true } } }

/-- The helper `conditions.SetSummary`: set the summary condition computed by
`summary` from the listed conditions, when there is one. -/
def SetSummary (summary : List Condition → Option Condition) (d : Device) : Device :=
  match summary (d.status.conditions.filter
      (fun c => c.type == DeviceSyncedCondition || c.type == DeviceManagingCondition)) with
  | some c => { d with status := { d.status with
      conditions := conditionsSet d.status.conditions c } }
  | none => d

/-! ## Trace of calls to the collaborators -/

/-- Where in `Reconcile` a status write is issued. -/
inductive Site where
  | registration
  | managedUpdate
  | endOfPass
  deriving DecidableEq, Repr

deriving instance DecidableEq for Except

structure DeviceProfileStatus where
  edgeId : String := ""
  synced : Bool := false
  deriving DecidableEq, Repr

/-- One call to the local store or to the remote edge client, with its outcome.
A remote `Get` or `Create` records the edge id of the object returned. -/
inductive Event where
  | localGet (name : String) (res : Option Err)
  | patchFinalizers (fs : List String) (res : Option Err)
  | statusUpdate (site : Site) (st : DeviceStatus) (res : Option Err)
  | profileStatusUpdate (st : DeviceProfileStatus) (res : Option Err)
  | remoteGet (name : String) (res : Except Err String)
  | remoteCreate (name : String) (res : Except Err String)
  | remoteUpdate (d : Device) (res : Option Err)
  | remoteDelete (name : String) (res : Option Err)
  | remoteGetProperty (prop : String) (res : Option ActualPropertyState × Option Err)
  | remoteUpdateProperty (prop : String) (res : Option Err)
  deriving DecidableEq, Repr

/-- A call to the remote edge client. -/
def Event.isRemote : Event → Bool
  | .remoteGet _ _ => true
  | .remoteCreate _ _ => true
  | .remoteUpdate _ _ => true
  | .remoteDelete _ _ => true
  | .remoteGetProperty _ _ => true
  | .remoteUpdateProperty _ _ => true
  | _ => false

/-- A read or a write of one property on the remote device. -/
def Event.isPropertyCall : Event → Bool
  | .remoteGetProperty _ _ => true
  | .remoteUpdateProperty _ _ => true
  | _ => false

def Event.isRemoteCreate : Event → Bool
  | .remoteCreate _ _ => true
  | _ => false

/-- A metadata patch. -/
def Event.isPatch : Event → Bool
  | .patchFinalizers _ _ => true
  | _ => false

/-- A status write, of a device or of a profile. -/
def Event.isStatusWrite : Event → Bool
  | .statusUpdate _ _ _ => true
  | .profileStatusUpdate _ _ => true
  | _ => false

/-- The state of the collaborators and the calls made so far. -/
structure World (σ : Type) where
  st : σ
  trace : List Event := []

/-! ## Device reconciler -/

/-- The collaborators of `DeviceReconciler`: the store client embedded in the
reconciler (`Get`, `Patch`, `Status().Update`) and `deviceCli`; `summary` and
`sprintfDirectives` are the two library parameters of `SetSummary` and
`Sprintf`. -/
structure DeviceEnv (σ : Type) where
  storeGet : σ → String → Except Err Device × σ
  storePatch : σ → Device → List String → Option Err × σ
  storeStatusUpdate : σ → Device → Option Err × σ
  Get : σ → String → Except Err Device × σ
  Create : σ → Device → Except Err Device × σ
  Update : σ → Device → Option Err × σ
  Delete : σ → String → Option Err × σ
  GetPropertyState : σ → String → Device → (Option ActualPropertyState × Option Err) × σ
  UpdatePropertyState : σ → String → Device → Option Err × σ
  summary : List Condition → Option Condition
  sprintfDirectives : String → String

structure DeviceReconciler (σ : Type) where
  env : DeviceEnv σ
  NodePool : String

variable {σ : Type}

/-- The edge id a remote call returned. -/
def edgeIdOf (r : Except Err Device) : Except Err String :=
  match r with
  | .ok d => .ok d.status.edgeId
  | .error e => .error e

/-- The device as the store returns it after a merge patch of `metadata.finalizers`. -/
def Device.withFinalizers (d : Device) (fs : List String) : Device :=
  { d with meta := { d.meta with finalizers := fs } }

/-- The call `r.Patch` with a merge patch of `metadata.finalizers`. -/
def DeviceReconciler.Patch (r : DeviceReconciler σ) (w : World σ) (d : Device)
    (fs : List String) : Option Err × Device × World σ :=
  let (res, s) := r.env.storePatch w.st d fs
  let w1 : World σ := { st := s, trace := w.trace ++ [Event.patchFinalizers fs res] }
  match res with
  | some e => (some e, d, w1)
  | none => (none, d.withFinalizers fs, w1)

/-- The call `r.Status().Update`. -/
def DeviceReconciler.StatusUpdate (r : DeviceReconciler σ) (site : Site) (w : World σ)
    (d : Device) : Option Err × World σ :=
  let (res, s) := r.env.storeStatusUpdate w.st d
  (res, { st := s, trace := w.trace ++ [Event.statusUpdate site d.status res] })

/-- Source: `DeviceReconciler.reconcileDeleteDevice`. -/
def DeviceReconciler.reconcileDeleteDevice (r : DeviceReconciler σ) (w : World σ)
    (d : Device) : Option Err × Device × World σ :=
  let edgeDeviceName := GetEdgeDeviceName d.meta EdgeXObjectName
  if d.meta.deletionIsZero then
    if d.meta.finalizers.length == 0 then
      match r.Patch w d [DeviceFinalizer] with
      | (some err, d1, w1) => (some err, d1, w1)
      | (none, d1, w1) => (none, d1, w1)
    else (none, d, w)
  else
    let (err, s) := r.env.Delete w.st edgeDeviceName
    let w1 : World σ := { st := s, trace := w.trace ++ [Event.remoteDelete edgeDeviceName err] }
    match err with
    | some e =>
      if !IsNotFoundErr e then (some e, d, w1)
      else r.Patch w1 d []
    | none => r.Patch w1 d []

/-- Source: `DeviceReconciler.reconcileCreateDevice`. -/
def DeviceReconciler.reconcileCreateDevice (r : DeviceReconciler σ) (w : World σ)
    (d : Device) : Option Err × Device × World σ :=
  let edgeDeviceName := GetEdgeDeviceName d.meta EdgeXObjectName
  let newDeviceStatus := d.status
  let (got, s) := r.env.Get w.st edgeDeviceName
  let w1 : World σ := { st := s, trace := w.trace ++ [Event.remoteGet edgeDeviceName (edgeIdOf got)] }
  match got with
  | .ok edgeDevice =>
    let newDeviceStatus := { newDeviceStatus with edgeId := edgeDevice.status.edgeId, synced := true }
    let d1 := MarkTrue { d with status := newDeviceStatus } DeviceSyncedCondition
    let (res, w2) := r.StatusUpdate Site.registration w1 d1
    (res, d1, w2)
  | .error err =>
    if IsNotFoundErr err then
      let (created, s2) := r.env.Create w1.st d
      let w2 : World σ :=
        { st := s2, trace := w1.trace ++ [Event.remoteCreate d.meta.name (edgeIdOf created)] }
      match created with
      | .error err =>
        (some (Err.wrapped ("fail to add Device to edge platform: " ++ err.Error)),
          MarkFalse r.env.sprintfDirectives d DeviceSyncedCondition
            "failed to create device on edge platform"
            ConditionSeverityWarning err.Error, w2)
      | .ok createdEdgeObj =>
        let newDeviceStatus :=
          { newDeviceStatus with edgeId := createdEdgeObj.status.edgeId, synced := true }
        let d1 := MarkTrue { d with status := newDeviceStatus } DeviceSyncedCondition
        let (res, w3) := r.StatusUpdate Site.registration w2 d1
        (res, d1, w3)
    else
      (none, MarkFalse r.env.sprintfDirectives d DeviceSyncedCondition
        "failed to visit the EdgeX core-metadata-service"
        ConditionSeverityWarning "", w1)

/-- How a Go function call ends: by returning, or in a run-time panic. -/
inductive Completion (α : Type) where
  | returned (a : α)
  | panicked
  deriving DecidableEq, Repr

/-- Go `st.DeviceProperties[name] = ap`, after the map was made when it was nil. -/
def DeviceStatus.setProperty (st : DeviceStatus) (name : String) (ap : ActualPropertyState) :
    DeviceStatus :=
  { st with deviceProperties := some (GoMap.set (st.deviceProperties.getD []) name ap) }

/-- The entry of property `name` in the status, if any. -/
def DeviceStatus.property? (st : DeviceStatus) (name : String) : Option ActualPropertyState :=
  GoMap.get? (st.deviceProperties.getD []) name

/-- Source: the test `err != nil` and `!clients.IsNotFoundErr(err)` on the error
of `GetPropertyState`: the read failed with an error other than not-found. -/
def readFailed (err : Option Err) : Bool :=
  match err with
  | some err => !IsNotFoundErr err
  | none => false

/-- Source: the body of the loop of `DeviceReconciler.reconcileDeviceProperties`,
for one desired property, from the status and the failed names so far; it ends
at a `continue`, at the end of the body, or in a panic.
`actualProperty.GetURL` is evaluated (as an argument of the log call) right
after the read, whatever the verbosity: a nil `actualProperty` panics there,
before the nil test of the write step is reached. -/
def DeviceReconciler.propertyStep (r : DeviceReconciler σ) (d : Device)
    (desiredProperty : DesiredPropertyState) (newDeviceStatus : DeviceStatus)
    (failedPropertyNames : List String) (w : World σ) :
    Completion (DeviceStatus × List String) × World σ :=
  if desiredProperty.desiredValue == "" then
    (Completion.returned (newDeviceStatus, failedPropertyNames), w)
  else
    let propertyName := desiredProperty.name
    let (res, s) := r.env.GetPropertyState w.st propertyName d
    let w1 : World σ :=
      { st := s, trace := w.trace ++ [Event.remoteGetProperty propertyName res] }
    if readFailed res.2 then
      (Completion.returned (newDeviceStatus, failedPropertyNames ++ [propertyName]), w1)
    else
      match res.1 with
      | none => (Completion.panicked, w1)
      | some actualProperty =>
        let newDeviceStatus := newDeviceStatus.setProperty propertyName actualProperty
        if desiredProperty.desiredValue != actualProperty.actualValue then
          let (uerr, s2) := r.env.UpdatePropertyState w1.st propertyName d
          let w2 : World σ :=
            { st := s2, trace := w1.trace ++ [Event.remoteUpdateProperty propertyName uerr] }
          match uerr with
          | some _ =>
            (Completion.returned (newDeviceStatus, failedPropertyNames ++ [propertyName]), w2)
          | none =>
            let newActualProperty : ActualPropertyState :=
              { name := propertyName, getURL := actualProperty.getURL,
                actualValue := desiredProperty.desiredValue }
            (Completion.returned
              (newDeviceStatus.setProperty propertyName newActualProperty,
                failedPropertyNames), w2)
        else
          (Completion.returned (newDeviceStatus, failedPropertyNames), w1)

/-- Source: the `for ... range d.Spec.DeviceProperties` loop of
`DeviceReconciler.reconcileDeviceProperties`, over the properties still to visit. -/
def DeviceReconciler.propertiesLoop (r : DeviceReconciler σ) (d : Device) :
    List DesiredPropertyState → DeviceStatus → List String → World σ →
      Completion (DeviceStatus × List String) × World σ
  | [], newDeviceStatus, failedPropertyNames, w =>
    (Completion.returned (newDeviceStatus, failedPropertyNames), w)
  | desiredProperty :: rest, newDeviceStatus, failedPropertyNames, w =>
    match r.propertyStep d desiredProperty newDeviceStatus failedPropertyNames w with
    | (Completion.panicked, w1) => (Completion.panicked, w1)
    | (Completion.returned (newDeviceStatus, failedPropertyNames), w1) =>
      r.propertiesLoop d rest newDeviceStatus failedPropertyNames w1

/-- Source: `DeviceReconciler.reconcileDeviceProperties`. -/
def DeviceReconciler.reconcileDeviceProperties (r : DeviceReconciler σ) (w : World σ)
    (d : Device) (deviceStatus : DeviceStatus) :
    Completion (DeviceStatus × List String) × World σ :=
  r.propertiesLoop d d.spec.deviceProperties deviceStatus [] w

/-- Go `fmt.Sprintf("%v", names)` for a slice of strings. -/
def fmtNames (names : List String) : String :=
  "[" ++ " ".intercalate names ++ "]"

/-- Source: step 1 of `DeviceReconciler.reconcileUpdateDevice`, up to the remote
call: the new status mirroring the changed states, and the copy of the device
handed to the remote Update, in which an unchanged state is blanked. -/
def reconcileStates (d : Device) : DeviceStatus × Device :=
  let newDeviceStatus := d.status
  let updateDevice := d
  let adminChanged := d.spec.adminState != "" && d.spec.adminState != d.status.adminState
  let newDeviceStatus :=
    if adminChanged then { newDeviceStatus with adminState := d.spec.adminState }
    else newDeviceStatus
  let updateDevice :=
    if adminChanged then updateDevice
    else { updateDevice with spec := { updateDevice.spec with adminState := "" } }
  let opChanged :=
    d.spec.operatingState != "" && d.spec.operatingState != d.status.operatingState
  let newDeviceStatus :=
    if opChanged then { newDeviceStatus with operatingState := d.spec.operatingState }
    else newDeviceStatus
  let updateDevice :=
    if opChanged then updateDevice
    else { updateDevice with spec := { updateDevice.spec with operatingState := "" } }
  (newDeviceStatus, updateDevice)

/-- Source: step 2 of `DeviceReconciler.reconcileUpdateDevice`: the property
loop, behind its guard on the resulting operating and administrative state. -/
def DeviceReconciler.gatedProperties (r : DeviceReconciler σ) (w : World σ) (d : Device)
    (newDeviceStatus : DeviceStatus) : Completion (DeviceStatus × List String) × World σ :=
  if newDeviceStatus.operatingState == Up && newDeviceStatus.adminState == UnLocked then
    r.reconcileDeviceProperties w d newDeviceStatus
  else (Completion.returned (newDeviceStatus, []), w)

/-- Source: step 3 of `DeviceReconciler.reconcileUpdateDevice`: the status write
and the managing condition. -/
def DeviceReconciler.writeManaged (r : DeviceReconciler σ) (w : World σ) (d : Device)
    (newDeviceStatus : DeviceStatus) (failedPropertyNames : List String) :
    Completion (Option Err) × Device × World σ :=
  let d1 := { d with status := newDeviceStatus }
  match r.StatusUpdate Site.managedUpdate w d1 with
  | (some e, w3) =>
    (Completion.returned (some e),
      MarkFalse r.env.sprintfDirectives d1 DeviceManagingCondition
        "failed to update status of device on openyurt"
        ConditionSeverityWarning e.Error, w3)
  | (none, w3) =>
    if failedPropertyNames.length != 0 then
      (Completion.returned none,
        MarkFalse r.env.sprintfDirectives d1 DeviceManagingCondition
          ("the following device properties failed to reconcile: " ++
            fmtNames failedPropertyNames)
          ConditionSeverityInfo "", w3)
    else (Completion.returned none, MarkTrue d1 DeviceManagingCondition, w3)

/-- Source: `DeviceReconciler.reconcileUpdateDevice`: step 1 (`reconcileStates`
and the remote Update), step 2 (`gatedProperties`), step 3 (`writeManaged`). -/
def DeviceReconciler.reconcileUpdateDevice (r : DeviceReconciler σ) (w : World σ)
    (d : Device) : Completion (Option Err) × Device × World σ :=
  match r.env.Update w.st (reconcileStates d).2 with
  | (some e, s) =>
    (Completion.returned (some e),
      MarkFalse r.env.sprintfDirectives d DeviceManagingCondition
        "failed to update AdminState or OperatingState of device on edge platform"
        ConditionSeverityWarning e.Error,
      { st := s, trace := w.trace ++ [Event.remoteUpdate (reconcileStates d).2 (some e)] })
  | (none, s) =>
    match r.gatedProperties
      { st := s, trace := w.trace ++ [Event.remoteUpdate (reconcileStates d).2 none] } d
      (reconcileStates d).1 with
    | (Completion.panicked, w2) => (Completion.panicked, d, w2)
    | (Completion.returned (newDeviceStatus, failedPropertyNames), w2) =>
      r.writeManaged w2 d newDeviceStatus failedPropertyNames

/-- Source: the deferred function of `DeviceReconciler.Reconcile`; the outcome
of its status write is only logged. -/
def DeviceReconciler.updateConditions (r : DeviceReconciler σ) (w : World σ)
    (d : Device) : Device × World σ :=
  let d1 :=
    if d.spec.managed != true then
      MarkFalse r.env.sprintfDirectives d DeviceManagingCondition
        "this device is not managed by openyurt"
        ConditionSeverityInfo ""
    else d
  let d2 := SetSummary r.env.summary d1
  let (_, w1) := r.StatusUpdate Site.endOfPass w d2
  (d2, w1)

/-- Source: `DeviceReconciler.Reconcile`, from the deletion phase to the last
`return` (the part the deferred function wraps). -/
def DeviceReconciler.reconcilePhases (r : DeviceReconciler σ) (w : World σ)
    (d : Device) : Completion (Result × Option Err) × Device × World σ :=
  match r.reconcileDeleteDevice w d with
  | (some err, d1, w1) => (Completion.returned ({}, IgnoreNotFound err), d1, w1)
  | (none, d1, w1) =>
    if !d1.meta.deletionIsZero then (Completion.returned ({}, none), d1, w1)
    else if d1.status.synced == false then
      match r.reconcileCreateDevice w1 d1 with
      | (some err, d2, w2) =>
        if IsConflict err then (Completion.returned ({ Requeue := true }, none), d2, w2)
        else (Completion.returned ({}, some err), d2, w2)
      | (none, d2, w2) => (Completion.returned ({}, none), d2, w2)
    else if d1.spec.managed == true then
      match r.reconcileUpdateDevice w1 d1 with
      | (Completion.panicked, d2, w2) => (Completion.panicked, d2, w2)
      | (Completion.returned (some err), d2, w2) =>
        if IsConflict err then
          (Completion.returned ({ RequeueAfter := timeSecond * 2 }, none), d2, w2)
        else (Completion.returned ({}, some err), d2, w2)
      | (Completion.returned none, d2, w2) => (Completion.returned ({}, none), d2, w2)
    else (Completion.returned ({}, none), d1, w1)

/-- What one reconciliation pass leaves behind. -/
structure Pass (σ : Type) where
  out : Completion (Result × Option Err)
  trace : List Event
  st : σ

/-- Source: `DeviceReconciler.Reconcile`, started in collaborator state `s`. -/
def DeviceReconciler.Reconcile (r : DeviceReconciler σ) (s : σ) (req : String) : Pass σ :=
  match r.env.storeGet s req with
  | (.error err, s1) =>
    { out := Completion.returned ({}, IgnoreNotFound err),
      trace := [Event.localGet req (some err)], st := s1 }
  | (.ok d, s1) =>
    let w : World σ := { st := s1, trace := [Event.localGet req none] }
    if d.spec.nodePool != r.NodePool then
      { out := Completion.returned ({}, none), trace := w.trace, st := w.st }
    else
      let (out, d1, w1) := r.reconcilePhases w d
      let (_, w2) := r.updateConditions w1 d1
      { out := out, trace := w2.trace, st := w2.st }

/-! ## Device profiles -/

structure ResourceProperties where
  valueType : String := ""
  readWrite : String := ""
  minimum : String := ""
  maximum : String := ""
  defaultValue : String := ""
  mask : String := ""
  shift : String := ""
  scale : String := ""
  offset : String := ""
  base : String := ""
  assertion : String := ""
  mediaType : String := ""
  units : String := ""
  deriving DecidableEq, Repr

structure DeviceResource where
  description : String := ""
  name : String := ""
  tag : String := ""
  isHidden : Bool := false
  properties : ResourceProperties := {}
  attributes : GoMap String := []
  deriving DecidableEq, Repr

structure ResourceOperation where
  deviceResource : String := ""
  mappings : GoMap String := []
  defaultValue : String := ""
  deriving DecidableEq, Repr

structure DeviceCommand where
  name : String := ""
  readWrite : String := ""
  isHidden : Bool := false
  resourceOperations : List ResourceOperation := []
  deriving DecidableEq, Repr

structure DeviceProfileSpec where
  description : String := ""
  manufacturer : String := ""
  model : String := ""
  labels : List String := []
  deviceResources : List DeviceResource := []
  deviceCommands : List DeviceCommand := []
  nodePool : String := ""
  deriving DecidableEq, Repr

structure DeviceProfile where
  meta : ObjectMeta := {}
  spec : DeviceProfileSpec := {}
  status : DeviceProfileStatus := {}
  deriving DecidableEq, Repr

/-- Modelled from the spec: `util.GetEdgeDeviceProfileName` of
`pkg/controllers/util` is not among the sources; the edge-visible name is the
value of the well-known label when present, else the local name. -/
def GetEdgeDeviceProfileName (m : ObjectMeta) (label : String) : String :=
  match GoMap.get? m.labels label with
  | some v => v
  | none => m.name

/-- The collaborators of `DeviceProfileReconciler`: the embedded store client
and `edgeClient`. -/
structure ProfileEnv (σ : Type) where
  storeGet : σ → String → Except Err DeviceProfile × σ
  storePatch : σ → DeviceProfile → List String → Option Err × σ
  storeStatusUpdate : σ → DeviceProfile → Option Err × σ
  Get : σ → String → Except Err DeviceProfile × σ
  Create : σ → DeviceProfile → Except Err DeviceProfile × σ
  Delete : σ → String → Option Err × σ

structure DeviceProfileReconciler (σ : Type) where
  env : ProfileEnv σ
  NodePool : String

/-- The edge id of the profile a remote call returned. -/
def profileEdgeIdOf (r : Except Err DeviceProfile) : Except Err String :=
  match r with
  | .ok dp => .ok dp.status.edgeId
  | .error e => .error e

/-- The profile as the store returns it after a merge patch of `metadata.finalizers`. -/
def DeviceProfile.withFinalizers (dp : DeviceProfile) (fs : List String) : DeviceProfile :=
  { dp with meta := { dp.meta with finalizers := fs } }

/-- The call `r.Patch` with a merge patch of `metadata.finalizers`
(`json.Marshal` of the patch, a map of strings, does not fail). -/
def DeviceProfileReconciler.Patch (r : DeviceProfileReconciler σ) (w : World σ)
    (dp : DeviceProfile) (fs : List String) : Option Err × DeviceProfile × World σ :=
  let (res, s) := r.env.storePatch w.st dp fs
  let w1 : World σ := { st := s, trace := w.trace ++ [Event.patchFinalizers fs res] }
  match res with
  | some e => (some e, dp, w1)
  | none => (none, dp.withFinalizers fs, w1)

/-- The call `r.Status().Update`. -/
def DeviceProfileReconciler.StatusUpdate (r : DeviceProfileReconciler σ) (w : World σ)
    (dp : DeviceProfile) : Option Err × World σ :=
  let (res, s) := r.env.storeStatusUpdate w.st dp
  (res, { st := s, trace := w.trace ++ [Event.profileStatusUpdate dp.status res] })

/-- Source: `DeviceProfileReconciler.reconcileDeleteDeviceProfile`. -/
def DeviceProfileReconciler.reconcileDeleteDeviceProfile (r : DeviceProfileReconciler σ)
    (w : World σ) (dp : DeviceProfile) (actualName : String) :
    Option Err × DeviceProfile × World σ :=
  if dp.meta.deletionIsZero then
    if dp.meta.finalizers.length == 0 then
      match r.Patch w dp [DeviceProfileFinalizer] with
      | (some err, dp1, w1) => (some err, dp1, w1)
      | (none, dp1, w1) => (none, dp1, w1)
    else (none, dp, w)
  else
    match r.Patch w dp [] with
    | (some err, dp1, w1) => (some err, dp1, w1)
    | (none, dp1, w1) =>
      let (err, s) := r.env.Delete w1.st actualName
      let w2 : World σ := { st := s, trace := w1.trace ++ [Event.remoteDelete actualName err] }
      match err with
      | some e => if !IsNotFoundErr e then (some e, dp1, w2) else (none, dp1, w2)
      | none => (none, dp1, w2)

/-- Source: `DeviceProfileReconciler.reconcileCreateDeviceProfile`. -/
def DeviceProfileReconciler.reconcileCreateDeviceProfile (r : DeviceProfileReconciler σ)
    (w : World σ) (dp : DeviceProfile) (actualName : String) :
    Option Err × DeviceProfile × World σ :=
  let (got, s) := r.env.Get w.st actualName
  let w1 : World σ :=
    { st := s, trace := w.trace ++ [Event.remoteGet actualName (profileEdgeIdOf got)] }
  match got with
  | .error err =>
    if !IsNotFoundErr err then (none, dp, w1)
    else
      let (created, s2) := r.env.Create w1.st dp
      let w2 : World σ :=
        { st := s2,
          trace := w1.trace ++ [Event.remoteCreate dp.meta.name (profileEdgeIdOf created)] }
      match created with
      | .error err =>
        (some (Err.wrapped ("failed to add deviceProfile to edge platform: " ++ err.Error)),
          dp, w2)
      | .ok createDp =>
        let dp1 :=
          { dp with status := { dp.status with edgeId := createDp.status.edgeId, synced := true } }
        let (res, w3) := r.StatusUpdate w2 dp1
        (res, dp1, w3)
  | .ok edgeDp =>
    let dp1 :=
      { dp with status := { dp.status with synced := true, edgeId := edgeDp.status.edgeId } }
    let (res, w2) := r.StatusUpdate w1 dp1
    (res, dp1, w2)

/-- What one pass of the profile reconciler leaves behind. -/
structure ProfilePass (σ : Type) where
  result : Result
  err : Option Err
  trace : List Event
  obj : Option DeviceProfile
  st : σ

/-- Source: `DeviceProfileReconciler.Reconcile`, started in collaborator state `s`. -/
def DeviceProfileReconciler.Reconcile (r : DeviceProfileReconciler σ) (s : σ)
    (req : String) : ProfilePass σ :=
  match r.env.storeGet s req with
  | (.error err, s1) =>
    { result := {}, err := IgnoreNotFound err, trace := [Event.localGet req (some err)],
      obj := none, st := s1 }
  | (.ok dp, s1) =>
    let w : World σ := { st := s1, trace := [Event.localGet req none] }
    if dp.spec.nodePool != r.NodePool then
      { result := {}, err := none, trace := w.trace, obj := some dp, st := w.st }
    else
      let dpActualName := GetEdgeDeviceProfileName dp.meta EdgeXObjectName
      match r.reconcileDeleteDeviceProfile w dp dpActualName with
      | (some err, dp1, w1) =>
        { result := {}, err := IgnoreNotFound err, trace := w1.trace, obj := some dp1, st := w1.st }
      | (none, dp1, w1) =>
        if !dp1.meta.deletionIsZero then
          { result := {}, err := none, trace := w1.trace, obj := some dp1, st := w1.st }
        else if dp1.status.synced == false then
          match r.reconcileCreateDeviceProfile w1 dp1 dpActualName with
          | (some err, dp2, w2) =>
            if IsConflict err then
              { result := { Requeue := true }, err := none, trace := w2.trace, obj := some dp2,
                st := w2.st }
            else
              { result := {}, err := some err, trace := w2.trace, obj := some dp2, st := w2.st }
          | (none, dp2, w2) =>
            { result := {}, err := none, trace := w2.trace, obj := some dp2, st := w2.st }
        else
          { result := {}, err := none, trace := w1.trace, obj := some dp1, st := w1.st }

/-! ## Change-admission filter -/

/-- Modelled from the spec: the interface `devicev1alpha1.EdgeXObject` and its
implementations are not among the sources; an object of the API group exposes
its "added to remote platform" indicator, which is the `synced` status flag. -/
inductive Object where
  | device (d : Device)
  | deviceProfile (dp : DeviceProfile)
  | other (kind : String)
  deriving DecidableEq, Repr

/-- Modelled from the spec: the method `IsAddedToEdgeX` of an object that
implements `EdgeXObject` returns its `synced` status flag; `none` for an
object that does not implement the interface (the type assertion fails). -/
def Object.IsAddedToEdgeX? : Object → Option Bool
  | .device d => some d.status.synced
  | .deviceProfile dp => some dp.status.synced
  | .other _ => none

/-- The type `event.UpdateEvent`. -/
structure UpdateEvent where
  ObjectOld : Object
  ObjectNew : Object
  deriving DecidableEq, Repr

/-- The type `predicate.Funcs` of controller-runtime: a function left unset
admits the event. -/
structure Funcs where
  CreateFunc : Option (Object → Bool) := none
  DeleteFunc : Option (Object → Bool) := none
  UpdateFunc : Option (UpdateEvent → Bool) := none
  GenericFunc : Option (Object → Bool) := none

def Funcs.Create (p : Funcs) (e : Object) : Bool :=
  match p.CreateFunc with
  | some f => f e
  | none => true

def Funcs.Delete (p : Funcs) (e : Object) : Bool :=
  match p.DeleteFunc with
  | some f => f e
  | none => true

def Funcs.Update (p : Funcs) (e : UpdateEvent) : Bool :=
  match p.UpdateFunc with
  | some f => f e
  | none => true

/-- Source: the `UpdateFunc` closure of `genFirstUpdateFilter`. -/
def firstUpdateFunc (e : UpdateEvent) : Bool :=
  match e.ObjectOld.IsAddedToEdgeX? with
  | none => false
  | some oldAdded =>
    match e.ObjectNew.IsAddedToEdgeX? with
    | none => false
    | some newAdded =>
      if oldAdded == false && newAdded == true then false
      else true

/-- Source: `genFirstUpdateFilter`; `objKind` is only logged. -/
def genFirstUpdateFilter (_objKind : String) : Funcs :=
  { UpdateFunc := some firstUpdateFunc }

/-! ## DTO mapper -/

/-- A Go `float64`, by its bit pattern. -/
structure Float64 where
  bits : Nat
  deriving DecidableEq, Repr

/-- A dynamically typed attribute value (`interface{}`) of the remote side, by
its Go type: a `string`, an `int`, a `float64`; `stringer` is a value of any
other type that has a `String()` method, and carries the result of that method;
`otherInt` is an integer of a type other than `int` (`int8` to `int64`, `uint`
to `uint64`, a named integer type) that has no `String()` method; `float32` is
a `float32`, by its bit pattern; `other` is any other value (a boolean, `nil`,
a slice, a map). -/
inductive AttrValue where
  | str (s : String)
  | int (i : Int)
  | float64 (f : Float64)
  | stringer (rendered : String)
  | otherInt (i : Int)
  | float32 (bits : Nat)
  | other
  deriving DecidableEq, Repr

namespace dtos

structure ResourceProperties where
  valueType : String := ""
  readWrite : String := ""
  minimum : String := ""
  maximum : String := ""
  defaultValue : String := ""
  mask : String := ""
  shift : String := ""
  scale : String := ""
  offset : String := ""
  base : String := ""
  assertion : String := ""
  mediaType : String := ""
  units : String := ""
  deriving DecidableEq, Repr

structure DeviceResource where
  description : String := ""
  name : String := ""
  tag : String := ""
  isHidden : Bool := false
  properties : ResourceProperties := {}
  attributes : GoMap AttrValue := []
  deriving DecidableEq, Repr

structure ResourceOperation where
  deviceResource : String := ""
  mappings : GoMap String := []
  defaultValue : String := ""
  deriving DecidableEq, Repr

structure DeviceCommand where
  name : String := ""
  readWrite : String := ""
  isHidden : Bool := false
  resourceOperations : List ResourceOperation := []
  deriving DecidableEq, Repr

structure DeviceProfile where
  id : String := ""
  description : String := ""
  name : String := ""
  manufacturer : String := ""
  model : String := ""
  labels : List String := []
  deviceResources : List DeviceResource := []
  deviceCommands : List DeviceCommand := []
  deriving DecidableEq, Repr

end dtos

/-- Source: `toEdgeXProfileProperty`. -/
def toEdgeXProfileProperty (pp : ResourceProperties) : dtos.ResourceProperties :=
  { readWrite := pp.readWrite
    minimum := pp.minimum
    maximum := pp.maximum
    defaultValue := pp.defaultValue
    mask := pp.mask
    shift := pp.shift
    scale := pp.scale
    offset := pp.offset
    base := pp.base
    assertion := pp.assertion
    mediaType := pp.mediaType
    units := pp.units
    valueType := pp.valueType }

/-- Source: `toEdgeXDeviceResource`. -/
def toEdgeXDeviceResource (dr : DeviceResource) : dtos.DeviceResource :=
  let genericAttrs : GoMap AttrValue := dr.attributes.map (fun kv => (kv.1, AttrValue.str kv.2))
  { description := dr.description
    name := dr.name
    tag := dr.tag
    properties := toEdgeXProfileProperty dr.properties
    attributes := genericAttrs }

/-- Source: `toEdgeXDeviceResourceSlice`. -/
def toEdgeXDeviceResourceSlice (drs : List DeviceResource) : List dtos.DeviceResource :=
  drs.map toEdgeXDeviceResource

/-- Source: `toEdgeXResourceOperations`. -/
def toEdgeXResourceOperations (ros : List ResourceOperation) : List dtos.ResourceOperation :=
  ros.map (fun ro =>
    { deviceResource := ro.deviceResource, mappings := ro.mappings,
      defaultValue := ro.defaultValue })

/-- Source: `toEdgeXDeviceCommand`. -/
def toEdgeXDeviceCommand (dcs : List DeviceCommand) : List dtos.DeviceCommand :=
  dcs.map (fun dc =>
    { name := dc.name, readWrite := dc.readWrite, isHidden := dc.isHidden,
      resourceOperations := toEdgeXResourceOperations dc.resourceOperations })

/-- Source: `toEdgeXDeviceProfile`. -/
def toEdgeXDeviceProfile (dp : DeviceProfile) : dtos.DeviceProfile :=
  { description := dp.spec.description
    name := dp.meta.name
    manufacturer := dp.spec.manufacturer
    model := dp.spec.model
    labels := dp.spec.labels
    deviceResources := toEdgeXDeviceResourceSlice dp.spec.deviceResources
    deviceCommands := toEdgeXDeviceCommand dp.spec.deviceCommands }

/-- Source: `toKubeProfileProperty`. -/
def toKubeProfileProperty (rp : dtos.ResourceProperties) : ResourceProperties :=
  { valueType := rp.valueType
    readWrite := rp.readWrite
    minimum := rp.minimum
    maximum := rp.maximum
    defaultValue := rp.defaultValue
    mask := rp.mask
    shift := rp.shift
    scale := rp.scale
    offset := rp.offset
    base := rp.base
    assertion := rp.assertion
    mediaType := rp.mediaType
    units := rp.units }

/-- Source: the type switch of `toKubeDeviceResource`, which has the cases
`string`, `int`, `float64` and `fmt.Stringer` and no default; `fmtF` is
`fmt.Sprintf("%f", _)`. -/
def stringifyAttr (fmtF : Float64 → String) : AttrValue → Option String
  | .str s => some s
  | .int i => some (toString i)
  | .float64 f => some (fmtF f)
  | .stringer rendered => some rendered
  | .otherInt _ => none
  | .float32 _ => none
  | .other => none

/-- Source: `toKubeDeviceResource`. -/
def toKubeDeviceResource (fmtF : Float64 → String) (dr : dtos.DeviceResource) :
    DeviceResource :=
  let concreteAttrs : GoMap String :=
    dr.attributes.filterMap (fun kv => (stringifyAttr fmtF kv.2).map (fun v => (kv.1, v)))
  { description := dr.description
    name := dr.name
    tag := dr.tag
    isHidden := dr.isHidden
    properties := toKubeProfileProperty dr.properties
    attributes := concreteAttrs }

/-- Source: `toKubeDeviceResources`. -/
def toKubeDeviceResources (fmtF : Float64 → String) (drs : List dtos.DeviceResource) :
    List DeviceResource :=
  drs.map (toKubeDeviceResource fmtF)

/-- Source: `toKubeResourceOperations`. -/
def toKubeResourceOperations (ros : List dtos.ResourceOperation) : List ResourceOperation :=
  ros.map (fun ro =>
    { deviceResource := ro.deviceResource, mappings := ro.mappings,
      defaultValue := ro.defaultValue })

/-- Source: `toKubeDeviceCommand`. -/
def toKubeDeviceCommand (dcs : List dtos.DeviceCommand) : List DeviceCommand :=
  dcs.map (fun dc =>
    { name := dc.name, readWrite := dc.readWrite, isHidden := dc.isHidden,
      resourceOperations := toKubeResourceOperations dc.resourceOperations })

/-- Source: `toKubeDeviceProfile`; `lower` is `strings.ToLower`. -/
def toKubeDeviceProfile (fmtF : Float64 → String) (lower : String → String)
    (dp : dtos.DeviceProfile) : DeviceProfile :=
  { meta :=
      { name := lower dp.name, namespace_ := "default", labels := [(EdgeXObjectName, dp.name)] }
    spec :=
      { description := dp.description
        manufacturer := dp.manufacturer
        model := dp.model
        labels := dp.labels
        deviceResources := toKubeDeviceResources fmtF dp.deviceResources
        deviceCommands := toKubeDeviceCommand dp.deviceCommands }
    status := { edgeId := dp.id, synced := true } }

/-! ## Auxiliary definitions used by the statements -/

/-- The device as the registration phase writes it after adopting edge id `id`. -/
def registered (d : Device) (id : String) : Device :=
  MarkTrue { d with status := { d.status with edgeId := id, synced := true } }
    DeviceSyncedCondition

/-- What `Reconcile` returns after the registration phase returned `err`. -/
def registrationReturn (err : Option Err) : Completion (Result × Option Err) :=
  match err with
  | some e =>
    if IsConflict e then Completion.returned ({ Requeue := true }, none)
    else Completion.returned ({}, some e)
  | none => Completion.returned ({}, none)

/-- What `Reconcile` returns after the update phase ended with `c`. -/
def updateReturn (c : Completion (Option Err)) : Completion (Result × Option Err) :=
  match c with
  | Completion.panicked => Completion.panicked
  | Completion.returned (some e) =>
    if IsConflict e then Completion.returned ({ RequeueAfter := timeSecond * 2 }, none)
    else Completion.returned ({}, some e)
  | Completion.returned none => Completion.returned ({}, none)

/-- The state that results from applying a desired state to the last-known
one: the desired state when it is non-empty and differs, else the last-known. -/
def resultingState (desired last : String) : String :=
  if desired ≠ "" ∧ desired ≠ last then desired else last

/-- The helper `conditions.Get`: the condition of type `t` of the device, if set. -/
def conditionsGet (d : Device) (t : String) : Option Condition :=
  d.status.conditions.find? (fun c => c.type == t)

/-- The value kinds the specification lists for attribute stringification:
text, an integer, a floating-point number, or a value with a canonical
`String()` form. -/
def AttrValue.listedBySpec : AttrValue → Bool
  | .str _ => true
  | .int _ => true
  | .otherInt _ => true
  | .float64 _ => true
  | .float32 _ => true
  | .stringer _ => true
  | .other => false

/-- The categories of remote effect of a reconciliation pass. -/
inductive Category where
  | delete
  | create
  | update
  deriving DecidableEq, Repr

/-- The category of a mutating remote call; `none` for a remote read and for
a call to the local store. -/
def Event.category : Event → Option Category
  | .remoteDelete _ _ => some Category.delete
  | .remoteCreate _ _ => some Category.create
  | .remoteUpdate _ _ => some Category.update
  | .remoteUpdateProperty _ _ => some Category.update
  | _ => none

/-- A remote call of the registration phase: Get or Create. -/
def Event.isRegistrationCall : Event → Bool
  | .remoteGet _ _ => true
  | .remoteCreate _ _ => true
  | _ => false

/-- A remote call of the update phase: Update or a property read or write. -/
def Event.isUpdateCall : Event → Bool
  | .remoteUpdate _ _ => true
  | .remoteGetProperty _ _ => true
  | .remoteUpdateProperty _ _ => true
  | _ => false

/-- A remote Delete. -/
def Event.isRemoteDelete : Event → Bool
  | .remoteDelete _ _ => true
  | _ => false

/-! ## Scenarios -/

/-- A device environment in which every call succeeds and the remote object exists. -/
def okEnv : DeviceEnv Unit where
  storeGet := fun s _ => (.ok {}, s)
  storePatch := fun s _ _ => (none, s)
  storeStatusUpdate := fun s _ => (none, s)
  Get := fun s _ => (.ok { status := { edgeId := "edge-1", synced := true } }, s)
  Create := fun s _ => (.ok { status := { edgeId := "edge-2", synced := true } }, s)
  Update := fun s _ => (none, s)
  Delete := fun s _ => (none, s)
  GetPropertyState := fun s _ _ => ((some {}, none), s)
  UpdatePropertyState := fun s _ _ => (none, s)
  summary := fun _ => none
  sprintfDirectives := fun format => format

/-- The remote platform does not know the device. -/
def absentEnv : DeviceEnv Unit :=
  { okEnv with
    Get := fun s _ => (.error Err.edgeNotFound, s)
    Delete := fun s _ => (some Err.edgeNotFound, s) }

/-- A device of pool `pool-a` that is not registered yet and carries the finalizer. -/
def unsyncedDevice : Device :=
  { meta := { name := "d1", finalizers := [DeviceFinalizer] }
    spec := { nodePool := "pool-a", managed := true } }

/-- Collaborators whose state is the number of calls they have received: the
store holds `unsyncedDevice` and refuses the second status write with a
conflict; the remote platform already knows the device as `edge-7`. -/
def countingEnv : DeviceEnv Nat where
  storeGet := fun n _ => (.ok unsyncedDevice, n + 1)
  storePatch := fun n _ _ => (none, n + 1)
  storeStatusUpdate := fun n _ => (if n = 2 then none else some Err.apiConflict, n + 1)
  Get := fun n _ => (.ok { status := { edgeId := "edge-7", synced := true } }, n + 1)
  Create := fun n _ => (.ok { status := { edgeId := "edge-8", synced := true } }, n + 1)
  Update := fun n _ => (none, n + 1)
  Delete := fun n _ => (none, n + 1)
  GetPropertyState := fun n _ _ => ((some {}, none), n + 1)
  UpdatePropertyState := fun n _ _ => (none, n + 1)
  summary := fun _ => none
  sprintfDirectives := fun format => format

/-- A reconciler of pool `pool-a` over `countingEnv`. -/
def countingReconciler : DeviceReconciler Nat := { env := countingEnv, NodePool := "pool-a" }

/-- A freshly created device of pool `pool-a`: no finalizer, not registered. -/
def freshDevice : Device :=
  { meta := { name := "d1" }, spec := { nodePool := "pool-a" } }

/-- A reconciler of pool `pool-a` over counting collaborators whose store holds
`freshDevice` and refuses every status write but the one made as fourth call. -/
def countingFreshReconciler : DeviceReconciler Nat :=
  { env := { countingEnv with
      storeGet := fun n _ => (.ok freshDevice, n + 1)
      storeStatusUpdate := fun n _ => (if n = 3 then none else some Err.apiConflict, n + 1) }
    NodePool := "pool-a" }

/-- The store holds `freshDevice`; the remote platform does not know it. -/
def freshReconciler : DeviceReconciler Unit :=
  { env := { absentEnv with storeGet := fun s _ => (.ok freshDevice, s) }, NodePool := "pool-a" }

/-- A profile environment in which every call succeeds and the remote profile exists. -/
def okProfileEnv : ProfileEnv Unit where
  storeGet := fun s _ => (.ok {}, s)
  storePatch := fun s _ _ => (none, s)
  storeStatusUpdate := fun s _ => (none, s)
  Get := fun s _ => (.ok { status := { edgeId := "edge-p1", synced := true } }, s)
  Create := fun s _ => (.ok { status := { edgeId := "edge-p2", synced := true } }, s)
  Delete := fun s _ => (none, s)

/-- A profile under deletion that still carries its finalizer. -/
def deletingProfile : DeviceProfile :=
  { meta := { name := "p1", finalizers := [DeviceProfileFinalizer], deletionTimestamp := some 7 }
    spec := { nodePool := "pool-a" } }

/-- The store accepts every write; the remote delete fails with a server error. -/
def failingDeleteProfileReconciler : DeviceProfileReconciler Unit :=
  { env := { okProfileEnv with
      storeGet := fun s _ => (.ok deletingProfile, s)
      Delete := fun s _ => (some (Err.edgeOther "500 internal server error"), s) }
    NodePool := "pool-a" }

/-- A device and a profile of pool `pool-b`, seen by reconcilers of pool `pool-a`. -/
def foreignDevice : Device :=
  { meta := { name := "d9" }, spec := { nodePool := "pool-b", managed := true } }

def foreignProfile : DeviceProfile :=
  { meta := { name := "p9" }, spec := { nodePool := "pool-b" } }

def foreignDeviceReconciler : DeviceReconciler Unit :=
  { env := { okEnv with storeGet := fun s _ => (.ok foreignDevice, s) }, NodePool := "pool-a" }

def foreignProfileReconciler : DeviceProfileReconciler Unit :=
  { env := { okProfileEnv with storeGet := fun s _ => (.ok foreignProfile, s) }
    NodePool := "pool-a" }

/-- The update event of the reconciler's own registration write. -/
def selfRegistrationEvent : UpdateEvent :=
  { ObjectOld := Object.device { meta := { name := "d1" } }
    ObjectNew := Object.device
      { meta := { name := "d1" }, status := { synced := true, edgeId := "edge-1" } } }

/-- An update event whose old object is not of the device API group. -/
def unclassifiedEvent : UpdateEvent :=
  { ObjectOld := Object.other "Pod"
    ObjectNew := Object.device { meta := { name := "d1" } } }

/-- A registered device of pool `pool-a` that is not managed by the cloud. -/
def syncedUnmanagedDevice : Device :=
  { meta := { name := "d1", finalizers := [DeviceFinalizer] }
    spec := { nodePool := "pool-a", managed := false }
    status := { synced := true, edgeId := "edge-1" } }

/-- The store holds `syncedUnmanagedDevice` and rejects every status write with a conflict. -/
def conflictAtEndReconciler : DeviceReconciler Unit :=
  { env := { okEnv with
      storeGet := fun s _ => (.ok syncedUnmanagedDevice, s)
      storeStatusUpdate := fun s _ => (some Err.apiConflict, s) }
    NodePool := "pool-a" }

/-- The store holds `unsyncedDevice` and rejects every status write with a conflict. -/
def conflictAtRegistrationReconciler : DeviceReconciler Unit :=
  { env := { okEnv with
      storeGet := fun s _ => (.ok unsyncedDevice, s)
      storeStatusUpdate := fun s _ => (some Err.apiConflict, s) }
    NodePool := "pool-a" }

/-- A locally authored profile with one hidden device-resource. -/
def hiddenResourceProfile : DeviceProfile :=
  { meta := { name := "thermostat" }
    spec :=
      { description := "a thermostat", manufacturer := "acme", model := "t-1"
        labels := ["hvac"]
        deviceResources :=
          [{ name := "temperature", tag := "t", isHidden := true
             properties := { valueType := "Float64", readWrite := "R", units := "C" }
             attributes := [("register", "40001"), ("scale", "0.1")] }]
        deviceCommands :=
          [{ name := "read", readWrite := "R", isHidden := true
             resourceOperations := [{ deviceResource := "temperature" }] }] } }

/-- A registered, managed device that is up and unlocked, with desired
properties `A = "1"` and `B = "2"`. -/
def twoPropertyDevice : Device :=
  { meta := { name := "d1", finalizers := [DeviceFinalizer] }
    spec :=
      { nodePool := "pool-a", managed := true
        deviceProperties :=
          [{ name := "A", desiredValue := "1" }, { name := "B", desiredValue := "2" }] }
    status :=
      { synced := true, edgeId := "edge-1", adminState := UnLocked, operatingState := Up } }

/-- Every property reads as `"0"`; the push of `B` fails, the push of `A` succeeds. -/
def failingPushReconciler : DeviceReconciler Unit :=
  { env := { okEnv with
      storeGet := fun s _ => (.ok twoPropertyDevice, s)
      GetPropertyState := fun s name _ =>
        ((some { name := name, getURL := "/" ++ name, actualValue := "0" }, none), s)
      UpdatePropertyState := fun s name _ =>
        (if name == "B" then some (Err.edgeOther "timeout") else none, s) }
    NodePool := "pool-a" }

/-- The read command of `A` is not found and no state object comes back; `B` reads as `"0"`. -/
def missingReadReconciler : DeviceReconciler Unit :=
  { env := { okEnv with
      storeGet := fun s _ => (.ok twoPropertyDevice, s)
      GetPropertyState := fun s name _ =>
        (if name == "A" then (none, some Err.edgeNotFound)
         else (some { name := name, getURL := "/" ++ name, actualValue := "0" }, none), s) }
    NodePool := "pool-a" }

/-- A registered, managed device that is up and unlocked and is asked to be locked. -/
def lockingDevice : Device :=
  { meta := { name := "d1", finalizers := [DeviceFinalizer] }
    spec :=
      { nodePool := "pool-a", managed := true, adminState := Locked, operatingState := Up
        deviceProperties := [{ name := "A", desiredValue := "1" }] }
    status :=
      { synced := true, edgeId := "edge-1", adminState := UnLocked, operatingState := Up } }

/-- The store holds `lockingDevice`; every call succeeds. -/
def lockingReconciler : DeviceReconciler Unit :=
  { env := { okEnv with storeGet := fun s _ => (.ok lockingDevice, s) }, NodePool := "pool-a" }

/-- The remote platform does not know the device and refuses to create it. -/
def refusingReconciler : DeviceReconciler Unit :=
  { env := { absentEnv with
      storeGet := fun s _ => (.ok unsyncedDevice, s)
      Create := fun s _ => (.error (Err.edgeOther "400 bad request"), s) }
    NodePool := "pool-a" }

/-- The remote platform does not know the device and cannot create it: its
disk is full, and the text of its error holds a `%`. -/
def fullDiskReconciler : DeviceReconciler Unit :=
  { env := { absentEnv with
      storeGet := fun s _ => (.ok unsyncedDevice, s)
      Create := fun s _ => (.error (Err.edgeOther "disk 100%full"), s) }
    NodePool := "pool-a" }

/-- The store holds `unsyncedDevice`; the remote platform cannot be reached. -/
def unreachableReconciler : DeviceReconciler Unit :=
  { env := { okEnv with
      storeGet := fun s _ => (.ok unsyncedDevice, s)
      Get := fun s _ => (.error (Err.edgeOther "connection refused"), s) }
    NodePool := "pool-a" }

/-- A profile of pool `pool-a` that is not registered yet and carries the finalizer. -/
def unsyncedProfile : DeviceProfile :=
  { meta := { name := "p1", finalizers := [DeviceProfileFinalizer] }
    spec := { nodePool := "pool-a" } }

/-- The store holds `unsyncedProfile`; the remote platform cannot be reached. -/
def unreachableProfileReconciler : DeviceProfileReconciler Unit :=
  { env := { okProfileEnv with
      storeGet := fun s _ => (.ok unsyncedProfile, s)
      Get := fun s _ => (.error (Err.edgeOther "connection refused"), s) }
    NodePool := "pool-a" }

/-- A device of pool `pool-a` under deletion, not yet registered and managed. -/
def deletingUnsyncedDevice : Device :=
  { meta := { name := "d1", finalizers := [DeviceFinalizer], deletionTimestamp := some 7 }
    spec := { nodePool := "pool-a", managed := true } }

/-- The store holds `deletingUnsyncedDevice`; every call succeeds. -/
def deletingReconciler : DeviceReconciler Unit :=
  { env := { okEnv with storeGet := fun s _ => (.ok deletingUnsyncedDevice, s) }
    NodePool := "pool-a" }

/-- A registered, managed device that is up and unlocked, with the one desired
property `A = "1"`. -/
def onePropertyDevice : Device :=
  { meta := { name := "d1", finalizers := [DeviceFinalizer] }
    spec :=
      { nodePool := "pool-a", managed := true
        deviceProperties := [{ name := "A", desiredValue := "1" }] }
    status :=
      { synced := true, edgeId := "edge-1", adminState := UnLocked, operatingState := Up } }

/-- The property has no read command: the read answers not-found and hands
back no state object. -/
def notFoundNilReconciler : DeviceReconciler Unit :=
  { env := { okEnv with
      storeGet := fun s _ => (.ok onePropertyDevice, s)
      GetPropertyState := fun s _ _ => ((none, some Err.edgeNotFound), s) }
    NodePool := "pool-a" }

/-- The property has no read command: the read answers not-found and hands
back an empty state object. -/
def notFoundEmptyStateReconciler : DeviceReconciler Unit :=
  { env := { okEnv with
      storeGet := fun s _ => (.ok onePropertyDevice, s)
      GetPropertyState := fun s _ _ => ((some {}, some Err.edgeNotFound), s) }
    NodePool := "pool-a" }

/-- A remote device-resource with one attribute of each kind. -/
def mixedAttributesResource : dtos.DeviceResource :=
  { name := "temperature"
    attributes :=
      [("unit", AttrValue.str "C"), ("register", AttrValue.int 40001),
       ("offset", AttrValue.int (-3)), ("kind", AttrValue.stringer "holding"),
       ("count", AttrValue.otherInt 5), ("gain", AttrValue.float32 1065353216),
       ("writable", AttrValue.other)] }

/-- A remote device-resource whose only attribute is the `int64` value 5. -/
def int64AttributeResource : dtos.DeviceResource :=
  { name := "counter", attributes := [("count", AttrValue.otherInt 5)] }

/-! ## Theorems -/

@[simp] theorem withFinalizers_status (d : Device) (fs : List String) :
    (d.withFinalizers fs).status = d.status := rfl

@[simp] theorem withFinalizers_spec (d : Device) (fs : List String) :
    (d.withFinalizers fs).spec = d.spec := rfl

@[simp] theorem withFinalizers_name (d : Device) (fs : List String) :
    (d.withFinalizers fs).meta.name = d.meta.name := rfl

@[simp] theorem withFinalizers_labels (d : Device) (fs : List String) :
    (d.withFinalizers fs).meta.labels = d.meta.labels := rfl

@[simp] theorem withFinalizers_finalizers (d : Device) (fs : List String) :
    (d.withFinalizers fs).meta.finalizers = fs := rfl

@[simp] theorem withFinalizers_deletionIsZero (d : Device) (fs : List String) :
    (d.withFinalizers fs).meta.deletionIsZero = d.meta.deletionIsZero := rfl

@[simp] theorem MarkFalse_synced (f : String → String) (d : Device) (t a b c : String) :
    (MarkFalse f d t a b c).status.synced = d.status.synced := rfl

@[simp] theorem MarkFalse_edgeId (f : String → String) (d : Device) (t a b c : String) :
    (MarkFalse f d t a b c).status.edgeId = d.status.edgeId := rfl

@[simp] theorem MarkTrue_synced (d : Device) (t : String) :
    (MarkTrue d t).status.synced = d.status.synced := rfl

@[simp] theorem MarkTrue_edgeId (d : Device) (t : String) :
    (MarkTrue d t).status.edgeId = d.status.edgeId := rfl

@[simp] theorem SetSummary_synced (f : List Condition → Option Condition) (d : Device) :
    (SetSummary f d).status.synced = d.status.synced := by
  unfold SetSummary; split <;> rfl

@[simp] theorem SetSummary_edgeId (f : List Condition → Option Condition) (d : Device) :
    (SetSummary f d).status.edgeId = d.status.edgeId := by
  unfold SetSummary; split <;> rfl

theorem reconcileDeleteDevice_live (r : DeviceReconciler σ) (w : World σ) (d : Device)
    (h : d.meta.deletionIsZero = true) :
    (d.meta.finalizers ≠ [] ∧ r.reconcileDeleteDevice w d = (none, d, w)) ∨
    (∃ e s1, d.meta.finalizers = [] ∧ r.reconcileDeleteDevice w d =
      (some e, d, { st := s1,
                    trace := w.trace ++ [Event.patchFinalizers [DeviceFinalizer] (some e)] })) ∨
    (∃ s1, d.meta.finalizers = [] ∧ r.reconcileDeleteDevice w d =
      (none, d.withFinalizers [DeviceFinalizer],
        { st := s1, trace := w.trace ++ [Event.patchFinalizers [DeviceFinalizer] none] })) := by
  by_cases hf : d.meta.finalizers.length = 0
  · rcases hp : r.env.storePatch w.st d [DeviceFinalizer] with ⟨pres, s1⟩
    cases pres with
    | some e =>
      right; left
      exact ⟨e, s1, List.length_eq_zero.mp hf,
        by simp [DeviceReconciler.reconcileDeleteDevice, DeviceReconciler.Patch, h, hf, hp]⟩
    | none =>
      right; right
      exact ⟨s1, List.length_eq_zero.mp hf,
        by simp [DeviceReconciler.reconcileDeleteDevice, DeviceReconciler.Patch, h, hf, hp]⟩
  · left
    exact ⟨fun hnil => hf (by simp [hnil]),
      by simp [DeviceReconciler.reconcileDeleteDevice, h, hf]⟩

theorem reconcileCreateDevice_found (r : DeviceReconciler σ) (w : World σ) (d ed : Device)
    (s1 : σ) (hG : r.env.Get w.st (GetEdgeDeviceName d.meta EdgeXObjectName) = (.ok ed, s1)) :
    r.reconcileCreateDevice w d =
      ((r.env.storeStatusUpdate s1 (registered d ed.status.edgeId)).1,
        registered d ed.status.edgeId,
        { st := (r.env.storeStatusUpdate s1 (registered d ed.status.edgeId)).2,
          trace := w.trace ++
            [Event.remoteGet (GetEdgeDeviceName d.meta EdgeXObjectName) (.ok ed.status.edgeId),
             Event.statusUpdate Site.registration (registered d ed.status.edgeId).status
              (r.env.storeStatusUpdate s1 (registered d ed.status.edgeId)).1] }) := by
  simp [DeviceReconciler.reconcileCreateDevice, hG, DeviceReconciler.StatusUpdate, edgeIdOf,
    registered]

theorem reconcileCreateDevice_created (r : DeviceReconciler σ) (w : World σ) (d cd : Device)
    (e : Err) (s1 s2 : σ)
    (hG : r.env.Get w.st (GetEdgeDeviceName d.meta EdgeXObjectName) = (.error e, s1))
    (hnf : IsNotFoundErr e = true) (hC : r.env.Create s1 d = (.ok cd, s2)) :
    r.reconcileCreateDevice w d =
      ((r.env.storeStatusUpdate s2 (registered d cd.status.edgeId)).1,
        registered d cd.status.edgeId,
        { st := (r.env.storeStatusUpdate s2 (registered d cd.status.edgeId)).2,
          trace := w.trace ++
            [Event.remoteGet (GetEdgeDeviceName d.meta EdgeXObjectName) (.error e),
             Event.remoteCreate d.meta.name (.ok cd.status.edgeId),
             Event.statusUpdate Site.registration (registered d cd.status.edgeId).status
              (r.env.storeStatusUpdate s2 (registered d cd.status.edgeId)).1] }) := by
  simp [DeviceReconciler.reconcileCreateDevice, hG, hC, hnf, DeviceReconciler.StatusUpdate,
    edgeIdOf, registered]

theorem reconcileCreateDevice_create_failed (r : DeviceReconciler σ) (w : World σ)
    (d : Device) (e ce : Err) (s1 s2 : σ)
    (hG : r.env.Get w.st (GetEdgeDeviceName d.meta EdgeXObjectName) = (.error e, s1))
    (hnf : IsNotFoundErr e = true) (hC : r.env.Create s1 d = (.error ce, s2)) :
    r.reconcileCreateDevice w d =
      (some (Err.wrapped ("fail to add Device to edge platform: " ++ ce.Error)),
        MarkFalse r.env.sprintfDirectives d DeviceSyncedCondition
          "failed to create device on edge platform"
          ConditionSeverityWarning ce.Error,
        { st := s2,
          trace := w.trace ++
            [Event.remoteGet (GetEdgeDeviceName d.meta EdgeXObjectName) (.error e),
             Event.remoteCreate d.meta.name (.error ce)] }) := by
  simp [DeviceReconciler.reconcileCreateDevice, hG, hC, hnf, edgeIdOf]

theorem reconcileCreateDevice_unreachable (r : DeviceReconciler σ) (w : World σ)
    (d : Device) (e : Err) (s1 : σ)
    (hG : r.env.Get w.st (GetEdgeDeviceName d.meta EdgeXObjectName) = (.error e, s1))
    (hnf : IsNotFoundErr e = false) :
    r.reconcileCreateDevice w d =
      (none,
        MarkFalse r.env.sprintfDirectives d DeviceSyncedCondition
          "failed to visit the EdgeX core-metadata-service"
          ConditionSeverityWarning "",
        { st := s1,
          trace := w.trace ++
            [Event.remoteGet (GetEdgeDeviceName d.meta EdgeXObjectName) (.error e)] }) := by
  simp [DeviceReconciler.reconcileCreateDevice, hG, hnf, edgeIdOf]

theorem updateConditions_trace (r : DeviceReconciler σ) (w : World σ) (d : Device) :
    ∃ st res, (r.updateConditions w d).2.trace = w.trace ++ [Event.statusUpdate Site.endOfPass st res] ∧
      st.synced = d.status.synced ∧ st.edgeId = d.status.edgeId := by
  refine ⟨_, _, rfl, ?_, ?_⟩
  · by_cases hm : d.spec.managed = true <;> simp [hm]
  · by_cases hm : d.spec.managed = true <;> simp [hm]

theorem Reconcile_matching (r : DeviceReconciler σ) (s s1 : σ) (req : String) (d : Device)
    (hg : r.env.storeGet s req = (.ok d, s1)) (hpool : d.spec.nodePool = r.NodePool) :
    (r.Reconcile s req).out = (r.reconcilePhases { st := s1, trace := [Event.localGet req none] } d).1 ∧
    (r.Reconcile s req).trace =
      (r.updateConditions (r.reconcilePhases { st := s1, trace := [Event.localGet req none] } d).2.2
        (r.reconcilePhases { st := s1, trace := [Event.localGet req none] } d).2.1).2.trace := by
  simp [DeviceReconciler.Reconcile, hg, hpool]

theorem GetEdgeDeviceName_congr (m m' : ObjectMeta) (hn : m'.name = m.name)
    (hl : m'.labels = m.labels) (l : String) :
    GetEdgeDeviceName m' l = GetEdgeDeviceName m l := by
  simp [GetEdgeDeviceName, hn, hl]

/-- A pass over an object without deletion timestamp: either the finalizer
patch is rejected and the pass returns, or the phase chosen by `synced` and
`managed` runs on the (possibly patched) object. -/
theorem reconcilePhases_live (r : DeviceReconciler σ) (w : World σ) (d : Device)
    (hdel : d.meta.deletionIsZero = true) :
    (∃ e s1, d.meta.finalizers = [] ∧ r.reconcilePhases w d =
      (Completion.returned ({}, IgnoreNotFound e), d,
        { st := s1, trace := w.trace ++ [Event.patchFinalizers [DeviceFinalizer] (some e)] })) ∨
    (∃ d1 w1, ((d.meta.finalizers ≠ [] ∧ w1 = w) ∨ (d.meta.finalizers = [] ∧ ∃ s1, w1 =
          { st := s1, trace := w.trace ++ [Event.patchFinalizers [DeviceFinalizer] none] })) ∧
      d1.status = d.status ∧ d1.spec = d.spec ∧
      GetEdgeDeviceName d1.meta EdgeXObjectName = GetEdgeDeviceName d.meta EdgeXObjectName ∧
      d1.meta.name = d.meta.name ∧
      r.reconcilePhases w d =
        if d.status.synced = false then
          (registrationReturn (r.reconcileCreateDevice w1 d1).1,
            (r.reconcileCreateDevice w1 d1).2.1, (r.reconcileCreateDevice w1 d1).2.2)
        else if d.spec.managed = true then
          (updateReturn (r.reconcileUpdateDevice w1 d1).1,
            (r.reconcileUpdateDevice w1 d1).2.1, (r.reconcileUpdateDevice w1 d1).2.2)
        else (Completion.returned ({}, none), d1, w1)) := by
  have key : ∀ (d1 : Device) (w1 : World σ), d1.status = d.status → d1.spec = d.spec →
      d1.meta.deletionIsZero = true → r.reconcileDeleteDevice w d = (none, d1, w1) →
      r.reconcilePhases w d =
        if d.status.synced = false then
          (registrationReturn (r.reconcileCreateDevice w1 d1).1,
            (r.reconcileCreateDevice w1 d1).2.1, (r.reconcileCreateDevice w1 d1).2.2)
        else if d.spec.managed = true then
          (updateReturn (r.reconcileUpdateDevice w1 d1).1,
            (r.reconcileUpdateDevice w1 d1).2.1, (r.reconcileUpdateDevice w1 d1).2.2)
        else (Completion.returned ({}, none), d1, w1) := by
    intro d1 w1 hst hsp hz h
    unfold DeviceReconciler.reconcilePhases
    rw [h]
    simp only [hz, hst, hsp, Bool.not_true, Bool.false_eq_true, if_false]
    by_cases hs : d.status.synced = false
    · simp only [hs, beq_self_eq_true, if_true]
      rcases r.reconcileCreateDevice w1 d1 with ⟨_ | e, d2, w2⟩
      · rfl
      · by_cases hc : IsConflict e = true <;> simp [registrationReturn, hc]
    · have hs' : d.status.synced = true := by simpa using hs
      by_cases hm : d.spec.managed = true
      · simp only [hs', hm, beq_self_eq_true, if_true]
        rcases r.reconcileUpdateDevice w1 d1 with ⟨c, d2, w2⟩
        cases c with
        | panicked => rfl
        | returned oe =>
          cases oe with
          | none => rfl
          | some e => by_cases hc : IsConflict e = true <;> simp [updateReturn, hc]
      · simp [hs', hm]
  rcases reconcileDeleteDevice_live r w d hdel with ⟨hf, h⟩ | ⟨e, s1, hf, h⟩ | ⟨s1, hf, h⟩
  · right
    exact ⟨d, w, Or.inl ⟨hf, rfl⟩, rfl, rfl, rfl, rfl, key d w rfl rfl hdel h⟩
  · left
    exact ⟨e, s1, hf, by simp [DeviceReconciler.reconcilePhases, h]⟩
  · right
    exact ⟨d.withFinalizers [DeviceFinalizer], _, Or.inr ⟨hf, s1, rfl⟩, rfl, rfl, rfl, rfl,
      key _ _ rfl rfl hdel h⟩

/-- A pass over an object of the reconciler's node-pool ends with the status
write of the deferred function, which keeps `synced` and the edge id. -/
theorem Reconcile_trace (r : DeviceReconciler σ) (s s1 : σ) (req : String) (d : Device)
    (hg : r.env.storeGet s req = (.ok d, s1)) (hpool : d.spec.nodePool = r.NodePool) :
    ∃ st res,
      (r.Reconcile s req).trace =
        (r.reconcilePhases { st := s1, trace := [Event.localGet req none] } d).2.2.trace ++
          [Event.statusUpdate Site.endOfPass st res] ∧
      st.synced =
        (r.reconcilePhases { st := s1, trace := [Event.localGet req none] } d).2.1.status.synced ∧
      st.edgeId =
        (r.reconcilePhases { st := s1, trace := [Event.localGet req none] } d).2.1.status.edgeId ∧
      (r.Reconcile s req).out =
        (r.reconcilePhases { st := s1, trace := [Event.localGet req none] } d).1 := by
  obtain ⟨hout, htr⟩ := Reconcile_matching r s s1 req d hg hpool
  obtain ⟨st, res, h1, h2, h3⟩ := updateConditions_trace r
    (r.reconcilePhases { st := s1, trace := [Event.localGet req none] } d).2.2
    (r.reconcilePhases { st := s1, trace := [Event.localGet req none] } d).2.1
  exact ⟨st, res, by rw [htr, h1], h2, h3, hout⟩

/-- The registration phase runs on what the finalizer step hands over. -/
theorem reconcilePhases_registration (r : DeviceReconciler σ) (w w1 : World σ) (d d1 : Device)
    (hD : r.reconcileDeleteDevice w d = (none, d1, w1))
    (hz : d1.meta.deletionIsZero = true) (hs : d1.status.synced = false) :
    r.reconcilePhases w d =
      (registrationReturn (r.reconcileCreateDevice w1 d1).1,
        (r.reconcileCreateDevice w1 d1).2.1, (r.reconcileCreateDevice w1 d1).2.2) := by
  unfold DeviceReconciler.reconcilePhases
  rw [hD]
  simp only [hz, hs, Bool.not_true, Bool.false_eq_true, if_false, beq_self_eq_true, if_true]
  rcases r.reconcileCreateDevice w1 d1 with ⟨_ | e, d2, w2⟩
  · rfl
  · by_cases hc : IsConflict e = true <;> simp [registrationReturn, hc]

/-- The deferred function writes the status once, through the store, and keeps
`synced` and the edge id. -/
theorem updateConditions_write (r : DeviceReconciler σ) (w : World σ) (d : Device) :
    ∃ dE : Device, dE.status.synced = d.status.synced ∧ dE.status.edgeId = d.status.edgeId ∧
      (r.updateConditions w d).2 =
        { st := (r.env.storeStatusUpdate w.st dE).2,
          trace := w.trace ++
            [Event.statusUpdate Site.endOfPass dE.status (r.env.storeStatusUpdate w.st dE).1] } := by
  refine ⟨(r.updateConditions w d).1, ?_, ?_, rfl⟩
  · by_cases hm : d.spec.managed = true <;> simp [DeviceReconciler.updateConditions, hm]
  · by_cases hm : d.spec.managed = true <;> simp [DeviceReconciler.updateConditions, hm]

/-- A pass over an object of the reconciler's node-pool: the phases, then the
deferred function. -/
theorem Reconcile_pass (r : DeviceReconciler σ) (s s1 : σ) (req : String) (d : Device)
    (hg : r.env.storeGet s req = (.ok d, s1)) (hpool : d.spec.nodePool = r.NodePool) :
    r.Reconcile s req =
      { out := (r.reconcilePhases { st := s1, trace := [Event.localGet req none] } d).1,
        trace := (r.updateConditions
          (r.reconcilePhases { st := s1, trace := [Event.localGet req none] } d).2.2
          (r.reconcilePhases { st := s1, trace := [Event.localGet req none] } d).2.1).2.trace,
        st := (r.updateConditions
          (r.reconcilePhases { st := s1, trace := [Event.localGet req none] } d).2.2
          (r.reconcilePhases { st := s1, trace := [Event.localGet req none] } d).2.1).2.st } := by
  simp [DeviceReconciler.Reconcile, hg, hpool]

/-- A pass whose finalizer step hands `d1` over in state `sG` after the calls
`pre`, and whose remote Get then finds the object `ed`: the registration phase
writes `registered d1 ed.status.edgeId` through the store and the deferred
function writes once more. -/
theorem Reconcile_found (r : DeviceReconciler σ) (s s1 sG s2 : σ) (req : String)
    (d d1 ed : Device) (pre : List Event)
    (hg : r.env.storeGet s req = (.ok d, s1)) (hpool : d.spec.nodePool = r.NodePool)
    (hD : r.reconcileDeleteDevice { st := s1, trace := [Event.localGet req none] } d =
      (none, d1, { st := sG, trace := Event.localGet req none :: pre }))
    (hz : d1.meta.deletionIsZero = true) (hs : d1.status.synced = false)
    (hG : r.env.Get sG (GetEdgeDeviceName d1.meta EdgeXObjectName) = (.ok ed, s2)) :
    ∃ dE : Device, dE.status.synced = true ∧ dE.status.edgeId = ed.status.edgeId ∧
      (r.Reconcile s req).trace =
        Event.localGet req none :: pre ++
          [Event.remoteGet (GetEdgeDeviceName d1.meta EdgeXObjectName) (.ok ed.status.edgeId),
           Event.statusUpdate Site.registration (registered d1 ed.status.edgeId).status
             (r.env.storeStatusUpdate s2 (registered d1 ed.status.edgeId)).1,
           Event.statusUpdate Site.endOfPass dE.status
             (r.env.storeStatusUpdate
               (r.env.storeStatusUpdate s2 (registered d1 ed.status.edgeId)).2 dE).1] ∧
      (r.Reconcile s req).st =
        (r.env.storeStatusUpdate
          (r.env.storeStatusUpdate s2 (registered d1 ed.status.edgeId)).2 dE).2 ∧
      (r.Reconcile s req).out =
        registrationReturn (r.env.storeStatusUpdate s2 (registered d1 ed.status.edgeId)).1 := by
  have hph := reconcilePhases_registration r _ _ d d1 hD hz hs
  rw [reconcileCreateDevice_found r _ d1 ed s2 hG] at hph
  obtain ⟨dE, h1, h2, h3⟩ := updateConditions_write r
    (r.reconcilePhases { st := s1, trace := [Event.localGet req none] } d).2.2
    (r.reconcilePhases { st := s1, trace := [Event.localGet req none] } d).2.1
  rw [Reconcile_pass r s s1 req d hg hpool, h3]
  rw [hph] at h1 h2 ⊢
  refine ⟨dE, ?_, ?_, ?_, rfl, rfl⟩
  · simpa [registered] using h1
  · simpa [registered] using h2
  · simp

/-- C1. Idempotent registration of a device: take a device of the reconciler's
node-pool with `synced = false` and no deletion timestamp, and let the remote
Get by the edge-visible name, asked in the state the store left, answer with an
object `ed`.  Then the pass makes exactly these calls: the local read, the
finalizer patch when the device has no finalizer, the remote Get, the
registration write handed to the store, and the end-of-pass write handed to the
store.  No remote Create is among them, both writes carry `synced = true` and
the edge id of `ed`, the collaborators are left in the state the last write
produced, and the pass returns what the registration write answered. -/
theorem Reconcile_found_registers_without_create (r : DeviceReconciler σ) (s s1 : σ)
    (req : String) (d : Device) (hget : r.env.storeGet s req = (.ok d, s1))
    (hpool : d.spec.nodePool = r.NodePool) (hdel : d.meta.deletionIsZero = true)
    (hsync : d.status.synced = false) :
    (∀ (ed : Device) (s2 : σ), d.meta.finalizers ≠ [] →
      r.env.Get s1 (GetEdgeDeviceName d.meta EdgeXObjectName) = (.ok ed, s2) →
      ∃ dE : Device,
        (r.Reconcile s req).trace =
          [Event.localGet req none,
           Event.remoteGet (GetEdgeDeviceName d.meta EdgeXObjectName) (.ok ed.status.edgeId),
           Event.statusUpdate Site.registration (registered d ed.status.edgeId).status
             (r.env.storeStatusUpdate s2 (registered d ed.status.edgeId)).1,
           Event.statusUpdate Site.endOfPass dE.status
             (r.env.storeStatusUpdate
               (r.env.storeStatusUpdate s2 (registered d ed.status.edgeId)).2 dE).1] ∧
        (r.Reconcile s req).st =
          (r.env.storeStatusUpdate
            (r.env.storeStatusUpdate s2 (registered d ed.status.edgeId)).2 dE).2 ∧
        (r.Reconcile s req).out =
          registrationReturn (r.env.storeStatusUpdate s2 (registered d ed.status.edgeId)).1 ∧
        (registered d ed.status.edgeId).status.synced = true ∧
        (registered d ed.status.edgeId).status.edgeId = ed.status.edgeId ∧
        dE.status.synced = true ∧ dE.status.edgeId = ed.status.edgeId ∧
        ∀ ev ∈ (r.Reconcile s req).trace, ev.isRemoteCreate = false) ∧
    (∀ (ed : Device) (sp s2 : σ), d.meta.finalizers = [] →
      r.env.storePatch s1 d [DeviceFinalizer] = (none, sp) →
      r.env.Get sp (GetEdgeDeviceName d.meta EdgeXObjectName) = (.ok ed, s2) →
      ∃ dE : Device,
        (r.Reconcile s req).trace =
          [Event.localGet req none,
           Event.patchFinalizers [DeviceFinalizer] none,
           Event.remoteGet (GetEdgeDeviceName d.meta EdgeXObjectName) (.ok ed.status.edgeId),
           Event.statusUpdate Site.registration
             (registered (d.withFinalizers [DeviceFinalizer]) ed.status.edgeId).status
             (r.env.storeStatusUpdate s2
               (registered (d.withFinalizers [DeviceFinalizer]) ed.status.edgeId)).1,
           Event.statusUpdate Site.endOfPass dE.status
             (r.env.storeStatusUpdate
               (r.env.storeStatusUpdate s2
                 (registered (d.withFinalizers [DeviceFinalizer]) ed.status.edgeId)).2 dE).1] ∧
        (r.Reconcile s req).st =
          (r.env.storeStatusUpdate
            (r.env.storeStatusUpdate s2
              (registered (d.withFinalizers [DeviceFinalizer]) ed.status.edgeId)).2 dE).2 ∧
        (r.Reconcile s req).out =
          registrationReturn (r.env.storeStatusUpdate s2
            (registered (d.withFinalizers [DeviceFinalizer]) ed.status.edgeId)).1 ∧
        (registered (d.withFinalizers [DeviceFinalizer]) ed.status.edgeId).status.synced = true ∧
        (registered (d.withFinalizers [DeviceFinalizer]) ed.status.edgeId).status.edgeId =
          ed.status.edgeId ∧
        dE.status.synced = true ∧ dE.status.edgeId = ed.status.edgeId ∧
        ∀ ev ∈ (r.Reconcile s req).trace, ev.isRemoteCreate = false) := by
  constructor
  · intro ed s2 hf hG
    have hD : r.reconcileDeleteDevice { st := s1, trace := [Event.localGet req none] } d =
        (none, d, { st := s1, trace := Event.localGet req none :: [] }) := by
      have hf' : ¬ d.meta.finalizers.length = 0 := fun h => hf (List.length_eq_zero.mp h)
      simp [DeviceReconciler.reconcileDeleteDevice, hdel, hf']
    obtain ⟨dE, h1, h2, htr, hst, hout⟩ :=
      Reconcile_found r s s1 s1 s2 req d d ed [] hget hpool hD hdel hsync hG
    refine ⟨dE, by simpa using htr, hst, hout, rfl, rfl, h1, h2, ?_⟩
    rw [htr]
    intro ev hev
    simp only [List.cons_append, List.nil_append, List.mem_cons, List.mem_singleton,
      List.not_mem_nil, or_false] at hev
    rcases hev with rfl | rfl | rfl | rfl <;> rfl
  · intro ed sp s2 hf hP hG
    have hD : r.reconcileDeleteDevice { st := s1, trace := [Event.localGet req none] } d =
        (none, d.withFinalizers [DeviceFinalizer],
          { st := sp,
            trace := Event.localGet req none ::
              [Event.patchFinalizers [DeviceFinalizer] none] }) := by
      simp [DeviceReconciler.reconcileDeleteDevice, DeviceReconciler.Patch, hdel, hf, hP]
    have hG' : r.env.Get sp
        (GetEdgeDeviceName (d.withFinalizers [DeviceFinalizer]).meta EdgeXObjectName) =
        (.ok ed, s2) := by
      rw [GetEdgeDeviceName_congr d.meta (d.withFinalizers [DeviceFinalizer]).meta rfl rfl]
      exact hG
    obtain ⟨dE, h1, h2, htr, hst, hout⟩ :=
      Reconcile_found r s s1 sp s2 req d (d.withFinalizers [DeviceFinalizer]) ed
        [Event.patchFinalizers [DeviceFinalizer] none] hget hpool hD hdel hsync hG'
    rw [GetEdgeDeviceName_congr d.meta (d.withFinalizers [DeviceFinalizer]).meta rfl rfl] at htr
    refine ⟨dE, by simpa using htr, hst, hout, rfl, rfl, h1, h2, ?_⟩
    rw [htr]
    intro ev hev
    simp only [List.cons_append, List.nil_append, List.mem_cons, List.mem_singleton,
      List.not_mem_nil, or_false] at hev
    rcases hev with rfl | rfl | rfl | rfl | rfl <;> rfl

/-- The witness of C1: the remote platform already knows the device as
`edge-7`.  For `unsyncedDevice`, which carries the finalizer, the pass makes
four calls; for `freshDevice`, which does not, the finalizer patch makes a
fifth.  None of them is a remote Create, and all status writes carry
`synced = true` and `edge-7`. -/
theorem Reconcile_found_registers_without_create_witness :
    (countingReconciler.env.storeGet 0 "d1" = (.ok unsyncedDevice, 1) ∧
     unsyncedDevice.meta.finalizers ≠ [] ∧
     countingReconciler.env.Get 1 (GetEdgeDeviceName unsyncedDevice.meta EdgeXObjectName) =
       (.ok { status := { edgeId := "edge-7", synced := true } }, 2) ∧
     ∃ dE : Device,
       (countingReconciler.Reconcile 0 "d1").trace =
         [Event.localGet "d1" none,
          Event.remoteGet "d1" (.ok "edge-7"),
          Event.statusUpdate Site.registration (registered unsyncedDevice "edge-7").status none,
          Event.statusUpdate Site.endOfPass dE.status (some Err.apiConflict)] ∧
       (countingReconciler.Reconcile 0 "d1").st = 4 ∧
       (countingReconciler.Reconcile 0 "d1").out = Completion.returned ({}, none) ∧
       (registered unsyncedDevice "edge-7").status.synced = true ∧
       (registered unsyncedDevice "edge-7").status.edgeId = "edge-7" ∧
       dE.status.synced = true ∧ dE.status.edgeId = "edge-7" ∧
       ∀ ev ∈ (countingReconciler.Reconcile 0 "d1").trace, ev.isRemoteCreate = false) ∧
    (countingFreshReconciler.env.storeGet 0 "d1" = (.ok freshDevice, 1) ∧
     freshDevice.meta.finalizers = [] ∧
     countingFreshReconciler.env.storePatch 1 freshDevice [DeviceFinalizer] = (none, 2) ∧
     countingFreshReconciler.env.Get 2 (GetEdgeDeviceName freshDevice.meta EdgeXObjectName) =
       (.ok { status := { edgeId := "edge-7", synced := true } }, 3) ∧
     ∃ dE : Device,
       (countingFreshReconciler.Reconcile 0 "d1").trace =
         [Event.localGet "d1" none,
          Event.patchFinalizers [DeviceFinalizer] none,
          Event.remoteGet "d1" (.ok "edge-7"),
          Event.statusUpdate Site.registration
            (registered (freshDevice.withFinalizers [DeviceFinalizer]) "edge-7").status none,
          Event.statusUpdate Site.endOfPass dE.status (some Err.apiConflict)] ∧
       (countingFreshReconciler.Reconcile 0 "d1").st = 5 ∧
       (countingFreshReconciler.Reconcile 0 "d1").out = Completion.returned ({}, none) ∧
       (registered (freshDevice.withFinalizers [DeviceFinalizer]) "edge-7").status.synced =
         true ∧
       (registered (freshDevice.withFinalizers [DeviceFinalizer]) "edge-7").status.edgeId =
         "edge-7" ∧
       dE.status.synced = true ∧ dE.status.edgeId = "edge-7" ∧
       ∀ ev ∈ (countingFreshReconciler.Reconcile 0 "d1").trace, ev.isRemoteCreate = false) :=
  ⟨⟨rfl, by decide, rfl,
    (Reconcile_found_registers_without_create countingReconciler 0 1 "d1" unsyncedDevice rfl rfl
      rfl rfl).1 { status := { edgeId := "edge-7", synced := true } } 2 (by decide) rfl⟩,
   ⟨rfl, rfl, rfl, rfl,
    (Reconcile_found_registers_without_create countingFreshReconciler 0 1 "d1" freshDevice rfl
      rfl rfl rfl).2 { status := { edgeId := "edge-7", synced := true } } 2 3 rfl rfl rfl⟩⟩

/-- One iteration of the property loop only appends property calls to the trace. -/
theorem propertyStep_trace_ext (r : DeviceReconciler σ) (d : Device)
    (p : DesiredPropertyState) (st : DeviceStatus) (failed : List String) (w : World σ) :
    ∃ suf, (r.propertyStep d p st failed w).2.trace = w.trace ++ suf ∧
      ∀ ev ∈ suf, ev.isPropertyCall = true := by
  unfold DeviceReconciler.propertyStep
  split
  · exact ⟨[], by simp⟩
  · simp only
    split
    · exact ⟨_, rfl, by simp [Event.isPropertyCall]⟩
    · split
      · exact ⟨_, rfl, by simp [Event.isPropertyCall]⟩
      · split
        · split
          · exact ⟨_, by simp only [List.append_assoc]; rfl, by simp [Event.isPropertyCall]⟩
          · exact ⟨_, by simp only [List.append_assoc]; rfl, by simp [Event.isPropertyCall]⟩
        · exact ⟨_, rfl, by simp [Event.isPropertyCall]⟩

/-- The property loop only appends property calls to the trace. -/
theorem propertiesLoop_trace_ext (r : DeviceReconciler σ) (d : Device)
    (ps : List DesiredPropertyState) :
    ∀ (st : DeviceStatus) (failed : List String) (w : World σ),
      ∃ suf, (r.propertiesLoop d ps st failed w).2.trace = w.trace ++ suf ∧
        ∀ ev ∈ suf, ev.isPropertyCall = true := by
  induction ps with
  | nil => intro st failed w; exact ⟨[], by simp [DeviceReconciler.propertiesLoop]⟩
  | cons p rest ih =>
    intro st failed w
    obtain ⟨suf, hs, hp⟩ := propertyStep_trace_ext r d p st failed w
    unfold DeviceReconciler.propertiesLoop
    rcases hstep : r.propertyStep d p st failed w with ⟨c, w1⟩
    rw [hstep] at hs
    simp only at hs
    cases c with
    | panicked => exact ⟨suf, hs, hp⟩
    | returned a =>
      obtain ⟨st1, failed1⟩ := a
      obtain ⟨suf2, h2, hp2⟩ := ih st1 failed1 w1
      refine ⟨suf ++ suf2, by simp only [h2, hs, List.append_assoc], ?_⟩
      intro ev hev
      rcases List.mem_append.mp hev with h | h
      · exact hp ev h
      · exact hp2 ev h

/-- The guarded property loop only appends property calls to the trace. -/
theorem gatedProperties_trace_ext (r : DeviceReconciler σ) (w : World σ) (d : Device)
    (st : DeviceStatus) :
    ∃ suf, (r.gatedProperties w d st).2.trace = w.trace ++ suf ∧
      ∀ ev ∈ suf, ev.isPropertyCall = true := by
  unfold DeviceReconciler.gatedProperties
  split
  · exact propertiesLoop_trace_ext r d _ _ _ _
  · exact ⟨[], by simp⟩

/-- The status write of the update phase: what it returns and what it appends. -/
theorem writeManaged_shape (r : DeviceReconciler σ) (w : World σ) (d : Device)
    (st : DeviceStatus) (failed : List String) :
    (r.writeManaged w d st failed).1 =
      Completion.returned (r.env.storeStatusUpdate w.st { d with status := st }).1 ∧
    (r.writeManaged w d st failed).2.2.trace =
      w.trace ++ [Event.statusUpdate Site.managedUpdate st
        (r.env.storeStatusUpdate w.st { d with status := st }).1] := by
  unfold DeviceReconciler.writeManaged DeviceReconciler.StatusUpdate
  rcases hS : r.env.storeStatusUpdate w.st { d with status := st } with ⟨res, s1⟩
  cases res with
  | some e => simp [hS]
  | none => by_cases hf : failed.length = 0 <;> simp [hS, hf]

/-- The shape of the update phase: the remote Update, then (when it succeeded)
property calls only, then (unless the loop panicked) one status write whose
answer is the error returned. -/
theorem reconcileUpdateDevice_shape (r : DeviceReconciler σ) (w : World σ) (d : Device) :
    (∃ e, (r.reconcileUpdateDevice w d).1 = Completion.returned (some e) ∧
      (r.reconcileUpdateDevice w d).2.2.trace =
        w.trace ++ [Event.remoteUpdate (reconcileStates d).2 (some e)]) ∨
    (∃ suf, (∀ ev ∈ suf, ev.isPropertyCall = true) ∧
      (r.reconcileUpdateDevice w d).1 = Completion.panicked ∧
      (r.reconcileUpdateDevice w d).2.2.trace =
        w.trace ++ Event.remoteUpdate (reconcileStates d).2 none :: suf) ∨
    (∃ suf st res, (∀ ev ∈ suf, ev.isPropertyCall = true) ∧
      (r.reconcileUpdateDevice w d).1 = Completion.returned res ∧
      (r.reconcileUpdateDevice w d).2.2.trace =
        w.trace ++ Event.remoteUpdate (reconcileStates d).2 none :: suf ++
          [Event.statusUpdate Site.managedUpdate st res]) := by
  unfold DeviceReconciler.reconcileUpdateDevice
  rcases hU : r.env.Update w.st (reconcileStates d).2 with ⟨err, s1⟩
  cases err with
  | some e => exact Or.inl ⟨e, rfl, rfl⟩
  | none =>
    right
    simp only
    obtain ⟨suf, hs, hp⟩ := gatedProperties_trace_ext r
      { st := s1, trace := w.trace ++ [Event.remoteUpdate (reconcileStates d).2 none] } d
      (reconcileStates d).1
    rcases hL : r.gatedProperties
      { st := s1, trace := w.trace ++ [Event.remoteUpdate (reconcileStates d).2 none] } d
      (reconcileStates d).1 with ⟨c, w2⟩
    rw [hL] at hs
    simp only at hs
    cases c with
    | panicked => exact Or.inl ⟨suf, hp, rfl, by simp [hs]⟩
    | returned a =>
      obtain ⟨st1, failed⟩ := a
      obtain ⟨h1, h2⟩ := writeManaged_shape r w2 d st1 failed
      exact Or.inr ⟨suf, st1, _, hp, h1, by simp [h2, hs]⟩

/-- The shape of the registration phase: the remote Get by the edge-visible
name, then a status write (object found), or a remote Create and a status
write (not found, created), or a failed remote Create (an error that is no
conflict is returned), or nothing more (the remote could not be queried). -/
theorem reconcileCreateDevice_shape (r : DeviceReconciler σ) (w : World σ) (d : Device) :
    (∃ id res, (r.reconcileCreateDevice w d).1 = res ∧
      (r.reconcileCreateDevice w d).2.2.trace = w.trace ++
        [Event.remoteGet (GetEdgeDeviceName d.meta EdgeXObjectName) (.ok id),
         Event.statusUpdate Site.registration (registered d id).status res]) ∨
    (∃ e id res, IsNotFoundErr e = true ∧ (r.reconcileCreateDevice w d).1 = res ∧
      (r.reconcileCreateDevice w d).2.2.trace = w.trace ++
        [Event.remoteGet (GetEdgeDeviceName d.meta EdgeXObjectName) (.error e),
         Event.remoteCreate d.meta.name (.ok id),
         Event.statusUpdate Site.registration (registered d id).status res]) ∨
    (∃ e ce, IsNotFoundErr e = true ∧
      (r.reconcileCreateDevice w d).1 =
        some (Err.wrapped ("fail to add Device to edge platform: " ++ ce.Error)) ∧
      (r.reconcileCreateDevice w d).2.2.trace = w.trace ++
        [Event.remoteGet (GetEdgeDeviceName d.meta EdgeXObjectName) (.error e),
         Event.remoteCreate d.meta.name (.error ce)]) ∨
    (∃ e, IsNotFoundErr e = false ∧ (r.reconcileCreateDevice w d).1 = none ∧
      (r.reconcileCreateDevice w d).2.2.trace = w.trace ++
        [Event.remoteGet (GetEdgeDeviceName d.meta EdgeXObjectName) (.error e)]) := by
  rcases hG : r.env.Get w.st (GetEdgeDeviceName d.meta EdgeXObjectName) with ⟨gres, s2⟩
  cases gres with
  | ok ed =>
    rw [reconcileCreateDevice_found r w d ed s2 hG]
    exact Or.inl ⟨_, _, rfl, rfl⟩
  | error e =>
    by_cases hnf : IsNotFoundErr e = true
    · rcases hC : r.env.Create s2 d with ⟨cres, s3⟩
      cases cres with
      | ok cd =>
        rw [reconcileCreateDevice_created r w d cd e s2 s3 hG hnf hC]
        exact Or.inr (Or.inl ⟨e, _, _, hnf, rfl, rfl⟩)
      | error ce =>
        rw [reconcileCreateDevice_create_failed r w d e ce s2 s3 hG hnf hC]
        exact Or.inr (Or.inr (Or.inl ⟨e, ce, hnf, rfl, rfl⟩))
    · rw [reconcileCreateDevice_unreachable r w d e s2 hG (by simpa using hnf)]
      exact Or.inr (Or.inr (Or.inr ⟨e, by simpa using hnf, rfl, rfl⟩))

/-- The deletion phase of an object under deletion: the remote Delete, then
(unless it failed with an error other than not-found) the clearing patch; no
status write. -/
theorem reconcilePhases_deleting (r : DeviceReconciler σ) (w : World σ) (d : Device)
    (hdel : d.meta.deletionIsZero = false) :
    ∃ err rest, (r.reconcilePhases w d).1 = Completion.returned ({}, err) ∧
      (r.reconcilePhases w d).2.2.trace = w.trace ++ rest ∧
      ∀ ev ∈ rest, ev.isStatusWrite = false ∧
        (ev.isRemote = true → ∃ res, ev = Event.remoteDelete
          (GetEdgeDeviceName d.meta EdgeXObjectName) res) := by
  rcases hD : r.env.Delete w.st (GetEdgeDeviceName d.meta EdgeXObjectName) with ⟨derr, s1⟩
  rcases hp : r.env.storePatch s1 d [] with ⟨pres, s2⟩
  cases derr with
  | none =>
    cases pres with
    | none =>
      refine ⟨none, [Event.remoteDelete (GetEdgeDeviceName d.meta EdgeXObjectName) none, Event.patchFinalizers [] none], ?_, ?_, ?_⟩ <;>
        simp [DeviceReconciler.reconcilePhases, DeviceReconciler.reconcileDeleteDevice,
          DeviceReconciler.Patch, hdel, hD, hp, Event.isStatusWrite, Event.isRemote]
    | some e =>
      refine ⟨IgnoreNotFound e,
        [Event.remoteDelete (GetEdgeDeviceName d.meta EdgeXObjectName) none, Event.patchFinalizers [] (some e)], ?_, ?_, ?_⟩ <;>
        simp [DeviceReconciler.reconcilePhases, DeviceReconciler.reconcileDeleteDevice,
          DeviceReconciler.Patch, hdel, hD, hp, Event.isStatusWrite, Event.isRemote]
  | some de =>
    cases hnf : IsNotFoundErr de
    · refine ⟨IgnoreNotFound de, [Event.remoteDelete (GetEdgeDeviceName d.meta EdgeXObjectName) (some de)], ?_, ?_, ?_⟩ <;>
        simp [DeviceReconciler.reconcilePhases, DeviceReconciler.reconcileDeleteDevice,
          DeviceReconciler.Patch, hdel, hD, hp, hnf, Event.isStatusWrite, Event.isRemote]
    · cases pres with
      | none =>
        refine ⟨none, [Event.remoteDelete (GetEdgeDeviceName d.meta EdgeXObjectName) (some de), Event.patchFinalizers [] none],
          ?_, ?_, ?_⟩ <;>
          simp [DeviceReconciler.reconcilePhases, DeviceReconciler.reconcileDeleteDevice,
            DeviceReconciler.Patch, hdel, hD, hp, hnf, Event.isStatusWrite, Event.isRemote]
      | some e =>
        refine ⟨IgnoreNotFound e,
          [Event.remoteDelete (GetEdgeDeviceName d.meta EdgeXObjectName) (some de), Event.patchFinalizers [] (some e)], ?_, ?_, ?_⟩ <;>
          simp [DeviceReconciler.reconcilePhases, DeviceReconciler.reconcileDeleteDevice,
            DeviceReconciler.Patch, hdel, hD, hp, hnf, Event.isStatusWrite, Event.isRemote]

/-- C4 fails on the code: for a profile under deletion the finalizers are
cleared first and the remote delete is issued afterwards; when that delete
fails with a server error, the error is returned although the finalizers are
already gone (the device reconciler deletes remotely first). -/
theorem reconcileDeleteDeviceProfile_clears_before_remote_delete :
    deletingProfile.meta.deletionIsZero = false ∧
    (failingDeleteProfileReconciler.reconcileDeleteDeviceProfile { st := () } deletingProfile
        "p1").1 = some (Err.edgeOther "500 internal server error") ∧
    (failingDeleteProfileReconciler.reconcileDeleteDeviceProfile { st := () } deletingProfile
        "p1").2.1.meta.finalizers = [] ∧
    (failingDeleteProfileReconciler.reconcileDeleteDeviceProfile { st := () } deletingProfile
        "p1").2.2.trace =
      [Event.patchFinalizers [] none,
       Event.remoteDelete "p1" (some (Err.edgeOther "500 internal server error"))] ∧
    (failingDeleteProfileReconciler.Reconcile () "p1").err =
      some (Err.edgeOther "500 internal server error") := by
  decide

/-- C5. Node-pool partition: a pass over a device, or over a device profile,
whose node-pool differs from the reconciler's returns the empty result and no
error, and apart from the local read it makes no call at all: no remote call,
no metadata patch, no status write (the end-of-pass write included). -/
theorem Reconcile_other_pool_is_inert (s : σ) (req : String) :
    (∀ (r : DeviceReconciler σ) (d : Device), (r.env.storeGet s req).1 = .ok d →
      d.spec.nodePool ≠ r.NodePool →
        (r.Reconcile s req).out = Completion.returned ({ Requeue := false, RequeueAfter := 0 }, none) ∧
        (r.Reconcile s req).trace = [Event.localGet req none] ∧
        ∀ ev ∈ (r.Reconcile s req).trace,
          ev.isRemote = false ∧ ev.isPatch = false ∧ ev.isStatusWrite = false) ∧
    (∀ (r : DeviceProfileReconciler σ) (dp : DeviceProfile),
      (r.env.storeGet s req).1 = .ok dp → dp.spec.nodePool ≠ r.NodePool →
        (r.Reconcile s req).result = { Requeue := false, RequeueAfter := 0 } ∧
        (r.Reconcile s req).err = none ∧
        (r.Reconcile s req).trace = [Event.localGet req none] ∧
        ∀ ev ∈ (r.Reconcile s req).trace,
          ev.isRemote = false ∧ ev.isPatch = false ∧ ev.isStatusWrite = false) := by
  constructor
  · intro r d hget hpool
    rcases hg : r.env.storeGet s req with ⟨got, s1⟩
    rw [hg] at hget
    simp only at hget
    subst hget
    simp [DeviceReconciler.Reconcile, hg, hpool, Event.isRemote, Event.isPatch,
      Event.isStatusWrite]
  · intro r dp hget hpool
    rcases hg : r.env.storeGet s req with ⟨got, s1⟩
    rw [hg] at hget
    simp only at hget
    subst hget
    simp [DeviceProfileReconciler.Reconcile, hg, hpool, Event.isRemote, Event.isPatch,
      Event.isStatusWrite]

/-- The witness of C5: reconcilers of `pool-a` on objects of `pool-b`. -/
theorem Reconcile_other_pool_is_inert_witness :
    foreignDevice.spec.nodePool ≠ foreignDeviceReconciler.NodePool ∧
    foreignProfile.spec.nodePool ≠ foreignProfileReconciler.NodePool ∧
    (foreignDeviceReconciler.Reconcile () "d9").trace = [Event.localGet "d9" none] ∧
    (foreignProfileReconciler.Reconcile () "p9").trace = [Event.localGet "p9" none] :=
  ⟨by decide, by decide,
    ((Reconcile_other_pool_is_inert () "d9").1 foreignDeviceReconciler foreignDevice rfl
      (by decide)).2.1,
    ((Reconcile_other_pool_is_inert () "p9").2 foreignProfileReconciler foreignProfile rfl
      (by decide)).2.2.1⟩

/-- C7. Change-admission filter: for an update event whose old and new objects
are both EdgeX objects, the filter suppresses the event exactly when the old
object is not added to EdgeX and the new one is; in particular an update of a
device that leaves the indicator unchanged (such as a change of the desired
administrative state) is admitted; create and delete events are always
admitted. -/
theorem genFirstUpdateFilter_suppresses_iff (objKind : String) (e : UpdateEvent)
    (oldAdded newAdded : Bool) (hold : e.ObjectOld.IsAddedToEdgeX? = some oldAdded)
    (hnew : e.ObjectNew.IsAddedToEdgeX? = some newAdded) :
    ((genFirstUpdateFilter objKind).Update e = false ↔ (oldAdded = false ∧ newAdded = true)) ∧
    (∀ d d' : Device, d.status.synced = d'.status.synced →
      (genFirstUpdateFilter objKind).Update
        { ObjectOld := Object.device d, ObjectNew := Object.device d' } = true) ∧
    (∀ obj : Object, (genFirstUpdateFilter objKind).Create obj = true ∧
      (genFirstUpdateFilter objKind).Delete obj = true) := by
  refine ⟨?_, ?_, ?_⟩
  · cases oldAdded <;> cases newAdded <;>
      simp [genFirstUpdateFilter, Funcs.Update, firstUpdateFunc, hold, hnew]
  · intro d d' h
    cases hs : d'.status.synced <;>
      simp [genFirstUpdateFilter, Funcs.Update, firstUpdateFunc, Object.IsAddedToEdgeX?, h, hs]
  · intro obj
    simp [genFirstUpdateFilter, Funcs.Create, Funcs.Delete]

/-- The witness of C7: the reconciler's own registration write is suppressed. -/
theorem genFirstUpdateFilter_suppresses_iff_witness :
    selfRegistrationEvent.ObjectOld.IsAddedToEdgeX? = some false ∧
    selfRegistrationEvent.ObjectNew.IsAddedToEdgeX? = some true ∧
    (genFirstUpdateFilter "device").Update selfRegistrationEvent = false :=
  ⟨rfl, rfl,
    (genFirstUpdateFilter_suppresses_iff "device" selfRegistrationEvent false true rfl rfl).1.2
      ⟨rfl, rfl⟩⟩

/-- C8 fails as stated: an update event whose old object cannot be classified
as an EdgeX object is suppressed, not admitted. -/
theorem genFirstUpdateFilter_unclassified_is_suppressed :
    unclassifiedEvent.ObjectOld.IsAddedToEdgeX? = none ∧
    (genFirstUpdateFilter "device").Update unclassifiedEvent = false := by
  decide

/-- C8 (amended). The change-admission filter fails closed: an update event
whose old or new object cannot be classified as an EdgeX object is suppressed
(`UpdateFunc` returns false). -/
theorem genFirstUpdateFilter_fails_closed (objKind : String) (e : UpdateEvent)
    (h : e.ObjectOld.IsAddedToEdgeX? = none ∨ e.ObjectNew.IsAddedToEdgeX? = none) :
    (genFirstUpdateFilter objKind).Update e = false := by
  rcases h with h | h
  · simp [genFirstUpdateFilter, Funcs.Update, firstUpdateFunc, h]
  · cases ho : e.ObjectOld.IsAddedToEdgeX? <;>
      simp [genFirstUpdateFilter, Funcs.Update, firstUpdateFunc, h, ho]

/-- The witness of C8 (amended). -/
theorem genFirstUpdateFilter_fails_closed_witness :
    (unclassifiedEvent.ObjectOld.IsAddedToEdgeX? = none ∨
      unclassifiedEvent.ObjectNew.IsAddedToEdgeX? = none) ∧
    (genFirstUpdateFilter "deviceprofile").Update unclassifiedEvent = false :=
  ⟨Or.inl rfl, genFirstUpdateFilter_fails_closed "deviceprofile" unclassifiedEvent (Or.inl rfl)⟩

/-- Every status write the phases of a pass issue is the one of the
registration phase or the one of the update phase, and its answer decides
what `Reconcile` returns. -/
theorem reconcilePhases_status_writes (r : DeviceReconciler σ) (w : World σ) (d : Device)
    (site : Site) (st : DeviceStatus) (res : Option Err)
    (hmem : Event.statusUpdate site st res ∈ (r.reconcilePhases w d).2.2.trace) :
    Event.statusUpdate site st res ∈ w.trace ∨
    (site = Site.registration ∧ (r.reconcilePhases w d).1 = registrationReturn res) ∨
    (site = Site.managedUpdate ∧
      (r.reconcilePhases w d).1 = updateReturn (Completion.returned res)) := by
  cases hdel : d.meta.deletionIsZero
  · obtain ⟨err, rest, -, htr, hrest⟩ := reconcilePhases_deleting r w d hdel
    rw [htr] at hmem
    rcases List.mem_append.mp hmem with h | h
    · exact Or.inl h
    · have := (hrest _ h).1
      simp [Event.isStatusWrite] at this
  · rcases reconcilePhases_live r w d hdel with
      ⟨e, s2, -, hph⟩ | ⟨d1, w1, hw1, hst, hsp, hname, hnm, hph⟩
    · rw [hph] at hmem
      simp only [List.mem_append, List.mem_singleton, reduceCtorEq, or_false] at hmem
      exact Or.inl hmem
    · have hw1' : ∀ ev, ev.isStatusWrite = true → ev ∈ w1.trace → ev ∈ w.trace := by
        intro ev hev hin
        rcases hw1 with ⟨-, rfl⟩ | ⟨-, s3, rfl⟩
        · exact hin
        · rcases List.mem_append.mp hin with h | h
          · exact h
          · simp only [List.mem_singleton] at h
            subst h
            simp [Event.isStatusWrite] at hev
      rw [hph] at hmem ⊢
      by_cases hs : d.status.synced = false
      · simp only [hs, if_true] at hmem ⊢
        rcases reconcileCreateDevice_shape r w1 d1 with
          ⟨id, res', h1, h2⟩ | ⟨e, id, res', -, h1, h2⟩ | ⟨e, ce, -, h1, h2⟩ | ⟨e, -, h1, h2⟩ <;>
          rw [h2] at hmem <;>
          simp only [List.mem_append, List.mem_cons, List.mem_singleton, List.not_mem_nil,
            reduceCtorEq, or_false, false_or, Event.statusUpdate.injEq] at hmem
        · rcases hmem with h | ⟨rfl, -, rfl⟩
          · exact Or.inl (hw1' _ rfl h)
          · exact Or.inr (Or.inl ⟨rfl, by rw [h1]⟩)
        · rcases hmem with h | ⟨rfl, -, rfl⟩
          · exact Or.inl (hw1' _ rfl h)
          · exact Or.inr (Or.inl ⟨rfl, by rw [h1]⟩)
        · exact Or.inl (hw1' _ rfl hmem)
        · exact Or.inl (hw1' _ rfl hmem)
      · have hs' : d.status.synced = true := by simpa using hs
        by_cases hm : d.spec.managed = true
        · simp only [hs', hm, if_true, Bool.true_eq_false, if_false] at hmem ⊢
          rcases reconcileUpdateDevice_shape r w1 d1 with
            ⟨e, h1, h2⟩ | ⟨suf, hp, h1, h2⟩ | ⟨suf, st', res', hp, h1, h2⟩ <;>
            rw [h2] at hmem <;>
            simp only [List.mem_append, List.mem_cons, List.mem_singleton, List.not_mem_nil,
              reduceCtorEq, or_false, false_or, Event.statusUpdate.injEq] at hmem
          · exact Or.inl (hw1' _ rfl hmem)
          · rcases hmem with h | h
            · exact Or.inl (hw1' _ rfl h)
            · have := hp _ h
              simp [Event.isPropertyCall] at this
          · rcases hmem with (h | h) | ⟨rfl, -, rfl⟩
            · exact Or.inl (hw1' _ rfl h)
            · have := hp _ h
              simp [Event.isPropertyCall] at this
            · exact Or.inr (Or.inr ⟨rfl, by rw [h1]⟩)
        · simp only [hs', hm, Bool.true_eq_false, if_false] at hmem
          exact Or.inl (hw1' _ rfl hmem)

/-- C9 fails as stated: when the end-of-pass status write is the one rejected
with a conflict, `Reconcile` returns no retry directive at all. -/
theorem Reconcile_end_of_pass_conflict_gives_no_retry :
    (conflictAtEndReconciler.Reconcile () "d1").trace =
      [Event.localGet "d1" none,
       Event.statusUpdate Site.endOfPass
        { synced := true, edgeId := "edge-1",
          conditions :=
            [{ type := DeviceManagingCondition, status := false,
               severity := ConditionSeverityInfo,
               reason := "this device is not managed by openyurt" }] }
        (some Err.apiConflict)] ∧
    IsConflict Err.apiConflict = true ∧
    (conflictAtEndReconciler.Reconcile () "d1").out =
      Completion.returned ({ Requeue := false, RequeueAfter := 0 }, none) := by
  decide

/-- C9 (amended). A conflict on a phase's status write is never surfaced: when
the status write of the registration path is rejected with a conflict,
`Reconcile` returns a nil error with `Requeue = true`; when the status write of
the managed-update path is rejected with a conflict, it returns a nil error
with `RequeueAfter` of two seconds.  The end-of-pass write of the recomputed
conditions is the last call of the pass and its outcome is only logged:
`Reconcile` returns what the phases before it returned, so a conflict there
produces no retry directive. -/
theorem Reconcile_conflict_requeues (r : DeviceReconciler σ) (s : σ) (req : String) :
    (∀ st e, Event.statusUpdate Site.registration st (some e) ∈ (r.Reconcile s req).trace →
      IsConflict e = true →
      (r.Reconcile s req).out =
        Completion.returned ({ Requeue := true, RequeueAfter := 0 }, none)) ∧
    (∀ st e, Event.statusUpdate Site.managedUpdate st (some e) ∈ (r.Reconcile s req).trace →
      IsConflict e = true →
      (r.Reconcile s req).out =
        Completion.returned ({ Requeue := false, RequeueAfter := 2 * timeSecond }, none)) ∧
    (∀ d s1, r.env.storeGet s req = (.ok d, s1) → d.spec.nodePool = r.NodePool →
      ∃ st res,
        (r.Reconcile s req).trace =
          (r.reconcilePhases { st := s1, trace := [Event.localGet req none] } d).2.2.trace ++
            [Event.statusUpdate Site.endOfPass st res] ∧
        (r.Reconcile s req).out =
          (r.reconcilePhases { st := s1, trace := [Event.localGet req none] } d).1) := by
  have key : ∀ site st e, site ≠ Site.endOfPass →
      Event.statusUpdate site st (some e) ∈ (r.Reconcile s req).trace →
      (site = Site.registration ∧ (r.Reconcile s req).out = registrationReturn (some e)) ∨
      (site = Site.managedUpdate ∧
        (r.Reconcile s req).out = updateReturn (Completion.returned (some e))) := by
    intro site st e hsite hmem
    rcases hg : r.env.storeGet s req with ⟨got, s1⟩
    cases got with
    | error err => simp [DeviceReconciler.Reconcile, hg] at hmem
    | ok d =>
      by_cases hpool : d.spec.nodePool = r.NodePool
      · obtain ⟨st', res', htr, -, -, hout⟩ := Reconcile_trace r s s1 req d hg hpool
        rw [htr] at hmem
        rw [hout]
        simp only [List.mem_append, List.mem_singleton, Event.statusUpdate.injEq] at hmem
        rcases hmem with h | ⟨h, -, -⟩
        · rcases reconcilePhases_status_writes r _ d site st (some e) h with h' | h' | h'
          · simp at h'
          · exact Or.inl h'
          · exact Or.inr h'
        · exact absurd h hsite
      · simp [DeviceReconciler.Reconcile, hg, hpool] at hmem
  refine ⟨?_, ?_, ?_⟩
  · intro st e hmem hc
    rcases key Site.registration st e (by decide) hmem with ⟨-, h⟩ | ⟨h, -⟩
    · rw [h]
      simp [registrationReturn, hc]
    · exact absurd h (by decide)
  · intro st e hmem hc
    rcases key Site.managedUpdate st e (by decide) hmem with ⟨h, -⟩ | ⟨-, h⟩
    · exact absurd h (by decide)
    · rw [h]
      simp [updateReturn, hc, Nat.mul_comm]
  · intro d s1 hg hpool
    obtain ⟨st', res', htr, -, -, hout⟩ := Reconcile_trace r s s1 req d hg hpool
    exact ⟨st', res', htr, hout⟩

/-- The witness of C9 (amended): the registration write is rejected with a conflict. -/
theorem Reconcile_conflict_requeues_witness :
    Event.statusUpdate Site.registration (registered unsyncedDevice "edge-1").status
        (some Err.apiConflict) ∈ (conflictAtRegistrationReconciler.Reconcile () "d1").trace ∧
    (conflictAtRegistrationReconciler.Reconcile () "d1").out =
      Completion.returned ({ Requeue := true, RequeueAfter := 0 }, none) :=
  ⟨by decide,
    (Reconcile_conflict_requeues conflictAtRegistrationReconciler () "d1").1
      (registered unsyncedDevice "edge-1").status Err.apiConflict (by decide) rfl⟩

theorem toKubeProfileProperty_toEdgeX (pp : ResourceProperties) :
    toKubeProfileProperty (toEdgeXProfileProperty pp) = pp := rfl

theorem attributes_roundtrip (fmtF : Float64 → String) (attrs : GoMap String) :
    (attrs.map (fun kv => (kv.1, AttrValue.str kv.2))).filterMap
      (fun kv => (stringifyAttr fmtF kv.2).map (fun v => (kv.1, v))) = attrs := by
  induction attrs with
  | nil => rfl
  | cons kv rest ih =>
    rw [List.map_cons, List.filterMap_cons, ih]
    rfl

/-- Local to remote to local on one device-resource keeps every field but the
hidden flag, which `toEdgeXDeviceResource` does not copy. -/
theorem toKubeDeviceResource_toEdgeX (fmtF : Float64 → String) (dr : DeviceResource) :
    toKubeDeviceResource fmtF (toEdgeXDeviceResource dr) = { dr with isHidden := false } := by
  unfold toKubeDeviceResource toEdgeXDeviceResource
  simp only [toKubeProfileProperty_toEdgeX, attributes_roundtrip]

theorem toKubeResourceOperations_toEdgeX (ros : List ResourceOperation) :
    toKubeResourceOperations (toEdgeXResourceOperations ros) = ros := by
  simp [toKubeResourceOperations, toEdgeXResourceOperations, Function.comp_def]

theorem toKubeDeviceCommand_toEdgeX (dcs : List DeviceCommand) :
    toKubeDeviceCommand (toEdgeXDeviceCommand dcs) = dcs := by
  simp [toKubeDeviceCommand, toEdgeXDeviceCommand, Function.comp_def,
    toKubeResourceOperations_toEdgeX]

/-- Local to remote to local on a profile: the spec comes back with every
field preserved except the hidden flag of each device-resource (reset) and the
node-pool (not carried by the remote representation). -/
theorem toKubeDeviceProfile_toEdgeX_spec (fmtF : Float64 → String) (lower : String → String)
    (dp : DeviceProfile) :
    (toKubeDeviceProfile fmtF lower (toEdgeXDeviceProfile dp)).spec =
      { dp.spec with
        deviceResources := dp.spec.deviceResources.map (fun dr => { dr with isHidden := false })
        nodePool := "" } := by
  simp [toKubeDeviceProfile, toEdgeXDeviceProfile, toKubeDeviceResources,
    toEdgeXDeviceResourceSlice, toKubeDeviceCommand_toEdgeX, Function.comp_def,
    toKubeDeviceResource_toEdgeX]

/-- C10 fails on the code: a locally authored profile with a hidden
device-resource comes back from local to remote to local with that resource
no longer hidden; the device-command next to it keeps its hidden flag. -/
theorem roundtrip_loses_resource_hidden_flag (fmtF : Float64 → String)
    (lower : String → String) :
    hiddenResourceProfile.spec.deviceResources.map (fun dr => (dr.name, dr.isHidden)) =
      [("temperature", true)] ∧
    (toKubeDeviceProfile fmtF lower
        (toEdgeXDeviceProfile hiddenResourceProfile)).spec.deviceResources.map
      (fun dr => (dr.name, dr.isHidden)) = [("temperature", false)] ∧
    (toKubeDeviceProfile fmtF lower
        (toEdgeXDeviceProfile hiddenResourceProfile)).spec.deviceCommands =
      hiddenResourceProfile.spec.deviceCommands ∧
    (toKubeDeviceProfile fmtF lower (toEdgeXDeviceProfile hiddenResourceProfile)).spec ≠
      hiddenResourceProfile.spec := by
  refine ⟨rfl, rfl, rfl, ?_⟩
  intro h
  have h2 := congrArg (fun sp => sp.deviceResources.map (fun dr => dr.isHidden)) h
  simp [toKubeDeviceProfile, toEdgeXDeviceProfile, toKubeDeviceResources,
    toEdgeXDeviceResourceSlice, toKubeDeviceResource, toEdgeXDeviceResource,
    hiddenResourceProfile] at h2

/-- The scenario of the spec for failure isolation: the push of `B` fails and
the push of `A` succeeds; `A` is mirrored as `"1"`, `B` is in the failed set,
and the update phase returns no error. -/
theorem failing_push_is_isolated :
    (failingPushReconciler.reconcileDeviceProperties { st := () } twoPropertyDevice
        twoPropertyDevice.status).1 =
      Completion.returned
        ({ twoPropertyDevice.status with
            deviceProperties := some
              [("A", { name := "A", getURL := "/A", actualValue := "1" }),
               ("B", { name := "B", getURL := "/B", actualValue := "0" })] },
          ["B"]) ∧
    (failingPushReconciler.reconcileUpdateDevice { st := () } twoPropertyDevice).1 =
      Completion.returned none ∧
    (failingPushReconciler.Reconcile () "d1").out =
      Completion.returned ({ Requeue := false, RequeueAfter := 0 }, none) := by
  decide

/-- C6 fails on the code: when the read of `A` answers not-found without a
state object, the loop dereferences the nil state and panics at `A`; `B` is
never read nor written, no status and no failed set come back, and the pass
ends in the panic after the deferred status write. -/
theorem missing_read_aborts_property_loop :
    (missingReadReconciler.reconcileDeviceProperties { st := () } twoPropertyDevice
        twoPropertyDevice.status).1 = Completion.panicked ∧
    (missingReadReconciler.reconcileDeviceProperties { st := () } twoPropertyDevice
        twoPropertyDevice.status).2.trace =
      [Event.remoteGetProperty "A" (none, some Err.edgeNotFound)] ∧
    (missingReadReconciler.reconcileUpdateDevice { st := () } twoPropertyDevice).1 =
      Completion.panicked ∧
    (missingReadReconciler.Reconcile () "d1").out = Completion.panicked ∧
    (missingReadReconciler.Reconcile () "d1").trace =
      [Event.localGet "d1" none,
       Event.remoteUpdate
        { twoPropertyDevice with
          spec := { twoPropertyDevice.spec with adminState := "", operatingState := "" } } none,
       Event.remoteGetProperty "A" (none, some Err.edgeNotFound),
       Event.statusUpdate Site.endOfPass twoPropertyDevice.status none] := by
  decide

theorem GoMap.get?_set_self {V : Type} (m : GoMap V) (k : String) (v : V) :
    GoMap.get? (GoMap.set m k v) k = some v := by
  induction m with
  | nil => simp [GoMap.set, GoMap.get?]
  | cons kv rest ih =>
    obtain ⟨k', v'⟩ := kv
    by_cases h : k' = k
    · simp [GoMap.set, GoMap.get?, h]
    · have hb : (k' == k) = false := by simpa using h
      simp only [GoMap.set, hb, Bool.false_eq_true, if_false]
      simp only [GoMap.get?, List.find?_cons, hb] at ih ⊢
      exact ih

theorem GoMap.get?_set_ne {V : Type} (m : GoMap V) (k k' : String) (v : V) (h : k' ≠ k) :
    GoMap.get? (GoMap.set m k v) k' = GoMap.get? m k' := by
  induction m with
  | nil => simp [GoMap.set, GoMap.get?, Ne.symm h]
  | cons kv rest ih =>
    obtain ⟨k0, v0⟩ := kv
    by_cases h0 : k0 = k
    · subst h0
      simp [GoMap.set, GoMap.get?, List.find?_cons, Ne.symm h]
    · have hb0 : (k0 == k) = false := by simpa using h0
      simp only [GoMap.set, hb0, Bool.false_eq_true, if_false]
      by_cases h1 : k0 = k'
      · simp [GoMap.get?, List.find?_cons, h1]
      · have hb : (k0 == k') = false := by simpa using h1
        simp only [GoMap.get?, List.find?_cons, hb] at ih ⊢
        exact ih

theorem DeviceStatus.property?_setProperty_self (st : DeviceStatus) (k : String)
    (ap : ActualPropertyState) : (st.setProperty k ap).property? k = some ap := by
  simp [DeviceStatus.setProperty, DeviceStatus.property?, GoMap.get?_set_self]

theorem DeviceStatus.property?_setProperty_ne (st : DeviceStatus) (k k' : String)
    (ap : ActualPropertyState) (h : k' ≠ k) :
    (st.setProperty k ap).property? k' = st.property? k' := by
  simp [DeviceStatus.setProperty, DeviceStatus.property?, GoMap.get?_set_ne _ _ _ _ h]

theorem propertyStep_skip (r : DeviceReconciler σ) (d : Device) (p : DesiredPropertyState)
    (st : DeviceStatus) (failed : List String) (w : World σ) (hd : p.desiredValue = "") :
    r.propertyStep d p st failed w = (Completion.returned (st, failed), w) := by
  simp [DeviceReconciler.propertyStep, hd]

theorem propertyStep_read_failed (r : DeviceReconciler σ) (d : Device)
    (p : DesiredPropertyState) (st : DeviceStatus) (failed : List String) (w : World σ)
    (hd : p.desiredValue ≠ "") (oap : Option ActualPropertyState) (oerr : Option Err) (s1 : σ)
    (hR : r.env.GetPropertyState w.st p.name d = ((oap, oerr), s1))
    (hf : readFailed oerr = true) :
    r.propertyStep d p st failed w =
      (Completion.returned (st, failed ++ [p.name]),
        { st := s1, trace := w.trace ++ [Event.remoteGetProperty p.name (oap, oerr)] }) := by
  simp [DeviceReconciler.propertyStep, hd, hR, hf]

theorem propertyStep_in_sync (r : DeviceReconciler σ) (d : Device)
    (p : DesiredPropertyState) (st : DeviceStatus) (failed : List String) (w : World σ)
    (hd : p.desiredValue ≠ "") (ap : ActualPropertyState) (oerr : Option Err) (s1 : σ)
    (hR : r.env.GetPropertyState w.st p.name d = ((some ap, oerr), s1))
    (hf : readFailed oerr = false) (hv : p.desiredValue = ap.actualValue) :
    r.propertyStep d p st failed w =
      (Completion.returned (st.setProperty p.name ap, failed),
        { st := s1, trace := w.trace ++ [Event.remoteGetProperty p.name (some ap, oerr)] }) := by
  have hd' : ap.actualValue ≠ "" := hv ▸ hd
  simp [DeviceReconciler.propertyStep, hd', hR, hf, hv]

theorem propertyStep_write_failed (r : DeviceReconciler σ) (d : Device)
    (p : DesiredPropertyState) (st : DeviceStatus) (failed : List String) (w : World σ)
    (hd : p.desiredValue ≠ "") (ap : ActualPropertyState) (oerr : Option Err) (s1 s2 : σ)
    (hR : r.env.GetPropertyState w.st p.name d = ((some ap, oerr), s1))
    (hf : readFailed oerr = false) (hv : p.desiredValue ≠ ap.actualValue) (e : Err)
    (hU : r.env.UpdatePropertyState s1 p.name d = (some e, s2)) :
    r.propertyStep d p st failed w =
      (Completion.returned (st.setProperty p.name ap, failed ++ [p.name]),
        { st := s2,
          trace := w.trace ++ [Event.remoteGetProperty p.name (some ap, oerr),
            Event.remoteUpdateProperty p.name (some e)] }) := by
  simp [DeviceReconciler.propertyStep, hd, hR, hf, hv, hU]

theorem propertyStep_written (r : DeviceReconciler σ) (d : Device)
    (p : DesiredPropertyState) (st : DeviceStatus) (failed : List String) (w : World σ)
    (hd : p.desiredValue ≠ "") (ap : ActualPropertyState) (oerr : Option Err) (s1 s2 : σ)
    (hR : r.env.GetPropertyState w.st p.name d = ((some ap, oerr), s1))
    (hf : readFailed oerr = false) (hv : p.desiredValue ≠ ap.actualValue)
    (hU : r.env.UpdatePropertyState s1 p.name d = (none, s2)) :
    r.propertyStep d p st failed w =
      (Completion.returned
        ((st.setProperty p.name ap).setProperty p.name
          { name := p.name, getURL := ap.getURL, actualValue := p.desiredValue }, failed),
        { st := s2,
          trace := w.trace ++ [Event.remoteGetProperty p.name (some ap, oerr),
            Event.remoteUpdateProperty p.name none] }) := by
  simp [DeviceReconciler.propertyStep, hd, hR, hf, hv, hU]

/-- One iteration of the property loop, when the read yields a state object:
it returns, it reads the property if its desired value is non-empty, it
touches no other property, a failed write puts the name in the failed set, a
successful write mirrors the desired value, and the failed set only grows. -/
theorem propertyStep_isolated (r : DeviceReconciler σ) (d : Device)
    (hread : ∀ s name, (r.env.GetPropertyState s name d).1.1 ≠ none)
    (p : DesiredPropertyState) (st : DeviceStatus) (failed : List String) (w : World σ) :
    ∃ st' failed' suf s',
      r.propertyStep d p st failed w =
        (Completion.returned (st', failed'), { st := s', trace := w.trace ++ suf }) ∧
      (p.desiredValue ≠ "" → ∃ res, Event.remoteGetProperty p.name res ∈ suf) ∧
      (∀ ev ∈ suf, (∃ res, ev = Event.remoteGetProperty p.name res) ∨
        (∃ res, ev = Event.remoteUpdateProperty p.name res)) ∧
      (∀ e, Event.remoteUpdateProperty p.name (some e) ∈ suf → p.name ∈ failed') ∧
      (∀ n, n ∈ failed → n ∈ failed') ∧
      (Event.remoteUpdateProperty p.name none ∈ suf →
        ∃ url, st'.property? p.name =
          some { name := p.name, getURL := url, actualValue := p.desiredValue }) ∧
      (∀ k, k ≠ p.name → st'.property? k = st.property? k) := by
  by_cases hd : p.desiredValue = ""
  · exact ⟨st, failed, [], w.st, by simp [propertyStep_skip r d p st failed w hd],
      by simp [hd], by simp, by simp, by simp, by simp, by simp⟩
  · rcases hR : r.env.GetPropertyState w.st p.name d with ⟨⟨oap, oerr⟩, s1⟩
    have hne := hread w.st p.name
    rw [hR] at hne
    simp only [ne_eq] at hne
    cases hf : readFailed oerr
    · cases oap with
      | none => exact absurd rfl hne
      | some ap =>
        by_cases hv : p.desiredValue = ap.actualValue
        · refine ⟨_, _, _, _, propertyStep_in_sync r d p st failed w hd ap oerr s1 hR hf hv,
            by simp, by simp, by simp, by simp, by simp, ?_⟩
          intro k hk
          exact DeviceStatus.property?_setProperty_ne _ _ _ _ hk
        · rcases hU : r.env.UpdatePropertyState s1 p.name d with ⟨uerr, s2⟩
          cases uerr with
          | some e =>
            refine ⟨_, _, _, _,
              propertyStep_write_failed r d p st failed w hd ap oerr s1 s2 hR hf hv e hU,
              by simp, by simp, by simp, ?_, by simp, ?_⟩
            · intro n hn
              exact List.mem_append_left _ hn
            · intro k hk
              exact DeviceStatus.property?_setProperty_ne _ _ _ _ hk
          | none =>
            refine ⟨_, _, _, _,
              propertyStep_written r d p st failed w hd ap oerr s1 s2 hR hf hv hU,
              by simp, by simp, by simp, by simp, ?_, ?_⟩
            · intro _
              exact ⟨ap.getURL, DeviceStatus.property?_setProperty_self _ _ _⟩
            · intro k hk
              rw [DeviceStatus.property?_setProperty_ne _ _ _ _ hk,
                DeviceStatus.property?_setProperty_ne _ _ _ _ hk]
    · refine ⟨_, _, _, _, propertyStep_read_failed r d p st failed w hd oap oerr s1 hR hf,
        by simp, by simp, by simp, ?_, by simp, by simp⟩
      intro n hn
      exact List.mem_append_left _ hn

/-- Failure isolation in the property loop, when every read yields a state
object: the loop returns; every property with a non-empty desired value is
read, whatever happened to the earlier ones; every call of the loop concerns
a listed property; a property whose write failed is in the failed set; and,
the names being distinct, a property whose write succeeded is mirrored in the
status with its desired value. -/
theorem propertiesLoop_isolates_failures (r : DeviceReconciler σ) (d : Device)
    (hread : ∀ s name, (r.env.GetPropertyState s name d).1.1 ≠ none)
    (ps : List DesiredPropertyState) :
    ∀ (st : DeviceStatus) (failed : List String) (w : World σ),
      ∃ st' failed' suf s',
        r.propertiesLoop d ps st failed w =
          (Completion.returned (st', failed'), { st := s', trace := w.trace ++ suf }) ∧
        (∀ p ∈ ps, p.desiredValue ≠ "" → ∃ res, Event.remoteGetProperty p.name res ∈ suf) ∧
        (∀ ev ∈ suf, ∃ p ∈ ps, (∃ res, ev = Event.remoteGetProperty p.name res) ∨
          (∃ res, ev = Event.remoteUpdateProperty p.name res)) ∧
        (∀ name e, Event.remoteUpdateProperty name (some e) ∈ suf → name ∈ failed') ∧
        (∀ n, n ∈ failed → n ∈ failed') ∧
        ((ps.map (fun p => p.name)).Nodup → ∀ p ∈ ps,
          Event.remoteUpdateProperty p.name none ∈ suf →
          ∃ url, st'.property? p.name =
            some { name := p.name, getURL := url, actualValue := p.desiredValue }) ∧
        (∀ k, (∀ p ∈ ps, p.name ≠ k) → st'.property? k = st.property? k) := by
  induction ps with
  | nil =>
    intro st failed w
    exact ⟨st, failed, [], w.st, by simp [DeviceReconciler.propertiesLoop], by simp, by simp,
      by simp, by simp, by simp, by simp⟩
  | cons p rest ih =>
    intro st failed w
    obtain ⟨st1, failed1, suf1, s1, hstep, hrd1, hev1, hfl1, hmono1, hok1, hfr1⟩ :=
      propertyStep_isolated r d hread p st failed w
    obtain ⟨st2, failed2, suf2, s2, hloop, hrd2, hev2, hfl2, hmono2, hok2, hfr2⟩ :=
      ih st1 failed1 { st := s1, trace := w.trace ++ suf1 }
    refine ⟨st2, failed2, suf1 ++ suf2, s2, ?_, ?_, ?_, ?_, ?_, ?_, ?_⟩
    · unfold DeviceReconciler.propertiesLoop
      rw [hstep]
      simp only [hloop, List.append_assoc]
    · intro q hq hqd
      rcases List.mem_cons.mp hq with rfl | hq
      · obtain ⟨res, hres⟩ := hrd1 hqd
        exact ⟨res, List.mem_append_left _ hres⟩
      · obtain ⟨res, hres⟩ := hrd2 q hq hqd
        exact ⟨res, List.mem_append_right _ hres⟩
    · intro ev hev
      rcases List.mem_append.mp hev with h | h
      · exact ⟨p, List.mem_cons_self _ _, hev1 ev h⟩
      · obtain ⟨q, hq, hq'⟩ := hev2 ev h
        exact ⟨q, List.mem_cons_of_mem _ hq, hq'⟩
    · intro name e hev
      rcases List.mem_append.mp hev with h | h
      · rcases hev1 _ h with ⟨res, hres⟩ | ⟨res, hres⟩
        · simp at hres
        · simp only [Event.remoteUpdateProperty.injEq] at hres
          obtain ⟨rfl, -⟩ := hres
          exact hmono2 _ (hfl1 e h)
      · exact hfl2 name e h
    · intro n hn
      exact hmono2 n (hmono1 n hn)
    · intro hnd q hq hev
      simp only [List.map_cons, List.nodup_cons, List.mem_map, not_exists, not_and] at hnd
      obtain ⟨hnot, hnd'⟩ := hnd
      rcases List.mem_cons.mp hq with rfl | hq
      · rcases List.mem_append.mp hev with h | h
        · obtain ⟨url, hurl⟩ := hok1 h
          refine ⟨url, ?_⟩
          rw [hfr2 q.name (fun q' hq' => hnot q' hq'), hurl]
        · obtain ⟨q', hq', hq''⟩ := hev2 _ h
          rcases hq'' with ⟨res, hres⟩ | ⟨res, hres⟩
          · simp at hres
          · simp only [Event.remoteUpdateProperty.injEq] at hres
            exact absurd hres.1.symm (hnot q' hq')
      · rcases List.mem_append.mp hev with h | h
        · rcases hev1 _ h with ⟨res, hres⟩ | ⟨res, hres⟩
          · simp at hres
          · simp only [Event.remoteUpdateProperty.injEq] at hres
            exact absurd hres.1 (hnot q hq)
        · exact hok2 hnd' q hq h
    · intro k hk
      rw [hfr2 k (fun q hq => hk q (List.mem_cons_of_mem _ hq)),
        hfr1 k (fun h => hk p (List.mem_cons_self _ _) h.symm)]

theorem changed_iff (desired last : String) :
    (desired != "" && desired != last) = true ↔ (desired ≠ "" ∧ desired ≠ last) := by
  simp

/-- The status after step 1: each changed state mirrored, the rest as it was. -/
theorem reconcileStates_status (d : Device) :
    (reconcileStates d).1 =
      { d.status with
        adminState :=
          if d.spec.adminState ≠ "" ∧ d.spec.adminState ≠ d.status.adminState then
            d.spec.adminState else d.status.adminState
        operatingState :=
          if d.spec.operatingState ≠ "" ∧ d.spec.operatingState ≠ d.status.operatingState then
            d.spec.operatingState else d.status.operatingState } := by
  unfold reconcileStates
  simp only [changed_iff]
  split_ifs <;> rfl

@[simp] theorem setProperty_adminState (st : DeviceStatus) (k : String)
    (ap : ActualPropertyState) : (st.setProperty k ap).adminState = st.adminState := rfl

@[simp] theorem setProperty_operatingState (st : DeviceStatus) (k : String)
    (ap : ActualPropertyState) : (st.setProperty k ap).operatingState = st.operatingState := rfl

/-- Behind a closed guard the property loop is not entered. -/
theorem gatedProperties_closed (r : DeviceReconciler σ) (w : World σ) (d : Device)
    (st : DeviceStatus) (h : ¬(st.operatingState = Up ∧ st.adminState = UnLocked)) :
    r.gatedProperties w d st = (Completion.returned (st, []), w) := by
  unfold DeviceReconciler.gatedProperties
  have : (st.operatingState == Up && st.adminState == UnLocked) = false := by
    rw [Bool.eq_false_iff]
    simpa using h
  simp [this]

/-- The update phase by cases: the remote Update failed; or the guarded loop
panicked; or it returned and the status write of step 3 follows. -/
theorem reconcileUpdateDevice_cases (r : DeviceReconciler σ) (w : World σ) (d : Device) :
    (∃ e s1, r.env.Update w.st (reconcileStates d).2 = (some e, s1) ∧
      (r.reconcileUpdateDevice w d).1 = Completion.returned (some e) ∧
      (r.reconcileUpdateDevice w d).2.1.status.deviceProperties = d.status.deviceProperties ∧
      (r.reconcileUpdateDevice w d).2.2.trace =
        w.trace ++ [Event.remoteUpdate (reconcileStates d).2 (some e)]) ∨
    (∃ s1 w2, r.env.Update w.st (reconcileStates d).2 = (none, s1) ∧
      r.gatedProperties
        { st := s1, trace := w.trace ++ [Event.remoteUpdate (reconcileStates d).2 none] } d
        (reconcileStates d).1 = (Completion.panicked, w2) ∧
      r.reconcileUpdateDevice w d = (Completion.panicked, d, w2)) ∨
    (∃ s1 st failed w2, r.env.Update w.st (reconcileStates d).2 = (none, s1) ∧
      r.gatedProperties
        { st := s1, trace := w.trace ++ [Event.remoteUpdate (reconcileStates d).2 none] } d
        (reconcileStates d).1 = (Completion.returned (st, failed), w2) ∧
      r.reconcileUpdateDevice w d = r.writeManaged w2 d st failed) := by
  unfold DeviceReconciler.reconcileUpdateDevice
  rcases hU : r.env.Update w.st (reconcileStates d).2 with ⟨err, s1⟩
  cases err with
  | some e => exact Or.inl ⟨e, s1, rfl, rfl, rfl, rfl⟩
  | none =>
    right
    simp only
    rcases hL : r.gatedProperties
      { st := s1, trace := w.trace ++ [Event.remoteUpdate (reconcileStates d).2 none] } d
      (reconcileStates d).1 with ⟨c, w2⟩
    cases c with
    | panicked => exact Or.inl ⟨s1, w2, rfl, hL, rfl⟩
    | returned a =>
      obtain ⟨st1, failed⟩ := a
      exact Or.inr ⟨s1, st1, failed, w2, rfl, hL, rfl⟩

theorem reconcileStates_resulting (d : Device) :
    (reconcileStates d).1.adminState = resultingState d.spec.adminState d.status.adminState ∧
    (reconcileStates d).1.operatingState =
      resultingState d.spec.operatingState d.status.operatingState ∧
    (reconcileStates d).1.deviceProperties = d.status.deviceProperties := by
  rw [reconcileStates_status]
  exact ⟨rfl, rfl, rfl⟩

theorem writeManaged_device_properties (r : DeviceReconciler σ) (w : World σ) (d : Device)
    (st : DeviceStatus) (failed : List String) :
    (r.writeManaged w d st failed).2.1.status.deviceProperties = st.deviceProperties := by
  unfold DeviceReconciler.writeManaged DeviceReconciler.StatusUpdate
  rcases hS : r.env.storeStatusUpdate w.st { d with status := st } with ⟨res, s1⟩
  cases res with
  | some e => simp [hS, MarkFalse]
  | none => by_cases hf : failed.length = 0 <;> simp [hS, hf, MarkFalse, MarkTrue]

/-- C15. Property loop gating: `reconcileUpdateDevice` issues a property read or
write only if the remote Update succeeded and, after applying the desired
states, the resulting operating state is Up and the resulting administrative
state is UnLocked; otherwise no property call is made and the status property
map is unchanged, in every status written and in the device left behind; a
failed remote Update prevents every property call. -/
theorem reconcileUpdateDevice_property_calls_gated (r : DeviceReconciler σ) (s : σ)
    (d : Device) :
    ((∃ ev ∈ (r.reconcileUpdateDevice { st := s } d).2.2.trace, ev.isPropertyCall = true) →
      resultingState d.spec.operatingState d.status.operatingState = Up ∧
      resultingState d.spec.adminState d.status.adminState = UnLocked ∧
      (r.env.Update s (reconcileStates d).2).1 = none) ∧
    (¬(resultingState d.spec.operatingState d.status.operatingState = Up ∧
        resultingState d.spec.adminState d.status.adminState = UnLocked) →
      (∀ ev ∈ (r.reconcileUpdateDevice { st := s } d).2.2.trace, ev.isPropertyCall = false) ∧
      (∀ site st res,
        Event.statusUpdate site st res ∈ (r.reconcileUpdateDevice { st := s } d).2.2.trace →
        st.deviceProperties = d.status.deviceProperties) ∧
      (r.reconcileUpdateDevice { st := s } d).2.1.status.deviceProperties =
        d.status.deviceProperties) ∧
    (∀ e, (r.env.Update s (reconcileStates d).2).1 = some e →
      ∀ ev ∈ (r.reconcileUpdateDevice { st := s } d).2.2.trace, ev.isPropertyCall = false) := by
  obtain ⟨ha, ho, hdp⟩ := reconcileStates_resulting d
  rw [← ha, ← ho]
  rcases reconcileUpdateDevice_cases r { st := s } d with
    ⟨e, s1, hU, -, hprops, htr⟩ | ⟨s1, w2, hU, hL, hout⟩ | ⟨s1, st, failed, w2, hU, hL, hout⟩
  · simp only at hU
    rw [htr, hU]
    refine ⟨?_, ?_, ?_⟩
    · rintro ⟨ev, hev, hp⟩
      simp only [List.nil_append, List.mem_singleton] at hev
      subst hev
      simp [Event.isPropertyCall] at hp
    · intro _
      exact ⟨by simp [Event.isPropertyCall], by simp, hprops⟩
    · intro _ _
      simp [Event.isPropertyCall]
  · simp only at hU
    rw [hU]
    by_cases hg : (reconcileStates d).1.operatingState = Up ∧
        (reconcileStates d).1.adminState = UnLocked
    · exact ⟨fun _ => ⟨hg.1, hg.2, rfl⟩, fun hng => absurd hg hng, by simp⟩
    · rw [gatedProperties_closed r _ d _ hg] at hL
      simp at hL
  · simp only at hU
    rw [hU]
    by_cases hg : (reconcileStates d).1.operatingState = Up ∧
        (reconcileStates d).1.adminState = UnLocked
    · exact ⟨fun _ => ⟨hg.1, hg.2, rfl⟩, fun hng => absurd hg hng, by simp⟩
    · rw [gatedProperties_closed r _ d _ hg] at hL
      simp only [Prod.mk.injEq, Completion.returned.injEq] at hL
      obtain ⟨⟨rfl, rfl⟩, rfl⟩ := hL
      obtain ⟨-, hwt⟩ := writeManaged_shape r
        { st := s1, trace := [] ++ [Event.remoteUpdate (reconcileStates d).2 none] } d
        (reconcileStates d).1 []
      have hwp := writeManaged_device_properties r
        { st := s1, trace := [] ++ [Event.remoteUpdate (reconcileStates d).2 none] } d
        (reconcileStates d).1 []
      rw [hout, hwt, hwp]
      refine ⟨?_, ?_, ?_⟩
      · rintro ⟨ev, hev, hp⟩
        simp only [List.nil_append, List.singleton_append, List.mem_cons, List.mem_singleton,
          List.not_mem_nil, or_false] at hev
        rcases hev with rfl | rfl <;> simp [Event.isPropertyCall] at hp
      · intro _
        refine ⟨by simp [Event.isPropertyCall], ?_, hdp⟩
        intro site st res hmem
        simp only [List.nil_append, List.singleton_append, List.mem_cons, List.mem_singleton,
          List.not_mem_nil, or_false, reduceCtorEq, false_or, Event.statusUpdate.injEq] at hmem
        obtain ⟨-, rfl, -⟩ := hmem
        exact hdp
      · intro e he
        simp at he

/-- The witness of C15: the device asked to be locked gets no property call,
although it has a desired property; the up and unlocked device does. -/
theorem reconcileUpdateDevice_property_calls_gated_witness :
    ¬(resultingState lockingDevice.spec.operatingState lockingDevice.status.operatingState = Up ∧
      resultingState lockingDevice.spec.adminState lockingDevice.status.adminState = UnLocked) ∧
    (∀ ev ∈ (lockingReconciler.reconcileUpdateDevice { st := () } lockingDevice).2.2.trace,
      ev.isPropertyCall = false) ∧
    (∃ ev ∈ (failingPushReconciler.reconcileUpdateDevice { st := () } twoPropertyDevice).2.2.trace,
      ev.isPropertyCall = true) ∧
    resultingState twoPropertyDevice.spec.operatingState twoPropertyDevice.status.operatingState
      = Up :=
  ⟨by decide,
    ((reconcileUpdateDevice_property_calls_gated lockingReconciler () lockingDevice).2.1
      (by decide)).1,
    by decide,
    ((reconcileUpdateDevice_property_calls_gated failingPushReconciler () twoPropertyDevice).1
      (by decide)).1⟩

theorem conditionsSet_find (cs : List Condition) (c : Condition) :
    (conditionsSet cs c).find? (fun c' => c'.type == c.type) = some c := by
  induction cs with
  | nil => simp [conditionsSet]
  | cons c0 rest ih =>
    by_cases h : c0.type = c.type
    · simp [conditionsSet, h]
    · have hb : (c0.type == c.type) = false := by simpa using h
      simp only [conditionsSet, hb, Bool.false_eq_true, if_false, List.find?_cons]
      exact ih

theorem conditionsGet_MarkFalse (f : String → String) (d : Device)
    (t reason severity messageFormat : String) :
    conditionsGet (MarkFalse f d t reason severity messageFormat) t =
      some { type := t, status := false, severity := severity, reason := reason,
             message := Sprintf f messageFormat } := by
  unfold conditionsGet MarkFalse
  exact conditionsSet_find d.status.conditions
    { type := t, status := false, severity := severity, reason := reason,
      message := Sprintf f messageFormat }

theorem hasDirective_of_no_percent (cs : List Char) (h : '%' ∉ cs) :
    hasDirective cs = false := by
  induction cs with
  | nil => rfl
  | cons c rest ih =>
    have hc : (c == '%') = false := by
      rw [beq_eq_false_iff_ne]
      intro hc
      exact h (by simp [hc])
    have hr : '%' ∉ rest := fun hm => h (List.mem_cons_of_mem c hm)
    rw [hasDirective.eq_def]
    simp only [hc, Bool.false_eq_true, if_false]
    exact ih hr

theorem sprintfVerbs_of_no_percent (cs : List Char) (h : '%' ∉ cs) :
    sprintfVerbs cs = cs := by
  induction cs with
  | nil => rfl
  | cons c rest ih =>
    have hc : (c == '%') = false := by
      rw [beq_eq_false_iff_ne]
      intro hc
      exact h (by simp [hc])
    have hr : '%' ∉ rest := fun hm => h (List.mem_cons_of_mem c hm)
    rw [sprintfVerbs.eq_def]
    simp only [hc, Bool.false_eq_true, if_false]
    rw [ih hr]

/-- A format without `%` is rendered unchanged. -/
theorem Sprintf_of_no_percent (f : String → String) (format : String)
    (h : '%' ∉ format.data) : Sprintf f format = format := by
  unfold Sprintf
  rw [hasDirective_of_no_percent format.data h, sprintfVerbs_of_no_percent format.data h]
  rfl

theorem Sprintf_empty (f : String → String) : Sprintf f "" = "" := rfl

/-- Registration by create: for a device with `synced = false` whose remote Get
answers not-found, `reconcileCreateDevice` issues exactly one remote Create, in
the state the Get left.  If it succeeds with `cd`, the phase hands
`registered d cd.status.edgeId` (that is `synced = true` and the edge id Create
returned) to the store and returns the store's answer.  If it fails with `ce`,
the phase returns an error that wraps the text of `ce`, writes no status, leaves
`status.synced = false` and the edge id unchanged, and marks the synced
condition false with, as message, `fmt.Sprintf` of the text of `ce` used as
format: the text itself when it holds no `%`. -/
theorem reconcileCreateDevice_not_found_creates (r : DeviceReconciler σ) (s s1 : σ)
    (d : Device) (e : Err) (hsync : d.status.synced = false)
    (hG : r.env.Get s (GetEdgeDeviceName d.meta EdgeXObjectName) = (.error e, s1))
    (hnf : IsNotFoundErr e = true) :
    ((r.reconcileCreateDevice { st := s } d).2.2.trace.countP Event.isRemoteCreate = 1) ∧
    (∀ cd s2, r.env.Create s1 d = (.ok cd, s2) →
      r.reconcileCreateDevice { st := s } d =
        ((r.env.storeStatusUpdate s2 (registered d cd.status.edgeId)).1,
          registered d cd.status.edgeId,
          { st := (r.env.storeStatusUpdate s2 (registered d cd.status.edgeId)).2,
            trace :=
              [Event.remoteGet (GetEdgeDeviceName d.meta EdgeXObjectName) (.error e),
               Event.remoteCreate d.meta.name (.ok cd.status.edgeId),
               Event.statusUpdate Site.registration (registered d cd.status.edgeId).status
                 (r.env.storeStatusUpdate s2 (registered d cd.status.edgeId)).1] }) ∧
      (registered d cd.status.edgeId).status.synced = true ∧
      (registered d cd.status.edgeId).status.edgeId = cd.status.edgeId) ∧
    (∀ ce s2, r.env.Create s1 d = (.error ce, s2) →
      (r.reconcileCreateDevice { st := s } d).1 =
        some (Err.wrapped ("fail to add Device to edge platform: " ++ ce.Error)) ∧
      conditionsGet (r.reconcileCreateDevice { st := s } d).2.1 DeviceSyncedCondition =
        some { type := DeviceSyncedCondition, status := false,
               severity := ConditionSeverityWarning,
               reason := "failed to create device on edge platform",
               message := Sprintf r.env.sprintfDirectives ce.Error } ∧
      ('%' ∉ ce.Error.data → Sprintf r.env.sprintfDirectives ce.Error = ce.Error) ∧
      (r.reconcileCreateDevice { st := s } d).2.1.status.synced = false ∧
      (r.reconcileCreateDevice { st := s } d).2.1.status.edgeId = d.status.edgeId ∧
      (r.reconcileCreateDevice { st := s } d).2.2.st = s2 ∧
      (r.reconcileCreateDevice { st := s } d).2.2.trace =
        [Event.remoteGet (GetEdgeDeviceName d.meta EdgeXObjectName) (.error e),
         Event.remoteCreate d.meta.name (.error ce)]) := by
  rcases hC : r.env.Create s1 d with ⟨cres, s2⟩
  cases cres with
  | ok cd =>
    rw [reconcileCreateDevice_created r { st := s } d cd e s1 s2 hG hnf hC]
    refine ⟨by simp [List.countP_cons, Event.isRemoteCreate], ?_, ?_⟩
    · intro cd' s2' hcd
      simp only [Prod.mk.injEq, Except.ok.injEq] at hcd
      obtain ⟨rfl, rfl⟩ := hcd
      exact ⟨rfl, rfl, rfl⟩
    · intro ce s2' hce
      simp at hce
  | error ce =>
    rw [reconcileCreateDevice_create_failed r { st := s } d e ce s1 s2 hG hnf hC]
    refine ⟨by simp [List.countP_cons, Event.isRemoteCreate], ?_, ?_⟩
    · intro cd s2' hcd
      simp at hcd
    · intro ce' s2' hce
      simp only [Prod.mk.injEq, Except.error.injEq] at hce
      obtain ⟨rfl, rfl⟩ := hce
      exact ⟨rfl, conditionsGet_MarkFalse _ _ _ _ _ _,
        Sprintf_of_no_percent _ _, hsync, rfl, rfl, rfl⟩

/-- An instance of `reconcileCreateDevice_not_found_creates`: the remote
platform does not know the device and refuses to create it. -/
theorem reconcileCreateDevice_not_found_creates_example :
    unsyncedDevice.status.synced = false ∧
    (refusingReconciler.env.Get () (GetEdgeDeviceName unsyncedDevice.meta EdgeXObjectName)).1 =
      .error Err.edgeNotFound ∧
    (refusingReconciler.reconcileCreateDevice { st := () } unsyncedDevice).2.2.trace.countP
      Event.isRemoteCreate = 1 ∧
    (refusingReconciler.reconcileCreateDevice { st := () } unsyncedDevice).1 =
      some (Err.wrapped "fail to add Device to edge platform: 400 bad request") :=
  ⟨rfl, rfl,
    (reconcileCreateDevice_not_found_creates refusingReconciler () () unsyncedDevice
      Err.edgeNotFound rfl rfl rfl).1,
    ((reconcileCreateDevice_not_found_creates refusingReconciler () () unsyncedDevice
      Err.edgeNotFound rfl rfl rfl).2.2 (Err.edgeOther "400 bad request") () rfl).1⟩

/-- C12 fails on the code: the error detail is not kept when it holds a `%`.
The remote platform does not know `unsyncedDevice` and refuses to create it
with the error `disk 100%full`.  `reconcileCreateDevice` returns an error that carries this
text intact, leaves `synced = false` and the edge id unchanged, and marks the
synced condition false, but the message of the condition is
`disk 100%!f(MISSING)ull`: the error text was used as a format. -/
theorem reconcileCreateDevice_reformats_error_detail :
    (fullDiskReconciler.env.Get () (GetEdgeDeviceName unsyncedDevice.meta EdgeXObjectName)).1 =
      .error Err.edgeNotFound ∧
    (fullDiskReconciler.env.Create () unsyncedDevice).1 =
      .error (Err.edgeOther "disk 100%full") ∧
    (Err.edgeOther "disk 100%full").Error = "disk 100%full" ∧
    (fullDiskReconciler.reconcileCreateDevice { st := () } unsyncedDevice).1 =
      some (Err.wrapped "fail to add Device to edge platform: disk 100%full") ∧
    conditionsGet (fullDiskReconciler.reconcileCreateDevice { st := () } unsyncedDevice).2.1
        DeviceSyncedCondition =
      some { type := DeviceSyncedCondition, status := false,
             severity := ConditionSeverityWarning,
             reason := "failed to create device on edge platform",
             message := "disk 100%!f(MISSING)ull" } ∧
    (fullDiskReconciler.reconcileCreateDevice { st := () } unsyncedDevice).2.1.status.synced =
      false ∧
    (fullDiskReconciler.reconcileCreateDevice { st := () } unsyncedDevice).2.1.status.edgeId =
      unsyncedDevice.status.edgeId := by
  decide

/-- A device pass whose remote Get fails with an error other than not-found:
no remote Create, no requeue, no error, and `synced` stays false in every
status written. -/
theorem Reconcile_unreachable_device (r : DeviceReconciler σ) (s : σ) (req : String)
    (d : Device) (hget : (r.env.storeGet s req).1 = .ok d)
    (hpool : d.spec.nodePool = r.NodePool) (hdel : d.meta.deletionIsZero = true)
    (hsync : d.status.synced = false) (name : String) (e : Err)
    (hmem : Event.remoteGet name (.error e) ∈ (r.Reconcile s req).trace)
    (hnf : IsNotFoundErr e = false) :
    (∀ ev ∈ (r.Reconcile s req).trace, ev.isRemoteCreate = false) ∧
    (r.Reconcile s req).out =
      Completion.returned ({ Requeue := false, RequeueAfter := 0 }, none) ∧
    (∃ st res, Event.statusUpdate Site.endOfPass st res ∈ (r.Reconcile s req).trace) ∧
    (∀ site st res, Event.statusUpdate site st res ∈ (r.Reconcile s req).trace →
      st.synced = false) := by
  rcases hg : r.env.storeGet s req with ⟨got, s1⟩
  rw [hg] at hget
  simp only at hget
  subst hget
  obtain ⟨st, res, htr, hs1, -, hout⟩ := Reconcile_trace r s s1 req d hg hpool
  rw [htr] at hmem ⊢
  rw [hout]
  clear htr hout
  rcases reconcilePhases_live r { st := s1, trace := [Event.localGet req none] } d hdel with
    ⟨e', s2, -, hph⟩ | ⟨d1, w1, hw1, hst, hsp, hname, hnm, hph⟩
  · rw [hph] at hmem
    simp at hmem
  · simp only [hsync, if_true] at hph
    have hw1' : ∀ nm gres, Event.remoteGet nm gres ∉ w1.trace := by
      rcases hw1 with ⟨-, rfl⟩ | ⟨-, s3, rfl⟩ <;> simp
    have hw1c : ∀ ev ∈ w1.trace, ev.isRemoteCreate = false := by
      rcases hw1 with ⟨-, rfl⟩ | ⟨-, s3, rfl⟩ <;> simp [Event.isRemoteCreate]
    have hw1s : ∀ site st res, Event.statusUpdate site st res ∉ w1.trace := by
      rcases hw1 with ⟨-, rfl⟩ | ⟨-, s3, rfl⟩ <;> simp
    rcases hG : r.env.Get w1.st (GetEdgeDeviceName d1.meta EdgeXObjectName) with ⟨gres, s2⟩
    cases gres with
    | ok ed =>
      exfalso
      rw [reconcileCreateDevice_found r w1 d1 ed s2 hG] at hph
      rw [hph] at hmem
      simp [hw1'] at hmem
    | error e' =>
      by_cases hnf' : IsNotFoundErr e' = true
      · exfalso
        rcases hC : r.env.Create s2 d1 with ⟨cres, s3⟩
        cases cres with
        | ok cd =>
          rw [reconcileCreateDevice_created r w1 d1 cd e' s2 s3 hG hnf' hC] at hph
          rw [hph] at hmem
          simp only [List.mem_append, List.mem_cons, List.mem_singleton, List.not_mem_nil,
            hw1', reduceCtorEq, or_false, false_or, Event.remoteGet.injEq,
            Except.error.injEq] at hmem
          rw [hmem.2, hnf'] at hnf
          exact Bool.noConfusion hnf
        | error ce =>
          rw [reconcileCreateDevice_create_failed r w1 d1 e' ce s2 s3 hG hnf' hC] at hph
          rw [hph] at hmem
          simp only [List.mem_append, List.mem_cons, List.mem_singleton, List.not_mem_nil,
            hw1', reduceCtorEq, or_false, false_or, Event.remoteGet.injEq,
            Except.error.injEq] at hmem
          rw [hmem.2, hnf'] at hnf
          exact Bool.noConfusion hnf
      · rw [reconcileCreateDevice_unreachable r w1 d1 e' s2 hG (by simpa using hnf')] at hph
        rw [hph] at hs1 ⊢
        simp only [MarkFalse_synced, hst, hsync] at hs1
        refine ⟨?_, rfl, ⟨st, res, by simp⟩, ?_⟩
        · intro ev hev
          simp only [List.mem_append, List.mem_singleton] at hev
          rcases hev with (hev | rfl) | rfl
          · exact hw1c ev hev
          all_goals rfl
        · intro site st' res' hev
          simp only [List.mem_append, List.mem_singleton, hw1s, reduceCtorEq, false_or,
            Event.statusUpdate.injEq] at hev
          obtain ⟨-, rfl, -⟩ := hev
          exact hs1

@[simp] theorem profile_withFinalizers_status (dp : DeviceProfile) (fs : List String) :
    (dp.withFinalizers fs).status = dp.status := rfl

@[simp] theorem profile_withFinalizers_deletionIsZero (dp : DeviceProfile) (fs : List String) :
    (dp.withFinalizers fs).meta.deletionIsZero = dp.meta.deletionIsZero := rfl

/-- The deletion phase of a profile without deletion timestamp. -/
theorem reconcileDeleteDeviceProfile_live (r : DeviceProfileReconciler σ) (w : World σ)
    (dp : DeviceProfile) (name : String) (h : dp.meta.deletionIsZero = true) :
    (dp.meta.finalizers ≠ [] ∧ r.reconcileDeleteDeviceProfile w dp name = (none, dp, w)) ∨
    (∃ e s1, dp.meta.finalizers = [] ∧ r.reconcileDeleteDeviceProfile w dp name =
      (some e, dp,
        { st := s1,
          trace := w.trace ++ [Event.patchFinalizers [DeviceProfileFinalizer] (some e)] })) ∨
    (∃ s1, dp.meta.finalizers = [] ∧ r.reconcileDeleteDeviceProfile w dp name =
      (none, dp.withFinalizers [DeviceProfileFinalizer],
        { st := s1,
          trace := w.trace ++ [Event.patchFinalizers [DeviceProfileFinalizer] none] })) := by
  by_cases hf : dp.meta.finalizers.length = 0
  · rcases hp : r.env.storePatch w.st dp [DeviceProfileFinalizer] with ⟨pres, s1⟩
    cases pres with
    | some e =>
      right; left
      exact ⟨e, s1, List.length_eq_zero.mp hf,
        by simp [DeviceProfileReconciler.reconcileDeleteDeviceProfile,
          DeviceProfileReconciler.Patch, h, hf, hp]⟩
    | none =>
      right; right
      exact ⟨s1, List.length_eq_zero.mp hf,
        by simp [DeviceProfileReconciler.reconcileDeleteDeviceProfile,
          DeviceProfileReconciler.Patch, h, hf, hp]⟩
  · left
    exact ⟨fun hnil => hf (by simp [hnil]),
      by simp [DeviceProfileReconciler.reconcileDeleteDeviceProfile, h, hf]⟩

/-- The registration phase of a profile: the remote Get by the given name,
then a status write (found), or a remote Create and a status write, or a
failed remote Create, or nothing more (the remote could not be queried: no
error, the profile untouched). -/
theorem reconcileCreateDeviceProfile_shape (r : DeviceProfileReconciler σ) (w : World σ)
    (dp : DeviceProfile) (name : String) :
    (∃ id st res, (r.reconcileCreateDeviceProfile w dp name).2.2.trace = w.trace ++
        [Event.remoteGet name (.ok id), Event.profileStatusUpdate st res]) ∨
    (∃ e id st res, IsNotFoundErr e = true ∧
      (r.reconcileCreateDeviceProfile w dp name).2.2.trace = w.trace ++
        [Event.remoteGet name (.error e), Event.remoteCreate dp.meta.name (.ok id),
         Event.profileStatusUpdate st res]) ∨
    (∃ e ce, IsNotFoundErr e = true ∧
      (r.reconcileCreateDeviceProfile w dp name).2.2.trace = w.trace ++
        [Event.remoteGet name (.error e), Event.remoteCreate dp.meta.name (.error ce)]) ∨
    (∃ e s1, IsNotFoundErr e = false ∧
      r.reconcileCreateDeviceProfile w dp name =
        (none, dp, { st := s1, trace := w.trace ++ [Event.remoteGet name (.error e)] })) := by
  rcases hG : r.env.Get w.st name with ⟨gres, s1⟩
  cases gres with
  | ok edgeDp =>
    left
    refine ⟨edgeDp.status.edgeId,
      { dp.status with synced := true, edgeId := edgeDp.status.edgeId },
      (r.env.storeStatusUpdate s1
        { dp with status :=
            { dp.status with synced := true, edgeId := edgeDp.status.edgeId } }).1, ?_⟩
    simp [DeviceProfileReconciler.reconcileCreateDeviceProfile, hG,
      DeviceProfileReconciler.StatusUpdate, profileEdgeIdOf]
  | error e =>
    cases hnf : IsNotFoundErr e
    · right; right; right
      exact ⟨e, s1, hnf, by
        simp [DeviceProfileReconciler.reconcileCreateDeviceProfile, hG, hnf, profileEdgeIdOf]⟩
    · rcases hC : r.env.Create s1 dp with ⟨cres, s2⟩
      cases cres with
      | ok cd =>
        right; left
        refine ⟨e, cd.status.edgeId,
          { dp.status with edgeId := cd.status.edgeId, synced := true },
          (r.env.storeStatusUpdate s2
            { dp with status :=
                { dp.status with edgeId := cd.status.edgeId, synced := true } }).1, hnf, ?_⟩
        simp [DeviceProfileReconciler.reconcileCreateDeviceProfile, hG, hnf, hC,
          DeviceProfileReconciler.StatusUpdate, profileEdgeIdOf]
      | error ce =>
        right; right; left
        exact ⟨e, ce, hnf, by
          simp [DeviceProfileReconciler.reconcileCreateDeviceProfile, hG, hnf, hC,
            profileEdgeIdOf]⟩

/-- A pass over an unregistered profile without deletion timestamp: either the
finalizer patch is rejected, or the registration phase runs on the (possibly
patched) profile and decides what the pass leaves behind. -/
theorem profileReconcile_registration (r : DeviceProfileReconciler σ) (s s1 : σ)
    (req : String) (dp : DeviceProfile) (hg : r.env.storeGet s req = (.ok dp, s1))
    (hpool : dp.spec.nodePool = r.NodePool) (hdel : dp.meta.deletionIsZero = true)
    (hsync : dp.status.synced = false) :
    (∃ e, (r.Reconcile s req).trace =
      [Event.localGet req none, Event.patchFinalizers [DeviceProfileFinalizer] (some e)]) ∨
    (∃ dp1 w1,
      (w1.trace = [Event.localGet req none] ∨
        w1.trace = [Event.localGet req none,
          Event.patchFinalizers [DeviceProfileFinalizer] none]) ∧
      dp1.status = dp.status ∧
      (r.Reconcile s req).trace =
        (r.reconcileCreateDeviceProfile w1 dp1
          (GetEdgeDeviceProfileName dp.meta EdgeXObjectName)).2.2.trace ∧
      (r.Reconcile s req).obj =
        some (r.reconcileCreateDeviceProfile w1 dp1
          (GetEdgeDeviceProfileName dp.meta EdgeXObjectName)).2.1 ∧
      ((r.reconcileCreateDeviceProfile w1 dp1
          (GetEdgeDeviceProfileName dp.meta EdgeXObjectName)).1 = none →
        (r.Reconcile s req).result = {} ∧ (r.Reconcile s req).err = none)) := by
  have key : ∀ (dp1 : DeviceProfile) (w1 : World σ), dp1.status = dp.status →
      dp1.meta.deletionIsZero = true →
      r.reconcileDeleteDeviceProfile { st := s1, trace := [Event.localGet req none] } dp
        (GetEdgeDeviceProfileName dp.meta EdgeXObjectName) = (none, dp1, w1) →
      (r.Reconcile s req).trace =
        (r.reconcileCreateDeviceProfile w1 dp1
          (GetEdgeDeviceProfileName dp.meta EdgeXObjectName)).2.2.trace ∧
      (r.Reconcile s req).obj =
        some (r.reconcileCreateDeviceProfile w1 dp1
          (GetEdgeDeviceProfileName dp.meta EdgeXObjectName)).2.1 ∧
      ((r.reconcileCreateDeviceProfile w1 dp1
          (GetEdgeDeviceProfileName dp.meta EdgeXObjectName)).1 = none →
        (r.Reconcile s req).result = {} ∧ (r.Reconcile s req).err = none) := by
    intro dp1 w1 hst hz h
    unfold DeviceProfileReconciler.Reconcile
    simp only [hg, hpool, bne_self_eq_false, Bool.false_eq_true, if_false, h, hz, hst, hsync,
      Bool.not_true, beq_self_eq_true, if_true]
    rcases r.reconcileCreateDeviceProfile w1 dp1
      (GetEdgeDeviceProfileName dp.meta EdgeXObjectName) with ⟨oerr, dp2, w2⟩
    cases oerr with
    | none => exact ⟨rfl, rfl, fun _ => ⟨rfl, rfl⟩⟩
    | some e =>
      by_cases hc : IsConflict e = true
      · simp [hc]
      · simp [hc]
  rcases reconcileDeleteDeviceProfile_live r { st := s1, trace := [Event.localGet req none] } dp
      (GetEdgeDeviceProfileName dp.meta EdgeXObjectName) hdel with
    ⟨-, h⟩ | ⟨e, s2, -, h⟩ | ⟨s2, -, h⟩
  · right
    exact ⟨dp, _, Or.inl rfl, rfl, key dp _ rfl hdel h⟩
  · left
    refine ⟨e, ?_⟩
    unfold DeviceProfileReconciler.Reconcile
    simp [hg, hpool, h]
  · right
    exact ⟨dp.withFinalizers [DeviceProfileFinalizer], _, Or.inr rfl, rfl, key _ _ rfl hdel h⟩

/-- A profile pass whose remote Get fails with an error other than not-found:
no remote Create, no status write, no requeue, no error, and `synced` stays
false. -/
theorem Reconcile_unreachable_profile (r : DeviceProfileReconciler σ) (s : σ) (req : String)
    (dp : DeviceProfile) (hget : (r.env.storeGet s req).1 = .ok dp)
    (hpool : dp.spec.nodePool = r.NodePool) (hdel : dp.meta.deletionIsZero = true)
    (hsync : dp.status.synced = false) (name : String) (e : Err)
    (hmem : Event.remoteGet name (.error e) ∈ (r.Reconcile s req).trace)
    (hnf : IsNotFoundErr e = false) :
    (∀ ev ∈ (r.Reconcile s req).trace, ev.isRemoteCreate = false ∧ ev.isStatusWrite = false) ∧
    (r.Reconcile s req).result = { Requeue := false, RequeueAfter := 0 } ∧
    (r.Reconcile s req).err = none ∧
    (∃ dp', (r.Reconcile s req).obj = some dp' ∧ dp'.status.synced = false) := by
  rcases hg : r.env.storeGet s req with ⟨got, s1⟩
  rw [hg] at hget
  simp only at hget
  subst hget
  rcases profileReconcile_registration r s s1 req dp hg hpool hdel hsync with
    ⟨e', htr⟩ | ⟨dp1, w1, hw1, hst, htr, hobj, hres⟩
  · rw [htr] at hmem
    simp at hmem
  · rw [htr] at hmem ⊢
    rw [hobj]
    have hw1' : ∀ ev ∈ w1.trace, ev.isRemote = false := by
      intro ev hev
      rcases hw1 with h | h <;> rw [h] at hev <;> simp at hev
      · subst hev; rfl
      · rcases hev with rfl | rfl <;> rfl
    have hw1g : ∀ nm gres, Event.remoteGet nm gres ∉ w1.trace := by
      intro nm gres hin
      have := hw1' _ hin
      simp [Event.isRemote] at this
    have hw1c : ∀ ev ∈ w1.trace, ev.isRemoteCreate = false ∧ ev.isStatusWrite = false := by
      intro ev hev
      rcases hw1 with h | h <;> rw [h] at hev <;> simp at hev
      · subst hev; exact ⟨rfl, rfl⟩
      · rcases hev with rfl | rfl <;> exact ⟨rfl, rfl⟩
    rcases reconcileCreateDeviceProfile_shape r w1 dp1
        (GetEdgeDeviceProfileName dp.meta EdgeXObjectName) with
      ⟨id, st, res, h⟩ | ⟨e', id, st, res, hnf', h⟩ | ⟨e', ce, hnf', h⟩ | ⟨e', s2, hnf', h⟩
    · exfalso
      rw [h] at hmem
      simp [hw1g] at hmem
    · exfalso
      rw [h] at hmem
      simp only [List.mem_append, List.mem_cons, List.mem_singleton, List.not_mem_nil,
        hw1g, reduceCtorEq, or_false, false_or, Event.remoteGet.injEq,
        Except.error.injEq] at hmem
      rw [hmem.2, hnf'] at hnf
      exact Bool.noConfusion hnf
    · exfalso
      rw [h] at hmem
      simp only [List.mem_append, List.mem_cons, List.mem_singleton, List.not_mem_nil,
        hw1g, reduceCtorEq, or_false, false_or, Event.remoteGet.injEq,
        Except.error.injEq] at hmem
      rw [hmem.2, hnf'] at hnf
      exact Bool.noConfusion hnf
    · obtain ⟨hr, he⟩ := hres (by rw [h])
      rw [h]
      refine ⟨?_, hr, he, dp1, rfl, by rw [hst, hsync]⟩
      intro ev hev
      simp only [List.mem_append, List.mem_singleton] at hev
      rcases hev with hev | rfl
      · exact hw1c ev hev
      · exact ⟨rfl, rfl⟩

/-- A device pass that issues a remote Get runs on a device of the
reconciler's node-pool without deletion timestamp. -/
theorem Reconcile_get_implies_live (r : DeviceReconciler σ) (s : σ) (req : String)
    (d : Device) (hget : (r.env.storeGet s req).1 = .ok d) (name : String)
    (gres : Except Err String)
    (hmem : Event.remoteGet name gres ∈ (r.Reconcile s req).trace) :
    d.spec.nodePool = r.NodePool ∧ d.meta.deletionIsZero = true := by
  rcases hg : r.env.storeGet s req with ⟨got, s1⟩
  rw [hg] at hget
  simp only at hget
  subst hget
  by_cases hpool : d.spec.nodePool = r.NodePool
  · refine ⟨hpool, ?_⟩
    cases hdel : d.meta.deletionIsZero
    · exfalso
      obtain ⟨st, res, htr, -, -, -⟩ := Reconcile_trace r s s1 req d hg hpool
      obtain ⟨err, rest, -, hph, hrest⟩ :=
        reconcilePhases_deleting r { st := s1, trace := [Event.localGet req none] } d hdel
      rw [htr, hph] at hmem
      simp only [List.mem_append, List.mem_singleton, reduceCtorEq, or_false,
        false_or] at hmem
      obtain ⟨res', hres'⟩ := (hrest _ hmem).2 rfl
      simp at hres'
    · rfl
  · exfalso
    simp [DeviceReconciler.Reconcile, hg, hpool] at hmem

/-- A profile pass that issues a remote Get runs on a profile of the
reconciler's node-pool without deletion timestamp. -/
theorem profileReconcile_get_implies_live (r : DeviceProfileReconciler σ) (s : σ)
    (req : String) (dp : DeviceProfile) (hget : (r.env.storeGet s req).1 = .ok dp)
    (name : String) (gres : Except Err String)
    (hmem : Event.remoteGet name gres ∈ (r.Reconcile s req).trace) :
    dp.spec.nodePool = r.NodePool ∧ dp.meta.deletionIsZero = true := by
  rcases hg : r.env.storeGet s req with ⟨got, s1⟩
  rw [hg] at hget
  simp only at hget
  subst hget
  by_cases hpool : dp.spec.nodePool = r.NodePool
  · refine ⟨hpool, ?_⟩
    cases hdel : dp.meta.deletionIsZero
    · exfalso
      rcases hp : r.env.storePatch s1 dp [] with ⟨pres, s2⟩
      rcases hD : r.env.Delete s2 (GetEdgeDeviceProfileName dp.meta EdgeXObjectName) with
        ⟨derr, s3⟩
      cases pres with
      | some e =>
        simp [DeviceProfileReconciler.Reconcile, hg, hpool,
          DeviceProfileReconciler.reconcileDeleteDeviceProfile, DeviceProfileReconciler.Patch,
          hdel, hp] at hmem
      | none =>
        cases derr with
        | none =>
          simp [DeviceProfileReconciler.Reconcile, hg, hpool,
            DeviceProfileReconciler.reconcileDeleteDeviceProfile,
            DeviceProfileReconciler.Patch, hdel, hp, hD] at hmem
        | some de =>
          cases hnf : IsNotFoundErr de <;>
            simp [DeviceProfileReconciler.Reconcile, hg, hpool,
              DeviceProfileReconciler.reconcileDeleteDeviceProfile,
              DeviceProfileReconciler.Patch, hdel, hp, hD, hnf] at hmem
    · rfl
  · exfalso
    simp [DeviceProfileReconciler.Reconcile, hg, hpool] at hmem

/-- C13. Unreachable remote during registration: in a pass over a device, or
over a device profile, with `synced = false` whose remote Get fails with an
error other than not-found, no remote Create is issued, `Reconcile` returns the empty result
(`Requeue = false`, `RequeueAfter = 0`) and a nil error, and `synced` stays
false: in every status the device pass writes, and in the profile, for which no
status is written at all.  For a device the registration phase additionally
marks the synced condition false and returns no error. -/
theorem Reconcile_unreachable_remote_stops (s : σ) (req : String) :
    (∀ (r : DeviceReconciler σ) (d : Device) (name : String) (e : Err),
      (r.env.storeGet s req).1 = .ok d → d.status.synced = false →
      Event.remoteGet name (.error e) ∈ (r.Reconcile s req).trace →
      IsNotFoundErr e = false →
        (∀ ev ∈ (r.Reconcile s req).trace, ev.isRemoteCreate = false) ∧
        (r.Reconcile s req).out =
          Completion.returned ({ Requeue := false, RequeueAfter := 0 }, none) ∧
        (∀ site st res, Event.statusUpdate site st res ∈ (r.Reconcile s req).trace →
          st.synced = false)) ∧
    (∀ (r : DeviceReconciler σ) (d : Device) (e : Err),
      (r.env.Get s (GetEdgeDeviceName d.meta EdgeXObjectName)).1 = .error e →
      IsNotFoundErr e = false →
        (r.reconcileCreateDevice { st := s } d).1 = none ∧
        conditionsGet (r.reconcileCreateDevice { st := s } d).2.1 DeviceSyncedCondition =
          some { type := DeviceSyncedCondition, status := false,
                 severity := ConditionSeverityWarning,
                 reason := "failed to visit the EdgeX core-metadata-service",
                 message := "" } ∧
        (r.reconcileCreateDevice { st := s } d).2.1.status.synced = d.status.synced ∧
        (r.reconcileCreateDevice { st := s } d).2.1.status.edgeId = d.status.edgeId) ∧
    (∀ (r : DeviceProfileReconciler σ) (dp : DeviceProfile) (name : String) (e : Err),
      (r.env.storeGet s req).1 = .ok dp → dp.status.synced = false →
      Event.remoteGet name (.error e) ∈ (r.Reconcile s req).trace →
      IsNotFoundErr e = false →
        (∀ ev ∈ (r.Reconcile s req).trace,
          ev.isRemoteCreate = false ∧ ev.isStatusWrite = false) ∧
        (r.Reconcile s req).result = { Requeue := false, RequeueAfter := 0 } ∧
        (r.Reconcile s req).err = none ∧
        (∃ dp', (r.Reconcile s req).obj = some dp' ∧ dp'.status.synced = false)) := by
  refine ⟨?_, ?_, ?_⟩
  · intro r d name e hget hsync hmem hnf
    obtain ⟨hpool, hdel⟩ := Reconcile_get_implies_live r s req d hget name _ hmem
    obtain ⟨h1, h2, -, h4⟩ :=
      Reconcile_unreachable_device r s req d hget hpool hdel hsync name e hmem hnf
    exact ⟨h1, h2, h4⟩
  · intro r d e hG hnf
    rcases hg : r.env.Get s (GetEdgeDeviceName d.meta EdgeXObjectName) with ⟨gres, s1⟩
    rw [hg] at hG
    simp only at hG
    subst hG
    rw [reconcileCreateDevice_unreachable r { st := s } d e s1 hg hnf]
    exact ⟨rfl, (conditionsGet_MarkFalse _ _ _ _ _ _).trans (by rw [Sprintf_empty]), rfl, rfl⟩
  · intro r dp name e hget hsync hmem hnf
    obtain ⟨hpool, hdel⟩ := profileReconcile_get_implies_live r s req dp hget name _ hmem
    exact Reconcile_unreachable_profile r s req dp hget hpool hdel hsync name e hmem hnf

/-- The witness of C13: a device and a profile whose remote platform refuses
the connection. -/
theorem Reconcile_unreachable_remote_stops_witness :
    Event.remoteGet "d1" (.error (Err.edgeOther "connection refused")) ∈
      (unreachableReconciler.Reconcile () "d1").trace ∧
    (unreachableReconciler.Reconcile () "d1").out =
      Completion.returned ({ Requeue := false, RequeueAfter := 0 }, none) ∧
    Event.remoteGet "p1" (.error (Err.edgeOther "connection refused")) ∈
      (unreachableProfileReconciler.Reconcile () "p1").trace ∧
    (unreachableProfileReconciler.Reconcile () "p1").err = none :=
  ⟨by decide,
    ((Reconcile_unreachable_remote_stops () "d1").1 unreachableReconciler unsyncedDevice "d1"
      (Err.edgeOther "connection refused") rfl rfl (by decide) rfl).2.1,
    by decide,
    ((Reconcile_unreachable_remote_stops () "p1").2.2 unreachableProfileReconciler
      unsyncedProfile "p1" (Err.edgeOther "connection refused") rfl rfl (by decide)
      rfl).2.2.1⟩

/-- The remote calls of the phases of one pass all belong to one phase: they
are all Deletes (always so under a deletion timestamp), or all calls of the
registration phase, or all calls of the update phase. -/
theorem reconcilePhases_remote_calls (r : DeviceReconciler σ) (w : World σ) (d : Device) :
    ∃ suf, (r.reconcilePhases w d).2.2.trace = w.trace ++ suf ∧
      (d.meta.deletionIsZero = false → ∀ ev ∈ suf, ev.isRemote = true → ev.isRemoteDelete = true) ∧
      ((∀ ev ∈ suf, ev.isRemote = true → ev.isRemoteDelete = true) ∨
        (∀ ev ∈ suf, ev.isRemote = true → ev.isRegistrationCall = true) ∨
        (∀ ev ∈ suf, ev.isRemote = true → ev.isUpdateCall = true)) := by
  cases hdel : d.meta.deletionIsZero
  · obtain ⟨err, rest, -, htr, hrest⟩ := reconcilePhases_deleting r w d hdel
    have hA : ∀ ev ∈ rest, ev.isRemote = true → ev.isRemoteDelete = true := by
      intro ev hev hr
      obtain ⟨res, rfl⟩ := (hrest ev hev).2 hr
      rfl
    exact ⟨rest, htr, fun _ => hA, Or.inl hA⟩
  · rcases reconcilePhases_live r w d hdel with
      ⟨e, s2, -, hph⟩ | ⟨d1, w1, hw1, hst, hsp, hname, hnm, hph⟩
    · refine ⟨[Event.patchFinalizers [DeviceFinalizer] (some e)], by rw [hph],
        fun h => by simp at h, Or.inl ?_⟩
      intro ev hev hr
      simp only [List.mem_singleton] at hev
      subst hev
      simp [Event.isRemote] at hr
    · have hw1' : ∃ pre, w1.trace = w.trace ++ pre ∧ ∀ ev ∈ pre, ev.isRemote = false := by
        rcases hw1 with ⟨-, rfl⟩ | ⟨-, s3, rfl⟩
        · exact ⟨[], by simp, by simp⟩
        · exact ⟨[Event.patchFinalizers [DeviceFinalizer] none], rfl, by simp [Event.isRemote]⟩
      obtain ⟨pre, hpre, hprer⟩ := hw1'
      have lift : ∀ (P : Event → Bool) (suf2 : List Event),
          (∀ ev ∈ suf2, ev.isRemote = true → P ev = true) →
          ∀ ev ∈ pre ++ suf2, ev.isRemote = true → P ev = true := by
        intro P suf2 h ev hev hr
        rcases List.mem_append.mp hev with h' | h'
        · rw [hprer ev h'] at hr
          exact Bool.noConfusion hr
        · exact h ev h' hr
      rw [hph]
      by_cases hs : d.status.synced = false
      · simp only [hs, if_true]
        have hB : ∃ suf2, (r.reconcileCreateDevice w1 d1).2.2.trace = w1.trace ++ suf2 ∧
            ∀ ev ∈ suf2, ev.isRemote = true → ev.isRegistrationCall = true := by
          rcases reconcileCreateDevice_shape r w1 d1 with
            ⟨id, res', -, h2⟩ | ⟨e, id, res', -, -, h2⟩ | ⟨e, ce, -, -, h2⟩ | ⟨e, -, -, h2⟩
          all_goals
            refine ⟨_, h2, ?_⟩
            intro ev hev hr
            simp only [List.mem_cons, List.mem_singleton, List.not_mem_nil, or_false] at hev
            rcases hev with rfl | rfl | rfl <;> first | rfl | (simp [Event.isRemote] at hr)
        obtain ⟨suf2, h2, hreg⟩ := hB
        exact ⟨pre ++ suf2, by rw [h2, hpre, List.append_assoc], fun h => by simp at h,
          Or.inr (Or.inl (lift _ suf2 hreg))⟩
      · have hs' : d.status.synced = true := by simpa using hs
        by_cases hm : d.spec.managed = true
        · simp only [hs', hm, if_true, Bool.true_eq_false, if_false]
          have hC : ∃ suf2, (r.reconcileUpdateDevice w1 d1).2.2.trace = w1.trace ++ suf2 ∧
              ∀ ev ∈ suf2, ev.isRemote = true → ev.isUpdateCall = true := by
            have hprop : ∀ ev : Event, ev.isPropertyCall = true → ev.isUpdateCall = true := by
              intro ev h
              cases ev <;> first | rfl | simp [Event.isPropertyCall] at h
            rcases reconcileUpdateDevice_shape r w1 d1 with
              ⟨e, -, h2⟩ | ⟨suf, hp, -, h2⟩ | ⟨suf, st, res, hp, -, h2⟩
            · refine ⟨_, h2, ?_⟩
              intro ev hev _
              simp only [List.mem_singleton] at hev
              subst hev
              rfl
            · refine ⟨_, h2, ?_⟩
              intro ev hev _
              rcases List.mem_cons.mp hev with rfl | h
              · rfl
              · exact hprop ev (hp ev h)
            · refine ⟨Event.remoteUpdate (reconcileStates d1).2 none :: suf ++
                [Event.statusUpdate Site.managedUpdate st res], by rw [h2]; simp, ?_⟩
              intro ev hev hr
              simp only [List.cons_append, List.mem_cons, List.mem_append,
                List.mem_singleton, List.not_mem_nil, or_false] at hev
              rcases hev with rfl | h | rfl
              · rfl
              · exact hprop ev (hp ev h)
              · simp [Event.isRemote] at hr
          obtain ⟨suf2, h2, hupd⟩ := hC
          exact ⟨pre ++ suf2, by rw [h2, hpre, List.append_assoc], fun h => by simp at h,
            Or.inr (Or.inr (lift _ suf2 hupd))⟩
        · simp only [hs', hm, Bool.true_eq_false, if_false]
          refine ⟨pre, hpre, fun h => by simp at h, Or.inl ?_⟩
          intro ev hev hr
          rw [hprer ev hev] at hr
          exact Bool.noConfusion hr

theorem category_isRemote (ev : Event) (c : Category) (h : ev.category = some c) :
    ev.isRemote = true := by
  cases ev <;> first | rfl | simp [Event.category] at h

theorem category_of_delete (ev : Event) (c : Category) (hk : ev.isRemoteDelete = true)
    (h : ev.category = some c) : c = Category.delete := by
  cases ev <;> simp [Event.isRemoteDelete, Event.category] at hk h
  exact h.symm

theorem category_of_registration (ev : Event) (c : Category)
    (hk : ev.isRegistrationCall = true) (h : ev.category = some c) : c = Category.create := by
  cases ev <;> simp [Event.isRegistrationCall, Event.category] at hk h
  exact h.symm

theorem category_of_update (ev : Event) (c : Category) (hk : ev.isUpdateCall = true)
    (h : ev.category = some c) : c = Category.update := by
  cases ev <;> simp [Event.isUpdateCall, Event.category] at hk h
  all_goals exact h.symm

/-- The remote calls of one pass all belong to one phase. -/
theorem Reconcile_remote_calls (r : DeviceReconciler σ) (s : σ) (req : String) :
    (∀ d, (r.env.storeGet s req).1 = .ok d → d.meta.deletionIsZero = false →
      ∀ ev ∈ (r.Reconcile s req).trace, ev.isRemote = true → ev.isRemoteDelete = true) ∧
    ((∀ ev ∈ (r.Reconcile s req).trace, ev.isRemote = true → ev.isRemoteDelete = true) ∨
      (∀ ev ∈ (r.Reconcile s req).trace, ev.isRemote = true → ev.isRegistrationCall = true) ∨
      (∀ ev ∈ (r.Reconcile s req).trace, ev.isRemote = true → ev.isUpdateCall = true)) := by
  rcases hg : r.env.storeGet s req with ⟨got, s1⟩
  cases got with
  | error err =>
    have hnone : ∀ ev ∈ (r.Reconcile s req).trace, ev.isRemote = true →
        ev.isRemoteDelete = true := by
      intro ev hev hr
      simp only [DeviceReconciler.Reconcile, hg, List.mem_singleton] at hev
      subst hev
      simp [Event.isRemote] at hr
    exact ⟨fun d hd => by simp at hd, Or.inl hnone⟩
  | ok d =>
    by_cases hpool : d.spec.nodePool = r.NodePool
    · obtain ⟨st, res, htr, -, -, -⟩ := Reconcile_trace r s s1 req d hg hpool
      obtain ⟨suf, hsuf, hdelete, hkinds⟩ :=
        reconcilePhases_remote_calls r { st := s1, trace := [Event.localGet req none] } d
      rw [htr, hsuf]
      have lift : ∀ (P : Event → Bool), (∀ ev ∈ suf, ev.isRemote = true → P ev = true) →
          ∀ ev ∈ [Event.localGet req none] ++ suf ++ [Event.statusUpdate Site.endOfPass st res],
            ev.isRemote = true → P ev = true := by
        intro P h ev hev hr
        simp only [List.mem_append, List.mem_singleton] at hev
        rcases hev with (rfl | hev) | rfl
        · simp [Event.isRemote] at hr
        · exact h ev hev hr
        · simp [Event.isRemote] at hr
      refine ⟨?_, ?_⟩
      · intro d' hd' hdel
        simp only [Except.ok.injEq] at hd'
        subst hd'
        exact lift _ (hdelete hdel)
      · rcases hkinds with h | h | h
        · exact Or.inl (lift _ h)
        · exact Or.inr (Or.inl (lift _ h))
        · exact Or.inr (Or.inr (lift _ h))
    · have hnone : ∀ ev ∈ (r.Reconcile s req).trace, ev.isRemote = true →
          ev.isRemoteDelete = true := by
        intro ev hev hr
        simp only [DeviceReconciler.Reconcile, hg, hpool, bne_iff_ne, ne_eq, not_false_eq_true,
          if_true, List.mem_singleton] at hev
        subst hev
        simp [Event.isRemote] at hr
      exact ⟨fun _ _ _ => hnone, Or.inl hnone⟩

/-- C11. At most one category of remote effect per pass: for every device and
every behaviour of the store and of the remote client, any two mutating remote
calls of one `Reconcile` pass are of the same category (delete, create, or
update, the property writes counting as update).  In particular a pass on a
device with a deletion timestamp issues no remote call but Delete (no Get, no
Create, no Update), and a pass that runs the registration phase (it issues the
remote Get) issues no remote call but Get and Create (no Update, no property
call, no Delete). -/
theorem Reconcile_one_category_of_remote_effect (r : DeviceReconciler σ) (s : σ)
    (req : String) :
    (∀ ev1 ∈ (r.Reconcile s req).trace, ∀ ev2 ∈ (r.Reconcile s req).trace, ∀ c1 c2,
      ev1.category = some c1 → ev2.category = some c2 → c1 = c2) ∧
    (∀ d, (r.env.storeGet s req).1 = .ok d → d.meta.deletionIsZero = false →
      ∀ ev ∈ (r.Reconcile s req).trace, ev.isRemote = true → ev.isRemoteDelete = true) ∧
    (∀ name gres, Event.remoteGet name gres ∈ (r.Reconcile s req).trace →
      ∀ ev ∈ (r.Reconcile s req).trace, ev.isRemote = true → ev.isRegistrationCall = true) := by
  obtain ⟨hdeleting, hkinds⟩ := Reconcile_remote_calls r s req
  refine ⟨?_, hdeleting, ?_⟩
  · intro ev1 h1 ev2 h2 c1 c2 hc1 hc2
    rcases hkinds with h | h | h
    · rw [category_of_delete ev1 c1 (h ev1 h1 (category_isRemote ev1 c1 hc1)) hc1,
        category_of_delete ev2 c2 (h ev2 h2 (category_isRemote ev2 c2 hc2)) hc2]
    · rw [category_of_registration ev1 c1 (h ev1 h1 (category_isRemote ev1 c1 hc1)) hc1,
        category_of_registration ev2 c2 (h ev2 h2 (category_isRemote ev2 c2 hc2)) hc2]
    · rw [category_of_update ev1 c1 (h ev1 h1 (category_isRemote ev1 c1 hc1)) hc1,
        category_of_update ev2 c2 (h ev2 h2 (category_isRemote ev2 c2 hc2)) hc2]
  · intro name gres hmem
    rcases hkinds with h | h | h
    · have := h _ hmem rfl
      simp [Event.isRemoteDelete] at this
    · exact h
    · have := h _ hmem rfl
      simp [Event.isUpdateCall] at this

/-- The witness of C11: a pass on a device under deletion that is neither
registered nor reconciled: the remote Delete is its only remote call. -/
theorem Reconcile_one_category_of_remote_effect_witness :
    (deletingReconciler.env.storeGet () "d1").1 = .ok deletingUnsyncedDevice ∧
    deletingUnsyncedDevice.meta.deletionIsZero = false ∧
    Event.remoteDelete "d1" none ∈ (deletingReconciler.Reconcile () "d1").trace ∧
    (∀ ev ∈ (deletingReconciler.Reconcile () "d1").trace,
      ev.isRemote = true → ev.isRemoteDelete = true) ∧
    Event.remoteGet "d1" (.error Err.edgeNotFound) ∈ (freshReconciler.Reconcile () "d1").trace ∧
    (∀ ev ∈ (freshReconciler.Reconcile () "d1").trace,
      ev.isRemote = true → ev.isRegistrationCall = true) :=
  ⟨rfl, by decide, by decide,
    (Reconcile_one_category_of_remote_effect deletingReconciler () "d1").2.1
      deletingUnsyncedDevice rfl (by decide),
    by decide,
    (Reconcile_one_category_of_remote_effect freshReconciler () "d1").2.2 "d1"
      (.error Err.edgeNotFound) (by decide)⟩

/-- C16 fails on the code: when the read of a property with a non-empty desired
value answers not-found and hands back no state object, the loop panics on
the nil state right after the read; no remote write is issued for the
property and the loop returns nothing.  Only when a state object comes back
with the not-found does the loop go on to the write. -/
theorem read_not_found_without_state_panics :
    (notFoundNilReconciler.reconcileDeviceProperties { st := () } onePropertyDevice
        onePropertyDevice.status).1 = Completion.panicked ∧
    (notFoundNilReconciler.reconcileDeviceProperties { st := () } onePropertyDevice
        onePropertyDevice.status).2.trace =
      [Event.remoteGetProperty "A" (none, some Err.edgeNotFound)] ∧
    (∀ res, Event.remoteUpdateProperty "A" res ∉
      (notFoundNilReconciler.reconcileDeviceProperties { st := () } onePropertyDevice
        onePropertyDevice.status).2.trace) ∧
    (notFoundNilReconciler.Reconcile () "d1").out = Completion.panicked ∧
    (notFoundEmptyStateReconciler.reconcileDeviceProperties { st := () } onePropertyDevice
        onePropertyDevice.status).1 =
      Completion.returned
        ({ onePropertyDevice.status with
            deviceProperties := some [("A", { name := "A", getURL := "", actualValue := "1" })] },
          []) ∧
    (notFoundEmptyStateReconciler.reconcileDeviceProperties { st := () } onePropertyDevice
        onePropertyDevice.status).2.trace =
      [Event.remoteGetProperty "A" (some {}, some Err.edgeNotFound),
       Event.remoteUpdateProperty "A" none] := by
  refine ⟨by decide, by decide, ?_, by decide, by decide, by decide⟩
  intro res
  have h : (notFoundNilReconciler.reconcileDeviceProperties { st := () } onePropertyDevice
      onePropertyDevice.status).2.trace =
      [Event.remoteGetProperty "A" (none, some Err.edgeNotFound)] := by decide
  rw [h]
  simp

/-- C17 fails as stated: an integer attribute is lost.  The only attribute of
`int64AttributeResource` is the `int64` value 5 under the key `count`, an
integer, which the specification lists among the kinds to stringify; the
attribute map `toKubeDeviceResource` produces is empty, so the key `count` is
absent from it. -/
theorem toKubeDeviceResource_drops_int64_attribute :
    ("count", AttrValue.otherInt 5) ∈ int64AttributeResource.attributes ∧
    (AttrValue.otherInt 5).listedBySpec = true ∧
    (toKubeDeviceResource (fun _ => "") int64AttributeResource).attributes = [] ∧
    ¬ ∃ v, ("count", v) ∈
      (toKubeDeviceResource (fun _ => "") int64AttributeResource).attributes := by
  refine ⟨by decide, rfl, rfl, ?_⟩
  rintro ⟨v, hv⟩
  have h : (toKubeDeviceResource (fun _ => "") int64AttributeResource).attributes = [] := rfl
  rw [h] at hv
  exact List.not_mem_nil _ hv

/-- C17 (amended). Attribute stringification, remote to local: the attribute
map `toKubeDeviceResource` produces holds exactly the entries of the remote map
whose value is stringified, under the same key, and nothing else; a key is
present exactly when its remote value is a `string`, an `int`, a `float64` or a
value with a `String()` method; text maps to itself, an `int` to its decimal
text, a `float64` to its `%f` rendering, a Stringer to its `String()` result;
an integer of another type, a `float32` and every other kind of value are
dropped with their key. -/
theorem toKubeDeviceResource_attributes (fmtF : Float64 → String) (dr : dtos.DeviceResource) :
    (∀ k v, (k, v) ∈ (toKubeDeviceResource fmtF dr).attributes ↔
      ∃ a, (k, a) ∈ dr.attributes ∧ stringifyAttr fmtF a = some v) ∧
    (∀ k, (∃ v, (k, v) ∈ (toKubeDeviceResource fmtF dr).attributes) ↔
      ∃ a, (k, a) ∈ dr.attributes ∧
        ((∃ t, a = AttrValue.str t) ∨ (∃ i, a = AttrValue.int i) ∨
         (∃ f, a = AttrValue.float64 f) ∨ (∃ t, a = AttrValue.stringer t))) ∧
    (∀ t, stringifyAttr fmtF (AttrValue.str t) = some t) ∧
    (∀ i : Int, stringifyAttr fmtF (AttrValue.int i) = some (toString i)) ∧
    (∀ f, stringifyAttr fmtF (AttrValue.float64 f) = some (fmtF f)) ∧
    (∀ t, stringifyAttr fmtF (AttrValue.stringer t) = some t) ∧
    (∀ i : Int, stringifyAttr fmtF (AttrValue.otherInt i) = none) ∧
    (∀ b : Nat, stringifyAttr fmtF (AttrValue.float32 b) = none) ∧
    stringifyAttr fmtF AttrValue.other = none := by
  have hmem : ∀ k v, (k, v) ∈ (toKubeDeviceResource fmtF dr).attributes ↔
      ∃ a, (k, a) ∈ dr.attributes ∧ stringifyAttr fmtF a = some v := by
    intro k v
    simp only [toKubeDeviceResource, List.mem_filterMap, Option.map_eq_some', Prod.mk.injEq,
      Prod.exists]
    constructor
    · rintro ⟨k', a, hin, v', hv', rfl, rfl⟩
      exact ⟨a, hin, hv'⟩
    · rintro ⟨a, hin, hv⟩
      exact ⟨k, a, hin, v, hv, rfl, rfl⟩
  have hsome : ∀ a : AttrValue,
      ((∃ t, a = AttrValue.str t) ∨ (∃ i, a = AttrValue.int i) ∨
       (∃ f, a = AttrValue.float64 f) ∨ (∃ t, a = AttrValue.stringer t)) ↔
      ∃ v, stringifyAttr fmtF a = some v := by
    intro a
    cases a <;> simp [stringifyAttr]
  refine ⟨hmem, ?_, fun _ => rfl, fun _ => rfl, fun _ => rfl, fun _ => rfl,
    fun _ => rfl, fun _ => rfl, rfl⟩
  intro k
  constructor
  · rintro ⟨v, hv⟩
    obtain ⟨a, hin, ha⟩ := (hmem k v).1 hv
    exact ⟨a, hin, (hsome a).2 ⟨v, ha⟩⟩
  · rintro ⟨a, hin, ha⟩
    obtain ⟨v, hv⟩ := (hsome a).1 ha
    exact ⟨v, (hmem k v).2 ⟨a, hin, hv⟩⟩

/-- An evaluation of `toKubeDeviceResource`: one attribute of each kind. -/
theorem toKubeDeviceResource_attributes_example (fmtF : Float64 → String) :
    (toKubeDeviceResource fmtF mixedAttributesResource).attributes =
      [("unit", "C"), ("register", "40001"), ("offset", "-3"), ("kind", "holding")] := by
  rfl

/-- The witness of C17 (amended): the `int` attribute of the example comes
back as its decimal text, and the attribute of another kind is dropped with its
key. -/
theorem toKubeDeviceResource_attributes_witness :
    ("register", AttrValue.int 40001) ∈ mixedAttributesResource.attributes ∧
    ("register", "40001") ∈
      (toKubeDeviceResource (fun _ => "") mixedAttributesResource).attributes ∧
    ¬ ∃ v, ("writable", v) ∈
      (toKubeDeviceResource (fun _ => "") mixedAttributesResource).attributes :=
  ⟨by decide,
    ((toKubeDeviceResource_attributes (fun _ => "") mixedAttributesResource).1 "register"
      "40001").2 ⟨AttrValue.int 40001, by decide, rfl⟩,
    fun h => by
      obtain ⟨a, hin, ha⟩ :=
        ((toKubeDeviceResource_attributes (fun _ => "") mixedAttributesResource).2.1
          "writable").1 h
      simp [mixedAttributesResource] at hin
      subst hin
      simp at ha⟩

end YurtDeviceController
